import Mathlib

/-!
# The XPU tensor copy engine (`csrc/aten/operators/Copy.cpp`)

A shallow embedding of the copy engine of the extension: the strategy selection of
`copy_requires_temporaries` and `copy_kernel_dpcpp`, the device-to-device path
`copy_device_to_device` with its two-way stream barrier, the staging fallback, the layout
check `onednn_strides_check` and the entry point `copy_`.

Effects are made explicit: every function that submits work returns a `Run`, the list of
operations it issued in program order together with the fatal error, if any, that ended it.
The tensor library, the stream/event runtime and the reorder library are collaborators of
the engine: what the engine asks of them is recorded as an `Op`, and what they answer is
read from an `Env`.
-/

namespace IpexCopy

/-! ## Data model -/

/-- The device kinds of `c10::DeviceType` the engine distinguishes: the host, the XPU, and
every other kind. -/
inductive DeviceType where
  | CPU
  | XPU
  | other (code : Nat)
  deriving DecidableEq, Repr

/-- A `c10::Device`: a kind and an index; two devices are equal when both agree. -/
structure Device where
  type : DeviceType
  index : Int
  deriving DecidableEq, Repr

/-- `Device::is_cpu()`. -/
def Device.is_cpu (d : Device) : Bool := decide (d.type = DeviceType.CPU)

/-- `c10::ScalarType`. -/
inductive ScalarType where
  | kByte | kChar | kShort | kInt | kLong
  | kHalf | kFloat | kDouble
  | kComplexHalf | kComplexFloat | kComplexDouble
  | kBool
  | kQInt8 | kQUInt8 | kQInt32
  | kBFloat16
  | kQUInt4x2 | kQUInt2x4
  deriving DecidableEq, Repr

/-- `c10::isQIntType`. -/
def isQIntType : ScalarType → Bool
  | .kQInt8 | .kQUInt8 | .kQInt32 | .kQUInt4x2 | .kQUInt2x4 => true
  | _ => false

/-- `c10::isComplexType`. -/
def isComplexType : ScalarType → Bool
  | .kComplexHalf | .kComplexFloat | .kComplexDouble => true
  | _ => false

/-- `c10::elementSize`: bytes per element. -/
def elementSize : ScalarType → Nat
  | .kByte => 1 | .kChar => 1 | .kShort => 2 | .kInt => 4 | .kLong => 8
  | .kHalf => 2 | .kFloat => 4 | .kDouble => 8
  | .kComplexHalf => 4 | .kComplexFloat => 8 | .kComplexDouble => 16
  | .kBool => 1
  | .kQInt8 => 1 | .kQUInt8 => 1 | .kQInt32 => 4
  | .kBFloat16 => 2
  | .kQUInt4x2 => 1 | .kQUInt2x4 => 1

/-- `at::MemoryFormat`, as far as `copy_` uses it. -/
inductive MemoryFormat where
  | Contiguous
  | ChannelsLast
  deriving DecidableEq, Repr

/-- A tensor view. `impl` identifies the `TensorImpl` the handle points to (`is_same` compares
it); `geometry` is the ordered sequence of (size, stride) pairs; `data_ptr` is the address of
the first element. -/
structure Tensor where
  impl : Nat
  device : Device
  dtype : ScalarType
  geometry : List (Int × Int)
  storage_offset : Int
  is_conj : Bool
  is_neg : Bool
  is_quantized : Bool
  quantizer : Nat
  data_ptr : Nat
  deriving DecidableEq, Repr

/-- `Tensor::sizes()`. -/
def Tensor.sizes (t : Tensor) : List Int := t.geometry.map Prod.fst

/-- `Tensor::strides()`. -/
def Tensor.strides (t : Tensor) : List Int := t.geometry.map Prod.snd

/-- `Tensor::dim()`. -/
def Tensor.dim (t : Tensor) : Nat := t.sizes.length

/-- `Tensor::is_same`: both handles point to the same `TensorImpl`. -/
def Tensor.is_same (a b : Tensor) : Bool := decide (a.impl = b.impl)

/-- `set_quantizer_`. -/
def set_quantizer_ (t : Tensor) (q : Nat) : Tensor := { t with quantizer := q }

/-- The iteration descriptor over exactly two operands: index 0 is the destination, index 1
the source. `numel` and `is_contiguous` are what the iterator built by
`TensorIteratorConfig` reports. -/
structure TensorIterator where
  dst : Tensor
  src : Tensor
  numel : Nat
  is_contiguous : Bool
  deriving DecidableEq, Repr

/-- `iter.tensor(i)`. -/
def TensorIterator.tensor (iter : TensorIterator) : Nat → Tensor
  | 0 => iter.dst
  | _ => iter.src

/-- `iter.device(i)`. -/
def TensorIterator.device (iter : TensorIterator) (i : Nat) : Device := (iter.tensor i).device

/-- `iter.device_type(i)`. -/
def TensorIterator.device_type (iter : TensorIterator) (i : Nat) : DeviceType :=
  (iter.device i).type

/-- `iter.dtype(i)`. -/
def TensorIterator.dtype (iter : TensorIterator) (i : Nat) : ScalarType := (iter.tensor i).dtype

/-- `iter.element_size(i)`. -/
def TensorIterator.element_size (iter : TensorIterator) (i : Nat) : Nat :=
  elementSize (iter.dtype i)

/-- `iter.data_ptr(i)`. -/
def TensorIterator.data_ptr (iter : TensorIterator) (i : Nat) : Nat := (iter.tensor i).data_ptr

/-! ## Operations and outcomes -/

/-- `dpcppMemcpyKind`. -/
inductive dpcppMemcpyKind where
  | HostToDevice
  | DeviceToHost
  | DeviceToDevice
  deriving DecidableEq, Repr

/-- The per-element function handed to `dpcpp_kernel_for_tensor_iter`. -/
inductive Transform where
  | identity
  | conj
  | neg
  | conj_neg
  deriving DecidableEq, Repr

/-- The dtype dispatch that wraps a kernel launch. -/
inductive DispatchKey where
  | QINT_TYPES
  | COMPLEX_TYPES
  | ALL_TYPES_AND_COMPLEX_AND3
  deriving DecidableEq, Repr

/-- The two events of `copy_device_to_device`. -/
inductive DPCPPEvent where
  | dst_ready
  | src_ready
  deriving DecidableEq, Repr

/-- A `DPCPPStream`, the current stream of the device with the given index. -/
structure DPCPPStream where
  device_index : Int
  deriving DecidableEq, Repr

/-- `getCurrentDPCPPStream`. -/
def getCurrentDPCPPStream (device_index : Int) : DPCPPStream := ⟨device_index⟩

/-- What the engine asks of its collaborators. The byte copies and the kernel run on the
current stream of the device bound by the most recent `device_guard`; the kernel is launched
on the iterator it is handed. The tensor-library calls of the staging branch stand for the
whole call, with the tensor it returned. `native_copy` is a `Tensor::copy_` between two
operands of which none is on an XPU: the tensor library serves it without entering the
engine. -/
inductive Op where
  | device_guard (d : Device)
  | record (ev : DPCPPEvent) (stream : DPCPPStream)
  | block (ev : DPCPPEvent) (stream : DPCPPStream)
  | dpcppMemcpyAsync (dst src : Nat) (nbytes : Nat) (kind : dpcppMemcpyKind)
  | dpcppMemcpy (dst src : Nat) (nbytes : Nat) (kind : dpcppMemcpyKind)
  | dpcpp_kernel_for_tensor_iter (key : DispatchKey) (f : Transform) (iter : TensorIterator)
  | reorder_copy (src dst : Tensor)
  | empty_affine_quantized (result : Tensor)
  | set_quantizer (t : Tensor) (quantizer : Nat)
  | empty_like (like : Tensor) (dtype : ScalarType) (result : Tensor)
  | to_dtype (self : Tensor) (dtype : ScalarType) (result : Tensor)
  | expand_as (self other result : Tensor)
  | contiguous (self result : Tensor)
  | native_copy (dst src : Tensor)
  deriving DecidableEq, Repr

/-- Fatal outcomes. -/
inductive Err where
  | internal_assert (line : Nat)
  | not_implemented (key : DispatchKey) (dtype : ScalarType)
  | expand_check
  | recursion_limit
  deriving DecidableEq, Repr

/-- The operations a call issued, in program order, and the fatal error that ended it, if
any. -/
structure Run where
  ops : List Op
  err : Option Err
  deriving DecidableEq, Repr

/-- A call that returned normally. -/
def Run.done (ops : List Op) : Run := ⟨ops, none⟩

/-- A call ended by a fatal error after the given operations. -/
def Run.fail (ops : List Op) (e : Err) : Run := ⟨ops, some e⟩

/-- Sequencing: the second call runs only if the first returned normally. -/
def Run.seq (a b : Run) : Run :=
  match a.err with
  | some _ => a
  | none => ⟨a.ops ++ b.ops, b.err⟩

/-! ## Strategy selection -/

/-- `copy_requires_temporaries` (Copy.cpp, lines 41-67). -/
def copy_requires_temporaries (iter : TensorIterator) (p2p_enabled : Bool) : Except Err Bool :=
  let dst_device := iter.device 0
  let src_device := iter.device 1
  if dst_device = src_device then
    -- We never require temporaries for copies on the same GPU.
    if dst_device.type = DeviceType.XPU ∧ src_device.type = DeviceType.XPU then
      .ok false
    else
      .error (Err.internal_assert 47)
  else
    let same_dtype := decide (iter.dtype 0 = iter.dtype 1)
    if same_dtype && iter.is_contiguous then
      -- Contiguous same-dtype copies can always use sycl copy
      .ok false
    else if dst_device.type = DeviceType.XPU ∧ src_device.type = DeviceType.XPU then
      -- Copies between GPUs can use the copy kernel if P2P is supported
      .ok (!p2p_enabled)
    else
      .ok true

/-- `maybe_enable_p2p_access` (Copy.cpp, lines 69-75). -/
def maybe_enable_p2p_access (dst_device src_device : Device) : Bool :=
  if dst_device.is_cpu || src_device.is_cpu then
    false
  else
    -- no p2p so far
    false

/-! ## Device-to-device copy -/

/-- One `IPEX_DISPATCH_*(dtype, ..., [&] { dpcpp_kernel_for_tensor_iter(iter, f); })`
statement: the kernel is launched when the dispatch covers `dtype`, and the call is fatal
otherwise. Which dtypes a dispatch covers is given by `dispatch`. -/
def dispatch_kernel (dispatch : DispatchKey → ScalarType → Bool) (key : DispatchKey)
    (dtype : ScalarType) (f : Transform) (iter : TensorIterator) : Except Err Op :=
  if dispatch key dtype then
    .ok (Op.dpcpp_kernel_for_tensor_iter key f iter)
  else
    .error (Err.not_implemented key dtype)

/-- The `memcpy_eligible` flag of `copy_device_to_device` (lines 85-89). -/
def memcpy_eligible (iter : TensorIterator) : Bool :=
  let same_type := decide (iter.dtype 0 = iter.dtype 1)
  let same_conj := decide ((iter.tensor 0).is_conj = (iter.tensor 1).is_conj)
  let same_neg := decide ((iter.tensor 0).is_neg = (iter.tensor 1).is_neg)
  same_type && same_conj && same_neg && iter.is_contiguous

/-- The dispatch and the per-element function the kernel branch of `copy_device_to_device`
selects (lines 119-153). -/
def kernel_choice (iter : TensorIterator) : DispatchKey × Transform :=
  let same_type := decide (iter.dtype 0 = iter.dtype 1)
  let same_conj := decide ((iter.tensor 0).is_conj = (iter.tensor 1).is_conj)
  let same_neg := decide ((iter.tensor 0).is_neg = (iter.tensor 1).is_neg)
  let dtype := iter.dtype 0
  if isQIntType dtype then
    (.QINT_TYPES, .identity)
  else if same_neg then
    if !same_conj && same_type then
      (.COMPLEX_TYPES, .conj)
    else
      (.ALL_TYPES_AND_COMPLEX_AND3, .identity)
  else
    if !same_conj && same_type then
      (.COMPLEX_TYPES, .conj_neg)
    else
      (.ALL_TYPES_AND_COMPLEX_AND3, .neg)

/-- The transfer statement of `copy_device_to_device` (lines 112-154): the byte copy or the
kernel launch. -/
def device_to_device_transfer (dispatch : DispatchKey → ScalarType → Bool)
    (iter : TensorIterator) : Except Err Op :=
  let numel := iter.numel
  if memcpy_eligible iter then
    .ok (Op.dpcppMemcpyAsync (iter.data_ptr 0) (iter.data_ptr 1) (numel * iter.element_size 0)
      dpcppMemcpyKind.DeviceToDevice)
  else
    let dtype := iter.dtype 0
    dispatch_kernel dispatch (kernel_choice iter).1 dtype (kernel_choice iter).2 iter

/-- What `copy_device_to_device` does before the transfer (lines 94-110): it binds the source
device and takes its current stream as `copy_stream`; for a cross-device copy the event
`dst_ready` is recorded on the current stream of the destination device and `copy_stream`
blocks on it. -/
def before_transfer (iter : TensorIterator) : List Op :=
  let dst_device := iter.device 0
  let src_device := iter.device 1
  let copy_stream := getCurrentDPCPPStream src_device.index
  Op.device_guard src_device ::
    (if src_device ≠ dst_device then
      [Op.record .dst_ready (getCurrentDPCPPStream dst_device.index),
       Op.block .dst_ready copy_stream]
     else [])

/-- What `copy_device_to_device` does after the transfer (lines 156-164): for a cross-device
copy the event `src_ready` is recorded on `copy_stream` and the current stream of the
destination device blocks on it. -/
def after_transfer (iter : TensorIterator) : List Op :=
  let dst_device := iter.device 0
  let src_device := iter.device 1
  let copy_stream := getCurrentDPCPPStream src_device.index
  if src_device ≠ dst_device then
    [Op.record .src_ready copy_stream,
     Op.block .src_ready (getCurrentDPCPPStream dst_device.index)]
  else []

/-- `copy_device_to_device` (Copy.cpp, lines 77-165). -/
def copy_device_to_device (dispatch : DispatchKey → ScalarType → Bool)
    (iter : TensorIterator) (non_blocking : Bool) : Run :=
  let _ := non_blocking
  if iter.numel = 0 then
    Run.done []
  else
    match device_to_device_transfer dispatch iter with
    | .error e => Run.fail (before_transfer iter) e
    | .ok transfer => Run.done (before_transfer iter ++ transfer :: after_transfer iter)

/-! ## The collaborators -/

/-- What the engine reads from its collaborators: the iterator builder
(`TensorIteratorConfig`), the dtype dispatch tables of `comm/ATDispatch.h`, the dtype query of
the reorder library, and the tensor-library calls that create or test tensors. -/
structure Env where
  /-- The `numel()` of the iterator built for (destination, source). -/
  iter_numel : Tensor → Tensor → Nat
  /-- The `is_contiguous()` of the iterator built for (destination, source). -/
  iter_is_contiguous : Tensor → Tensor → Bool
  /-- Whether an `IPEX_DISPATCH_*` table covers a dtype. -/
  dispatch : DispatchKey → ScalarType → Bool
  /-- The query `xpu::oneDNN::is_supported_onednn_dtype`. -/
  is_supported_onednn_dtype : Tensor → Bool
  /-- The method `Tensor::is_contiguous(memory_format)`. -/
  is_contiguous : Tensor → MemoryFormat → Bool
  /-- The tensor `_empty_affine_quantized(self.sizes(), self.options(), 1.f, 0, mfmt)`. -/
  empty_affine_quantized : Tensor → MemoryFormat → Tensor
  /-- The tensor `at::empty_like(t, dtype, LEGACY_CONTIGUOUS_MEMORY_FORMAT)`. -/
  empty_like : Tensor → ScalarType → Tensor
  /-- The tensor `t.to(dtype)`. -/
  to_dtype : Tensor → ScalarType → Tensor
  /-- The tensor `t.expand_as(other)`. -/
  expand_as : Tensor → Tensor → Tensor
  /-- The tensor `t.contiguous()`. -/
  contiguous : Tensor → Tensor
  /-- The sizes and strides `inferExpandGeometry(sizes, strides, target)` returns. -/
  inferExpandGeometry : List Int → List Int → List Int → List Int × List Int
  /-- The identity of the handle `detail::make_tensor` creates over the storage of a
  tensor. -/
  make_tensor : Tensor → Nat

/-- `BUILD_TENSOR_ITER` (Copy.cpp, lines 31-39). -/
def BUILD_TENSOR_ITER (env : Env) (self src : Tensor) : TensorIterator :=
  ⟨self, src, env.iter_numel self src, env.iter_is_contiguous self src⟩

/-! ## Staging fallback -/

/-- `as_strided_quantized_dpcpp` (Copy.cpp, lines 167-177): a new handle over the same
storage, key set, dtype and quantizer, with the given sizes and strides. -/
def as_strided_quantized_dpcpp (env : Env) (self : Tensor) (size stride : List Int) : Tensor :=
  { self with impl := env.make_tensor self, geometry := size.zip stride }

/-- `expand_as_quantized_dpcpp` (Copy.cpp, lines 179-207). -/
def expand_as_quantized_dpcpp (env : Env) (self other : Tensor) : Except Err Tensor :=
  let size := other.sizes
  if size.length ≥ self.dim then
    let expanded := env.inferExpandGeometry self.sizes self.strides size
    .ok (as_strided_quantized_dpcpp env self expanded.1 expanded.2)
  else
    .error Err.expand_check

/-- The dense temporaries of the staging branch (Copy.cpp, lines 221-245): the pair
(`dst_contig`, `src_contig`) with the tensor-library calls that produced them, or the calls
made before a fatal error. -/
def staging_temporaries (env : Env) (iter : TensorIterator) :
    Except (List Op × Err) (Tensor × Tensor × List Op) :=
  let dst := iter.tensor 0
  -- Type conversions are performed on the CPU for CPU-GPU copies and on the src device for
  -- GPU-GPU copies.
  if iter.device_type 0 = DeviceType.XPU then
    let fresh := env.empty_like dst dst.dtype
    let dst_contig := if env.is_contiguous dst .Contiguous then dst else fresh
    let ops_dst : List Op :=
      if env.is_contiguous dst .Contiguous then [] else [Op.empty_like dst dst.dtype fresh]
    let converted := env.to_dtype (iter.tensor 1) (iter.dtype 0)
    let ops_to := ops_dst ++ [Op.to_dtype (iter.tensor 1) (iter.dtype 0) converted]
    if dst.is_quantized then
      match expand_as_quantized_dpcpp env converted dst with
      | .error e => .error (ops_to, e)
      | .ok expanded =>
        let src_contig := env.contiguous expanded
        .ok (dst_contig, src_contig, ops_to ++ [Op.contiguous expanded src_contig])
    else
      let expanded := env.expand_as converted dst
      let src_contig := env.contiguous expanded
      .ok (dst_contig, src_contig,
        ops_to ++ [Op.expand_as converted dst expanded, Op.contiguous expanded src_contig])
  else
    let same_type := decide (iter.dtype 0 = iter.dtype 1)
    let fresh := env.empty_like dst (iter.dtype 1)
    let dst_contig := if env.is_contiguous dst .Contiguous && same_type then dst else fresh
    let ops_dst : List Op :=
      if env.is_contiguous dst .Contiguous && same_type then []
      else [Op.empty_like dst (iter.dtype 1) fresh]
    let expanded := env.expand_as (iter.tensor 1) dst
    let src_contig := env.contiguous expanded
    .ok (dst_contig, src_contig,
      ops_dst ++ [Op.expand_as (iter.tensor 1) dst expanded, Op.contiguous expanded src_contig])

/-- The staging branch of `copy_kernel_dpcpp` (Copy.cpp, lines 218-258). `copy` is the
`Tensor::copy_` the branch calls back into; it returns the handle it was called on, as the
call left it, and the operations it issued. -/
def copy_via_temporaries (env : Env) (copy : Tensor → Tensor → Bool → Tensor × Run)
    (iter : TensorIterator) (non_blocking : Bool) : Run :=
  let dst := iter.tensor 0
  match staging_temporaries env iter with
  | .error (ops, e) => Run.fail ops e
  | .ok (dst_contig, src_contig, ops) =>
    -- perform a same-dtype copy on contiguous tensors
    if dst_contig.sizes ≠ src_contig.sizes then
      Run.fail ops (Err.internal_assert 248)
    else if dst_contig.dtype ≠ src_contig.dtype then
      Run.fail ops (Err.internal_assert 249)
    else
      let first := copy dst_contig src_contig non_blocking
      let dst_contig := first.1
      -- if necessary, copy back into dst
      let back : Run :=
        if !dst_contig.is_same dst then
          if dst_contig.device = dst.device then
            (copy dst dst_contig non_blocking).2
          else
            Run.fail [] (Err.internal_assert 254)
        else
          Run.done []
      ((Run.done ops).seq first.2).seq back

/-! ## Host/device transfer -/

/-- The copy between CPU and GPU of `copy_kernel_dpcpp` (Copy.cpp, lines 267-291). -/
def copy_host_device (iter : TensorIterator) (non_blocking : Bool) : Run :=
  let dst_device := iter.device 0
  let src_device := iter.device 1
  let bound : Option (Device × dpcppMemcpyKind) :=
    if dst_device.type = DeviceType.XPU ∧ src_device.is_cpu = true then
      some (dst_device, .HostToDevice)
    else if dst_device.is_cpu = true ∧ src_device.type = DeviceType.XPU then
      some (src_device, .DeviceToHost)
    else
      none
  match bound with
  | none => Run.fail [] (Err.internal_assert 277)
  | some (guard, kind) =>
    let dst := iter.data_ptr 0
    let src := iter.data_ptr 1
    let nbytes := iter.numel * iter.element_size 0
    if non_blocking then
      Run.done [Op.device_guard guard, Op.dpcppMemcpyAsync dst src nbytes kind]
    else
      Run.done [Op.device_guard guard, Op.dpcppMemcpy dst src nbytes kind]

/-- `copy_kernel_dpcpp` (Copy.cpp, lines 209-292). A `TensorIterator` has exactly two
operands, so the `AT_ASSERT(iter.ntensors() == 2)` of line 210 holds. -/
def copy_kernel_dpcpp (env : Env) (copy : Tensor → Tensor → Bool → Tensor × Run)
    (iter : TensorIterator) (non_blocking : Bool) : Run :=
  let dst_device := iter.device 0
  let src_device := iter.device 1
  -- Enable p2p access between devices. (No-op if it involves the CPU)
  let p2p_enabled := maybe_enable_p2p_access dst_device src_device
  match copy_requires_temporaries iter p2p_enabled with
  | .error e => Run.fail [] e
  | .ok true => copy_via_temporaries env copy iter non_blocking
  | .ok false =>
    -- Copy on GPU (or between GPUs)
    if dst_device.type = DeviceType.XPU ∧ src_device.type = DeviceType.XPU then
      copy_device_to_device env.dispatch iter non_blocking
    else
      -- Copy between CPU and GPU
      copy_host_device iter non_blocking

/-! ## Layout compatibility check -/

/-- `DNNL_MAX_NDIMS` of the reorder library. -/
def DNNL_MAX_NDIMS : Nat := 12

/-- `DNNL_RUNTIME_DIM_VAL` of the reorder library, `INT64_MIN`. -/
def DNNL_RUNTIME_DIM_VAL : Int := -(2 ^ 63)

/-- Modelled from the spec: `MAX_ONEDNN_SUPPORTED_DIMS`, declared outside the excerpt; the
fixed maximum dimensionality (6) of the reorder path. -/
def MAX_ONEDNN_SUPPORTED_DIMS : Nat := 6

/-- Modelled from the spec: `xpu::oneDNN::get_onednn_dims`, declared in `oneDNN/Utils.h`
outside the excerpt; the ordered sizes of the view. -/
def get_onednn_dims (t : Tensor) : List Int := t.sizes

/-- Modelled from the spec: `xpu::oneDNN::get_onednn_strides`, declared in `oneDNN/Utils.h`
outside the excerpt; the ordered strides of the view. -/
def get_onednn_strides (t : Tensor) : List Int := t.strides

/-- Conversion of a 64-bit product to `int64_t` (two's complement wrap). -/
def to_int64 (x : Int) : Int := (x + 2 ^ 63) % 2 ^ 64 - 2 ^ 63

/-- Conversion to `int` (32 bits), the type of `block_size` and `min_stride`. -/
def to_int (x : Int) : Int := (x + 2 ^ 31) % 2 ^ 32 - 2 ^ 31

/-- The first loop of `onednn_strides_check` (lines 321-332): `true` when it returns early
on an empty dimension or a runtime stride. -/
def early_exit : List Int → List Int → Bool
  | padded_dim :: padded_dims, stride :: strides =>
    if padded_dim = 0 then true
    else if stride = DNNL_RUNTIME_DIM_VAL then true
    else early_exit padded_dims strides
  | _, _ => false

/-- The comparator `idx_sorter` (lines 342-349). -/
def idx_sorter (strides padded_dims : List Int) (a b : Nat) : Bool :=
  if strides.getD a 0 = strides.getD b 0 ∧ padded_dims.getD a 0 = padded_dims.getD b 0 then
    decide (a < b)
  else if strides.getD a 0 = strides.getD b 0 then
    decide (padded_dims.getD a 0 < padded_dims.getD b 0)
  else
    decide (strides.getD a 0 < strides.getD b 0)

/-- The second loop of `onednn_strides_check` (lines 352-367) over the sorted `perm`;
`min_stride` is an `int`. -/
def min_stride_check (strides padded_dims blocks : List Int) (block_size : Int) :
    Int → List Nat → Bool
  | _, [] => true
  | min_stride, d :: perm =>
    -- Make an exception for strides[d] == 0 as it has broadcast semantics
    if strides.getD d 0 = 0 then
      min_stride_check strides padded_dims blocks block_size min_stride perm
    else if strides.getD d 0 < min_stride then
      false
    else
      -- update min_stride for next iteration
      let padded_dim := padded_dims.getD d 0
      min_stride_check strides padded_dims blocks block_size
        (to_int (to_int64 (block_size * strides.getD d 0 * (padded_dim.tdiv (blocks.getD d 1)))))
        perm

/-- `onednn_strides_check` (Copy.cpp, lines 300-368), for views of at most `DNNL_MAX_NDIMS`
dimensions, the capacity of the arrays of the memory descriptor. The descriptor is
value-initialised, so its blocking has no inner blocks: every block factor is 1 and
`block_size` stays 1. -/
def onednn_strides_check (src : Tensor) : Bool :=
  let adims := get_onednn_dims src
  let ndims := adims.length
  let strides := get_onednn_strides src
  let padded_dims := adims
  if strides.isEmpty || ndims == 0 then
    true
  else if early_exit padded_dims strides then
    true
  else
    let blocks : List Int := List.replicate ndims 1
    let block_size : Int := 1
    let perm := List.insertionSort (fun a b => idx_sorter strides padded_dims a b = true)
      (List.range ndims)
    min_stride_check strides padded_dims blocks block_size block_size perm

/-! ## Entry point -/

/-- The condition under which `copy_` calls `xpu::oneDNN::reorder_copy` (lines 391-406). -/
def reorder_eligible (env : Env) (self src : Tensor) : Bool :=
  let src_device := src.device
  let dst_device := self.device
  let same_device := decide (src_device.type = DeviceType.XPU) && decide (src_device = dst_device)
  let has_sz_st := src.sizes.length != 0 && src.strides.length != 0 &&
    self.sizes.length != 0 && self.strides.length != 0
  same_device && has_sz_st && onednn_strides_check self && onednn_strides_check src &&
    env.is_supported_onednn_dtype self && env.is_supported_onednn_dtype src &&
    decide (src.dim ≤ MAX_ONEDNN_SUPPORTED_DIMS)

/-- The destination handle after lines 376-383 of `copy_`: when both operands are quantized
it is rebound to a new affine-quantized tensor carrying the quantizer of the source. -/
def rebind_quantized (env : Env) (self src : Tensor) : Tensor × List Op :=
  if self.is_quantized && src.is_quantized then
    let mfmt := if env.is_contiguous self .ChannelsLast then MemoryFormat.ChannelsLast
      else MemoryFormat.Contiguous
    let fresh := env.empty_affine_quantized self mfmt
    (set_quantizer_ fresh src.quantizer,
      [Op.empty_affine_quantized fresh, Op.set_quantizer fresh src.quantizer])
  else
    (self, [])

/-- The body of `impl::copy_` (Copy.cpp, lines 370-412); `copy` is the `Tensor::copy_` that
the staging branch calls back into. The result is the destination handle as the call left it
and the operations issued. -/
def copy_body (env : Env) (copy : Tensor → Tensor → Bool → Tensor × Run)
    (self src : Tensor) (non_blocking : Bool) : Tensor × Run :=
  if self.is_same src then
    (self, Run.done [])
  else
    let rebound := rebind_quantized env self src
    let self := rebound.1
    let iter := BUILD_TENSOR_ITER env self src
    if iter.numel = 0 then
      (self, Run.done rebound.2)
    else if reorder_eligible env self src then
      (self, Run.done (rebound.2 ++ [Op.reorder_copy src self]))
    else
      (self, (Run.done rebound.2).seq (copy_kernel_dpcpp env copy iter non_blocking))

/-- The `Tensor::copy_` that the staging branch calls back into, with a bound on the depth of
the calls: at depth 0 the call is cut off with `recursion_limit`. The call is dispatched on
the devices of its operands: it enters `impl::copy_` when an operand is on an XPU, and is
served by the tensor library itself (`native_copy`) otherwise. -/
def copy_at_depth (env : Env) : Nat → Tensor → Tensor → Bool → Tensor × Run
  | 0 => fun t _ _ => (t, Run.fail [] Err.recursion_limit)
  | depth + 1 => fun self src non_blocking =>
    if self.device.type = DeviceType.XPU ∨ src.device.type = DeviceType.XPU then
      copy_body env (copy_at_depth env depth) self src non_blocking
    else
      (self, Run.done [Op.native_copy self src])

/-- `impl::copy_` (Copy.cpp, lines 370-412); `depth` bounds the depth of the calls back into
`copy_` from the staging branch. -/
def copy_ (env : Env) (depth : Nat) (self src : Tensor) (non_blocking : Bool) : Tensor × Run :=
  copy_body env (copy_at_depth env depth) self src non_blocking

/-! ## Reference collaborators

A concrete `Env`, used to run the engine on concrete tensors. -/

/-- Row-major strides of a dense tensor with the given sizes (a dimension of size 0 counts
as 1, as in the tensor library). -/
def dense_strides : List Int → List Int
  | [] => []
  | _ :: sizes =>
    match sizes, dense_strides sizes with
    | size :: _, stride :: strides => (stride * max size 1) :: stride :: strides
    | _, _ => [1]

/-- Row-major dense geometry over the given sizes. -/
def dense_geometry (sizes : List Int) : List (Int × Int) := sizes.zip (dense_strides sizes)

/-- Number of elements of a shape. -/
def shape_numel (sizes : List Int) : Nat := (sizes.foldl (fun acc size => acc * size) 1).toNat

/-- Row-major contiguity of a geometry, read from the innermost dimension outwards:
dimensions of size 1 are skipped, every other stride must equal the number of elements
inside it; a shape without elements is contiguous. -/
def row_major_from : Int → List (Int × Int) → Bool
  | _, [] => true
  | expected, (size, stride) :: outer =>
    if size = 1 then row_major_from expected outer
    else if stride = expected then row_major_from (expected * size) outer
    else false

/-- `Tensor::is_contiguous()` for the row-major format. -/
def Tensor.is_row_major (t : Tensor) : Bool :=
  shape_numel t.sizes == 0 || row_major_from 1 t.geometry.reverse

/-- `Tensor::is_contiguous(ChannelsLast)`: a rank-4 view whose strides are those of the NHWC
order. -/
def Tensor.is_channels_last (t : Tensor) : Bool :=
  match t.geometry with
  | [(_, sn), (c, sc), (h, sh), (w, sw)] =>
    decide (sc = 1) && decide (sw = c) && decide (sh = w * c) && decide (sn = h * w * c)
  | _ => false

/-- Sizes and strides of a view expanded to `target`: dimensions are aligned at the
innermost one, a dimension kept at its size keeps its stride, a broadcast or new dimension
gets stride 0. -/
def expand_geometry (geometry : List (Int × Int)) (target : List Int) : List (Int × Int) :=
  ((target.reverse.zipWithAll
    (fun (size : Option Int) (own : Option (Int × Int)) =>
      match size, own with
      | some size, some (own_size, own_stride) =>
        if own_size = size then some (size, own_stride) else some (size, 0)
      | some size, none => some (size, 0)
      | none, _ => none)
    geometry.reverse).filterMap id).reverse

/-- Modelled from the spec: the dtype dispatch tables of `comm/ATDispatch.h`, outside the
excerpt. The quantized table covers the quantized dtypes, the complex table the complex
dtypes, and the general table the boolean, integer, floating (including the 16-bit formats)
and complex dtypes. -/
def ipex_dispatch : DispatchKey → ScalarType → Bool
  | .QINT_TYPES, dtype => isQIntType dtype
  | .COMPLEX_TYPES, dtype => isComplexType dtype
  | .ALL_TYPES_AND_COMPLEX_AND3, dtype => !isQIntType dtype

/-- The dtypes the reorder library takes: 8-bit and 32-bit integers, the 16-bit and 32-bit
floating formats, and the 8-bit quantized dtypes. -/
def onednn_dtype_supported : ScalarType → Bool
  | .kByte | .kChar | .kInt | .kHalf | .kFloat | .kBFloat16 | .kQInt8 | .kQUInt8 => true
  | _ => false

/-- A new dense tensor shaped like `t` with the given dtype; `tag` separates the handles the
different calls create. -/
def new_dense (tag : Nat) (t : Tensor) (dtype : ScalarType) : Tensor :=
  { t with
    impl := 8 * t.impl + tag + 8
    dtype := dtype
    geometry := dense_geometry t.sizes
    storage_offset := 0
    is_conj := false
    is_neg := false
    data_ptr := 8 * t.data_ptr + tag + 8 }

/-- The reference collaborators. -/
def aten : Env where
  iter_numel := fun self _ => shape_numel self.sizes
  iter_is_contiguous := fun self src =>
    self.is_row_major && src.is_row_major && decide (self.sizes = src.sizes)
  dispatch := ipex_dispatch
  is_supported_onednn_dtype := fun t => onednn_dtype_supported t.dtype
  is_contiguous := fun t format =>
    match format with
    | .Contiguous => t.is_row_major
    | .ChannelsLast => t.is_channels_last
  empty_affine_quantized := fun t _ => new_dense 0 t t.dtype
  empty_like := fun t dtype => new_dense 1 t dtype
  to_dtype := fun t dtype => if t.dtype = dtype then t else new_dense 2 t dtype
  expand_as := fun t other =>
    { t with impl := 8 * t.impl + 11, geometry := expand_geometry t.geometry other.sizes }
  contiguous := fun t => if t.is_row_major then t else new_dense 4 t t.dtype
  inferExpandGeometry := fun sizes strides target =>
    let expanded := expand_geometry (sizes.zip strides) target
    (expanded.map Prod.fst, expanded.map Prod.snd)
  make_tensor := fun t => 8 * t.impl + 13

/-- A dense row-major tensor: handle `impl`, on `device`, of `dtype`, with the given sizes. -/
def dense_tensor (impl : Nat) (device : Device) (dtype : ScalarType) (sizes : List Int) :
    Tensor :=
  { impl := impl, device := device, dtype := dtype, geometry := dense_geometry sizes,
    storage_offset := 0, is_conj := false, is_neg := false, is_quantized := false,
    quantizer := 0, data_ptr := 4096 * (impl + 1) }

/-- The XPU with the given index. -/
def xpu (index : Int) : Device := ⟨DeviceType.XPU, index⟩

/-- The host. -/
def cpu : Device := ⟨DeviceType.CPU, -1⟩

/-! ## Classification of operations -/

/-- A raw byte-range copy, synchronous or asynchronous. -/
def Op.is_byte_copy : Op → Bool
  | .dpcppMemcpyAsync _ _ _ _ => true
  | .dpcppMemcpy _ _ _ _ => true
  | _ => false

/-- An elementwise kernel launch. -/
def Op.is_kernel : Op → Bool
  | .dpcpp_kernel_for_tensor_iter _ _ _ => true
  | _ => false

/-- A call of the native reorder. -/
def Op.is_reorder : Op → Bool
  | .reorder_copy _ _ => true
  | _ => false

/-- A completion signal recorded on, or awaited by, a stream. -/
def Op.is_signal : Op → Bool
  | .record _ _ => true
  | .block _ _ => true
  | _ => false

/-- An operation that is handed a data pointer of an operand. -/
def Op.reads_data_ptr (op : Op) : Bool := op.is_byte_copy || op.is_kernel || op.is_reorder

/-- A tensor-library call of the staging branch: the calls that materialise the dense
temporaries. -/
def Op.is_staging : Op → Bool
  | .empty_like _ _ _ => true
  | .to_dtype _ _ _ => true
  | .expand_as _ _ _ => true
  | .contiguous _ _ => true
  | _ => false

/-- An operation that makes the calling thread wait until the transfer has completed: the
synchronous byte copy. The engine has no other: it never synchronises a stream or an event
with the host. -/
def Op.waits_for_completion : Op → Bool
  | .dpcppMemcpy _ _ _ _ => true
  | _ => false

/-- The device on which an operation converts between dtypes, if it converts at all:
`t.to(dtype)` converts where `t` lives; the elementwise kernel runs on the source device that
`copy_device_to_device` has bound; the reorder runs on the one device of its operands; a copy
served by the tensor library between two operands off the XPU converts on the device of its
destination. -/
def Op.conversion_device : Op → Option Device
  | .to_dtype self dtype _ => if self.dtype = dtype then none else some self.device
  | .dpcpp_kernel_for_tensor_iter _ _ iter =>
    if iter.dtype 0 = iter.dtype 1 then none else some (iter.device 1)
  | .reorder_copy src dst => if src.dtype = dst.dtype then none else some src.device
  | .native_copy dst src => if dst.dtype = src.dtype then none else some dst.device
  | _ => none

/-! ## The policy table of the elementwise kernel, as specified -/

/-- The per-element mapping the specification assigns to a kernel launch: identity for a
quantized dtype; otherwise identity when the negate flags agree and the conjugate flags agree
or the dtypes differ, conjugate when the negate flags agree, the conjugate flags differ and
the dtypes are equal, negate when the negate flags differ and the conjugate flags agree or
the dtypes differ, and conjugate-of-negate when both flags differ and the dtypes are
equal. -/
def policy_table (quantized same_neg same_conj same_dtype : Bool) : Transform :=
  if quantized then .identity
  else if same_neg && (same_conj || !same_dtype) then .identity
  else if same_neg && !same_conj && same_dtype then .conj
  else if !same_neg && (same_conj || !same_dtype) then .neg
  else .conj_neg

/-! ## Values: what the operations write

Modelled from the spec: the byte copy, the elementwise kernel launcher, the reorder and the
tensor-library calls are collaborators of the engine; their effect on the elements is written
here as the specification describes them. Memory is described once the submitted work has
completed, in the order of submission. -/

/-- An element value: a complex number with integer parts `(re, im)`. The arithmetic of the
dtypes is not modelled: a dtype conversion keeps the value. -/
abbrev Value := Int × Int

/-- The per-element functions of the kernel. -/
def Transform.apply : Transform → Value → Value
  | .identity, v => v
  | .conj, v => (v.1, -v.2)
  | .neg, v => (-v.1, -v.2)
  | .conj_neg, v => (-v.1, v.2)

/-- Memory, host and device: one buffer per data pointer, holding at a byte offset the value
of the element that starts there. -/
abbrev Memory := Nat → Int → Value

/-- The byte offset of the element of a view at a logical index. -/
def Tensor.offset (t : Tensor) (index : List Int) : Int :=
  (elementSize t.dtype : Int) *
    (index.zip t.strides).foldl (fun acc entry => acc + entry.1 * entry.2) 0

/-- The element of a view at a logical index. -/
def Tensor.read (t : Tensor) (memory : Memory) (index : List Int) : Value :=
  memory t.data_ptr (t.offset index)

/-- Memory after one element has been written. -/
def Memory.write (memory : Memory) (ptr : Nat) (offset : Int) (v : Value) : Memory :=
  fun p o => if p = ptr ∧ o = offset then v else memory p o

/-- The logical indices of a shape, in row-major order. -/
def all_indices : List Int → List (List Int)
  | [] => [[]]
  | size :: sizes =>
    (List.range size.toNat).flatMap
      (fun i => (all_indices sizes).map (fun index => (i : Int) :: index))

/-- A view broadcast to a shape, as the iterator and `expand_as` broadcast it. -/
def Tensor.expand (t : Tensor) (sizes : List Int) : Tensor :=
  { t with geometry := expand_geometry t.geometry sizes }

/-- Modelled from the spec: an elementwise pass of a collaborator; every element of the
destination receives `f` of the element of the source at the same logical index, the source
being read as it was before the pass. -/
def elementwise (f : Transform) (dst src : Tensor) (memory : Memory) : Memory :=
  (all_indices dst.sizes).foldl
    (fun m index => m.write dst.data_ptr (dst.offset index) (f.apply (src.read memory index)))
    memory

/-- Modelled from the spec: the effect on the elements of the collaborators declared outside
the excerpt (`dpcppMemcpy`, `dpcppMemcpyAsync`, the kernel launcher, `reorder_copy` and the
tensor-library calls); `none` where the specification does not say. The byte copies move
`nbytes` bytes between the two buffers; the kernel applies its function elementwise over the iterator, the source broadcast to the shape of the destination; the
reorder converts layout and dtype between views of equal sizes and keeps the values, and is
not specified for views of different sizes; `to(dtype)` and `contiguous()` return their
operand or fill a new tensor with its values; a copy served by the tensor library copies the
values of the broadcast source. The other operations write no element. -/
def Op.exec (memory : Memory) : Op → Option Memory
  | .dpcppMemcpyAsync dst src nbytes _ | .dpcppMemcpy dst src nbytes _ =>
    some (fun p o => if p = dst ∧ 0 ≤ o ∧ o < nbytes then memory src o else memory p o)
  | .dpcpp_kernel_for_tensor_iter _ f iter =>
    some (elementwise f iter.dst (iter.src.expand iter.dst.sizes) memory)
  | .reorder_copy src dst =>
    if src.sizes = dst.sizes then some (elementwise .identity dst src memory) else none
  | .to_dtype self _ result =>
    if result.is_same self then some memory
    else some (elementwise .identity result self memory)
  | .contiguous self result =>
    if result.is_same self then some memory
    else some (elementwise .identity result self memory)
  | .native_copy dst src =>
    some (elementwise .identity dst (src.expand dst.sizes) memory)
  | _ => some memory

/-- The memory a sequence of operations leaves. -/
def exec_ops : List Op → Memory → Option Memory
  | [], memory => some memory
  | op :: ops, memory =>
    match op.exec memory with
    | some next => exec_ops ops next
    | none => none

/-! ## The layout check, as specified -/

/-- The order of the specification on the dimensions of a view, each given as
`(index, (size, stride))`: ascending stride, ties by ascending size, ties by dimension
index. -/
def dim_before (a b : Nat × Int × Int) : Prop :=
  a.2.2 < b.2.2 ∨ (a.2.2 = b.2.2 ∧ (a.2.1 < b.2.1 ∨ (a.2.1 = b.2.1 ∧ a.1 < b.1)))

instance : DecidableRel dim_before := fun a b => by
  unfold dim_before
  infer_instance

/-- The walk of the specification over the sorted dimensions, with unbounded integers: a
dimension of stride zero is skipped without changing the running minimum; a stride below the
minimum rejects the view; otherwise the minimum becomes stride × size. -/
def reference_walk : Int → List (Nat × Int × Int) → Bool
  | _, [] => true
  | minimum, d :: rest =>
    if d.2.2 = 0 then reference_walk minimum rest
    else if d.2.2 < minimum then false
    else reference_walk (d.2.2 * d.2.1) rest

/-- The layout check of the specification for a view of rank at least 1 without empty
dimension and without runtime stride: sort the dimensions, then walk them with the running
minimum started at 1. -/
def strides_check_reference (t : Tensor) : Bool :=
  reference_walk 1
    (List.insertionSort dim_before ((List.range t.geometry.length).zip t.geometry))

/-- The second loop of `onednn_strides_check` carried out with unbounded integers: the same
walk over the sorted `perm`, the running minimum holding the product as it is. -/
def min_stride_check_unbounded (strides padded_dims blocks : List Int) (block_size : Int) :
    Int → List Nat → Bool
  | _, [] => true
  | min_stride, d :: perm =>
    if strides.getD d 0 = 0 then
      min_stride_check_unbounded strides padded_dims blocks block_size min_stride perm
    else if strides.getD d 0 < min_stride then
      false
    else
      let padded_dim := padded_dims.getD d 0
      min_stride_check_unbounded strides padded_dims blocks block_size
        (block_size * strides.getD d 0 * (padded_dim.tdiv (blocks.getD d 1))) perm

/-- The check `onednn_strides_check` carried out with unbounded integers. -/
def onednn_strides_check_unbounded (src : Tensor) : Bool :=
  let adims := get_onednn_dims src
  let ndims := adims.length
  let strides := get_onednn_strides src
  let padded_dims := adims
  if strides.isEmpty || ndims == 0 then
    true
  else if early_exit padded_dims strides then
    true
  else
    let blocks : List Int := List.replicate ndims 1
    let block_size : Int := 1
    let perm := List.insertionSort (fun a b => idx_sorter strides padded_dims a b = true)
      (List.range ndims)
    min_stride_check_unbounded strides padded_dims blocks block_size block_size perm

/-- A value that a signed 64-bit integer holds. -/
def fits_int64 (x : Int) : Prop := -2 ^ 63 ≤ x ∧ x < 2 ^ 63

instance (x : Int) : Decidable (fits_int64 x) := by
  unfold fits_int64
  infer_instance

/-! ## Sample operands -/

/-- A view with the given geometry. -/
def strided_tensor (impl : Nat) (device : Device) (dtype : ScalarType)
    (geometry : List (Int × Int)) : Tensor :=
  { impl := impl, device := device, dtype := dtype, geometry := geometry,
    storage_offset := 0, is_conj := false, is_neg := false, is_quantized := false,
    quantizer := 0, data_ptr := 4096 * (impl + 1) }

/-- Two dense 4×4 float tensors on the same XPU. -/
def sample_same_device : TensorIterator :=
  ⟨dense_tensor 0 (xpu 0) .kFloat [4, 4], dense_tensor 1 (xpu 0) .kFloat [4, 4], 16, true⟩

/-- Two dense 4×4 float tensors on two different XPUs. -/
def sample_cross_device : TensorIterator :=
  ⟨dense_tensor 0 (xpu 0) .kFloat [4, 4], dense_tensor 1 (xpu 1) .kFloat [4, 4], 16, true⟩

/-- A float destination on an XPU and a double source on another XPU. -/
def sample_cross_device_cast : TensorIterator :=
  ⟨dense_tensor 0 (xpu 0) .kFloat [4, 4], dense_tensor 1 (xpu 1) .kDouble [4, 4], 16, true⟩

/-- A dense float destination on an XPU and a dense float source on the host. -/
def sample_host_to_device : TensorIterator :=
  ⟨dense_tensor 0 (xpu 0) .kFloat [3], dense_tensor 1 cpu .kFloat [3], 3, true⟩

/-- A 2×3 float destination on an XPU with strides (6, 2) and a dense 2×3 float source on the
host. -/
def sample_host_to_strided : TensorIterator :=
  ⟨strided_tensor 0 (xpu 0) .kFloat [(2, 6), (3, 2)], dense_tensor 1 cpu .kFloat [2, 3], 6,
    false⟩

/-- Two dense complex tensors on the same XPU, the source with the negate flag set. -/
def sample_negated : TensorIterator :=
  ⟨dense_tensor 0 (xpu 0) .kComplexFloat [4],
    { dense_tensor 1 (xpu 0) .kComplexFloat [4] with is_neg := true }, 4, true⟩

/-- Two dense complex tensors on two XPUs, the source with both flags set. -/
def sample_cross_device_conj_neg : TensorIterator :=
  ⟨dense_tensor 0 (xpu 0) .kComplexFloat [4],
    { dense_tensor 1 (xpu 1) .kComplexFloat [4] with is_neg := true, is_conj := true }, 4, true⟩

/-- A dense float tensor without elements (sizes 0×4). -/
def sample_empty (impl : Nat) : Tensor := dense_tensor impl (xpu 0) .kFloat [0, 4]

/-- A float scalar (rank 0). -/
def sample_scalar (impl : Nat) : Tensor := dense_tensor impl (xpu 0) .kFloat []

/-- A dense float tensor of rank 7 with sizes 2×1×1×1×1×1×1. -/
def sample_rank7 (impl : Nat) : Tensor :=
  dense_tensor impl (xpu 0) .kFloat [2, 1, 1, 1, 1, 1, 1]

/-- A dense float vector with one element, broadcastable to any shape. -/
def sample_rank1 (impl : Nat) : Tensor := dense_tensor impl (xpu 0) .kFloat [1]

/-- A dense float destination on the host and a dense float source on an XPU. -/
def sample_device_to_host : TensorIterator :=
  ⟨dense_tensor 0 cpu .kFloat [3], dense_tensor 1 (xpu 0) .kFloat [3], 3, true⟩

/-- Two dense float tensors on the host. -/
def sample_host_to_host : TensorIterator :=
  ⟨dense_tensor 0 cpu .kFloat [3], dense_tensor 1 cpu .kFloat [3], 3, true⟩

/-- Two dense float tensors on the host, carried by CPU devices of different index. -/
def sample_host_indices : TensorIterator :=
  ⟨dense_tensor 0 ⟨DeviceType.CPU, 0⟩ .kFloat [3], dense_tensor 1 cpu .kFloat [3], 3, true⟩

/-- A byte view of sizes 2³¹×2 with strides (1, 5): rows of 2³¹ consecutive bytes, the second
row starting 5 bytes after the first. -/
def sample_wide_rows : Tensor :=
  strided_tensor 0 (xpu 0) .kByte [(2147483648, 1), (2, 5)]

/-- A dense float destination on an XPU and a dense double source on the host. -/
def sample_host_double_to_device : TensorIterator :=
  ⟨dense_tensor 0 (xpu 0) .kFloat [2, 3], dense_tensor 1 cpu .kDouble [2, 3], 6, true⟩

/-- A dense float destination on the host and a dense double source on an XPU. -/
def sample_device_double_to_host : TensorIterator :=
  ⟨dense_tensor 0 cpu .kFloat [2, 3], dense_tensor 1 (xpu 0) .kDouble [2, 3], 6, true⟩

/-- A 2×3 float destination on the host with strides (6, 2) and a dense float source on an
XPU. -/
def sample_device_to_strided_host : TensorIterator :=
  ⟨strided_tensor 0 cpu .kFloat [(2, 6), (3, 2)], dense_tensor 1 (xpu 0) .kFloat [2, 3], 6,
    false⟩

/-- A dense float destination and a dense float source on the same XPU that differ only in
the negate flag, set on the source. -/
def sample_negated_float : TensorIterator :=
  ⟨dense_tensor 0 (xpu 0) .kFloat [4],
    { dense_tensor 1 (xpu 0) .kFloat [4] with is_neg := true }, 4, true⟩

/-- A byte view of sizes 2³²×2 with strides (1, 3): rows of 2³² consecutive bytes, the second
row starting 3 bytes after the first. -/
def sample_long_rows : Tensor :=
  strided_tensor 0 (xpu 0) .kByte [(4294967296, 1), (2, 3)]

/-- A dense float tensor of sizes 2×1×3: its strides are (3, 3, 1), the dimension of size 1
sharing its stride with the outer one. -/
def sample_dense_rows : Tensor := dense_tensor 0 (xpu 0) .kFloat [2, 1, 3]

/-- A dense byte tensor of sizes 2×2³¹: its strides are (2³¹, 1). -/
def sample_dense_wide : Tensor := dense_tensor 0 (xpu 0) .kByte [2, 2147483648]

/-- A memory whose buffer at the data pointer of the second sample tensor holds the value
`offset + 1` at each byte offset, every other buffer holding zeros. -/
def sample_memory : Memory :=
  fun ptr offset => if ptr = 8192 then (offset + 1, 0) else (0, 0)

/-- A 2×3 float view with the given strides on an XPU. -/
def view_2x3 (impl : Nat) (device_index : Int) (stride0 stride1 : Int) : Tensor :=
  strided_tensor impl (xpu device_index) .kFloat [(2, stride0), (3, stride1)]

/-- A 1×3 float view with the given strides on an XPU. -/
def view_1x3 (impl : Nat) (device_index : Int) (stride0 stride1 : Int) : Tensor :=
  strided_tensor impl (xpu device_index) .kFloat [(1, stride0), (3, stride1)]

/-! ## Basic facts -/

theorem Run.seq_done_nil (r : Run) : (Run.done []).seq r = r := by
  cases r; rfl

theorem copy_device_to_device_of_numel_zero (dispatch : DispatchKey → ScalarType → Bool)
    (iter : TensorIterator) (non_blocking : Bool) (h : iter.numel = 0) :
    copy_device_to_device dispatch iter non_blocking = Run.done [] := by
  simp [copy_device_to_device, h]

theorem rebind_quantized_ops_not_work (env : Env) (self src : Tensor) :
    ∀ op ∈ (rebind_quantized env self src).2,
      op.reads_data_ptr = false ∧ op.is_signal = false ∧ op.is_staging = false := by
  intro op hop
  unfold rebind_quantized at hop
  split at hop
  · simp only [List.mem_cons, List.mem_singleton, List.not_mem_nil, or_false] at hop
    rcases hop with rfl | rfl <;> simp [Op.reads_data_ptr, Op.is_byte_copy, Op.is_kernel,
      Op.is_reorder, Op.is_signal, Op.is_staging]
  · simp at hop

theorem rebind_quantized_of_not_both (env : Env) (self src : Tensor)
    (h : ¬ (self.is_quantized = true ∧ src.is_quantized = true)) :
    rebind_quantized env self src = (self, []) := by
  unfold rebind_quantized
  split
  · rename_i hq
    simp only [Bool.and_eq_true] at hq
    exact absurd hq h
  · rfl

/-! ## Claims -/

/-- C1. A copy whose iteration descriptor has zero logical elements returns the destination
normally and performs no work: no operation it issues is handed a data pointer of an operand
(no byte copy, no elementwise kernel, no reorder) and none records or awaits a completion
signal. Unless both operands are quantized it issues no operation at all and returns the
destination as it was; when both are quantized the destination handle is the one `copy_` has
rebound before building the descriptor. The same holds for `copy_device_to_device` called
with `numel = 0`, whatever the two devices. -/
theorem C1_zero_element_copy_is_noop (env : Env) (depth : Nat) (self src : Tensor)
    (non_blocking : Bool)
    (h : (BUILD_TENSOR_ITER env (rebind_quantized env self src).1 src).numel = 0) :
    (copy_ env depth self src non_blocking).2.err = none ∧
    (∀ op ∈ (copy_ env depth self src non_blocking).2.ops,
      op.reads_data_ptr = false ∧ op.is_signal = false) ∧
    (copy_ env depth self src non_blocking).1 =
      (if self.is_same src then self else (rebind_quantized env self src).1) ∧
    (¬ (self.is_quantized = true ∧ src.is_quantized = true) →
      copy_ env depth self src non_blocking = (self, Run.done [])) ∧
    (∀ (dispatch : DispatchKey → ScalarType → Bool) (iter : TensorIterator),
      iter.numel = 0 → copy_device_to_device dispatch iter non_blocking = Run.done []) := by
  have hrun : copy_ env depth self src non_blocking =
      (if self.is_same src then (self, Run.done [])
       else ((rebind_quantized env self src).1, Run.done (rebind_quantized env self src).2)) := by
    unfold copy_ copy_body
    by_cases hs : self.is_same src = true
    · simp [hs]
    · simp only [hs, if_false]
      simp only [h, if_true]
  refine ⟨?_, ?_, ?_, ?_, ?_⟩
  · rw [hrun]; split <;> rfl
  · rw [hrun]
    intro op hop
    split at hop
    · simp [Run.done] at hop
    · exact ⟨(rebind_quantized_ops_not_work env self src op hop).1,
        (rebind_quantized_ops_not_work env self src op hop).2.1⟩
  · rw [hrun]; split <;> rfl
  · intro hq
    rw [hrun, rebind_quantized_of_not_both env self src hq]
    split <;> rfl
  · intro dispatch iter hz
    exact copy_device_to_device_of_numel_zero dispatch iter non_blocking hz

/-- C1, at a concrete input: a 0×4 destination and a 0×4 source on the same XPU. -/
theorem C1_zero_element_copy_is_noop_witness :
    (BUILD_TENSOR_ITER aten (rebind_quantized aten (sample_empty 0) (sample_empty 1)).1
      (sample_empty 1)).numel = 0 ∧
    (copy_ aten 2 (sample_empty 0) (sample_empty 1) false).2.err = none :=
  ⟨by decide, (C1_zero_element_copy_is_noop aten 2 (sample_empty 0) (sample_empty 1) false
    (by decide)).1⟩

/-- C2. Copying a view into itself returns it unchanged and issues no operation at all,
whatever `non_blocking` is. -/
theorem C2_copy_into_itself_is_noop (env : Env) (depth : Nat) (v : Tensor)
    (non_blocking : Bool) :
    copy_ env depth v v non_blocking = (v, Run.done []) := by
  simp [copy_, copy_body, Tensor.is_same]

theorem before_transfer_ops (iter : TensorIterator) :
    ∀ op ∈ before_transfer iter, op.is_staging = false ∧ op.is_byte_copy = false ∧
      op.is_kernel = false ∧ op.is_reorder = false := by
  intro op hop
  unfold before_transfer at hop
  simp only [List.mem_cons] at hop
  rcases hop with rfl | hop
  · exact ⟨rfl, rfl, rfl, rfl⟩
  · split at hop
    · simp only [List.mem_cons, List.mem_singleton, List.not_mem_nil, or_false] at hop
      rcases hop with rfl | rfl <;> exact ⟨rfl, rfl, rfl, rfl⟩
    · simp at hop

theorem after_transfer_ops (iter : TensorIterator) :
    ∀ op ∈ after_transfer iter, op.is_staging = false ∧ op.is_byte_copy = false ∧
      op.is_kernel = false ∧ op.is_reorder = false := by
  intro op hop
  simp only [after_transfer] at hop
  split at hop
  · simp only [List.mem_cons, List.mem_singleton, List.not_mem_nil, or_false] at hop
    rcases hop with rfl | rfl <;> exact ⟨rfl, rfl, rfl, rfl⟩
  · simp at hop

theorem device_to_device_transfer_eligible (dispatch : DispatchKey → ScalarType → Bool)
    (iter : TensorIterator) (h : memcpy_eligible iter = true) :
    device_to_device_transfer dispatch iter =
      .ok (Op.dpcppMemcpyAsync (iter.data_ptr 0) (iter.data_ptr 1)
        (iter.numel * iter.element_size 0) dpcppMemcpyKind.DeviceToDevice) := by
  simp [device_to_device_transfer, h]

theorem device_to_device_transfer_kernel (dispatch : DispatchKey → ScalarType → Bool)
    (iter : TensorIterator) (h : memcpy_eligible iter = false)
    (hcov : dispatch (kernel_choice iter).1 (iter.dtype 0) = true) :
    device_to_device_transfer dispatch iter =
      .ok (Op.dpcpp_kernel_for_tensor_iter (kernel_choice iter).1 (kernel_choice iter).2
        iter) := by
  simp [device_to_device_transfer, dispatch_kernel, h, hcov]

theorem device_to_device_transfer_fatal (dispatch : DispatchKey → ScalarType → Bool)
    (iter : TensorIterator) (h : memcpy_eligible iter = false)
    (hcov : dispatch (kernel_choice iter).1 (iter.dtype 0) = false) :
    device_to_device_transfer dispatch iter =
      .error (Err.not_implemented (kernel_choice iter).1 (iter.dtype 0)) := by
  simp [device_to_device_transfer, dispatch_kernel, h, hcov]

theorem copy_device_to_device_of_transfer (dispatch : DispatchKey → ScalarType → Bool)
    (iter : TensorIterator) (non_blocking : Bool) (transfer : Op) (h : iter.numel ≠ 0)
    (ht : device_to_device_transfer dispatch iter = .ok transfer) :
    copy_device_to_device dispatch iter non_blocking =
      Run.done (before_transfer iter ++ transfer :: after_transfer iter) := by
  simp [copy_device_to_device, h, ht]

theorem copy_device_to_device_of_fatal (dispatch : DispatchKey → ScalarType → Bool)
    (iter : TensorIterator) (non_blocking : Bool) (e : Err) (h : iter.numel ≠ 0)
    (ht : device_to_device_transfer dispatch iter = .error e) :
    copy_device_to_device dispatch iter non_blocking = Run.fail (before_transfer iter) e := by
  simp [copy_device_to_device, h, ht]

/-- The three outcomes of a non-empty `copy_device_to_device`: the byte copy, the kernel
launch, or the fatal dispatch error. -/
theorem copy_device_to_device_cases (dispatch : DispatchKey → ScalarType → Bool)
    (iter : TensorIterator) (non_blocking : Bool) (h : iter.numel ≠ 0) :
    (memcpy_eligible iter = true ∧
      copy_device_to_device dispatch iter non_blocking =
        Run.done (before_transfer iter ++
          Op.dpcppMemcpyAsync (iter.data_ptr 0) (iter.data_ptr 1)
            (iter.numel * iter.element_size 0) dpcppMemcpyKind.DeviceToDevice ::
          after_transfer iter)) ∨
    (memcpy_eligible iter = false ∧ dispatch (kernel_choice iter).1 (iter.dtype 0) = true ∧
      copy_device_to_device dispatch iter non_blocking =
        Run.done (before_transfer iter ++
          Op.dpcpp_kernel_for_tensor_iter (kernel_choice iter).1 (kernel_choice iter).2
            iter ::
          after_transfer iter)) ∨
    (memcpy_eligible iter = false ∧ dispatch (kernel_choice iter).1 (iter.dtype 0) = false ∧
      copy_device_to_device dispatch iter non_blocking =
        Run.fail (before_transfer iter)
          (Err.not_implemented (kernel_choice iter).1 (iter.dtype 0))) := by
  cases hm : memcpy_eligible iter
  · cases hc : dispatch (kernel_choice iter).1 (iter.dtype 0)
    · exact Or.inr (Or.inr ⟨rfl, rfl, copy_device_to_device_of_fatal dispatch iter non_blocking
        _ h (device_to_device_transfer_fatal dispatch iter hm hc)⟩)
    · exact Or.inr (Or.inl ⟨rfl, rfl, copy_device_to_device_of_transfer dispatch iter
        non_blocking _ h (device_to_device_transfer_kernel dispatch iter hm hc)⟩)
  · exact Or.inl ⟨rfl, copy_device_to_device_of_transfer dispatch iter non_blocking _ h
      (device_to_device_transfer_eligible dispatch iter hm)⟩

theorem copy_device_to_device_ops_not_staging (dispatch : DispatchKey → ScalarType → Bool)
    (iter : TensorIterator) (non_blocking : Bool) :
    ∀ op ∈ (copy_device_to_device dispatch iter non_blocking).ops, op.is_staging = false := by
  intro op hop
  by_cases h : iter.numel = 0
  · rw [copy_device_to_device_of_numel_zero dispatch iter non_blocking h] at hop
    simp [Run.done] at hop
  · rcases copy_device_to_device_cases dispatch iter non_blocking h with
      ⟨_, hrun⟩ | ⟨_, _, hrun⟩ | ⟨_, _, hrun⟩
    · rw [hrun] at hop
      simp only [Run.done, List.mem_append, List.mem_cons] at hop
      rcases hop with hop | rfl | hop
      · exact (before_transfer_ops iter op hop).1
      · rfl
      · exact (after_transfer_ops iter op hop).1
    · rw [hrun] at hop
      simp only [Run.done, List.mem_append, List.mem_cons] at hop
      rcases hop with hop | rfl | hop
      · exact (before_transfer_ops iter op hop).1
      · rfl
      · exact (after_transfer_ops iter op hop).1
    · rw [hrun] at hop
      exact (before_transfer_ops iter op hop).1

/-- C3. When destination and source are on the same XPU device, whatever the dtypes and the
contiguity, `copy_requires_temporaries` returns false for either value of the peer-access
flag, `copy_kernel_dpcpp` is exactly the direct device-to-device copy, and none of the
operations issued materialises a staging temporary. -/
theorem C3_same_device_never_stages (env : Env) (copy : Tensor → Tensor → Bool → Tensor × Run)
    (iter : TensorIterator) (non_blocking p2p_enabled : Bool)
    (hsame : iter.device 0 = iter.device 1)
    (hxpu : (iter.device 0).type = DeviceType.XPU) :
    copy_requires_temporaries iter p2p_enabled = .ok false ∧
    copy_kernel_dpcpp env copy iter non_blocking =
      copy_device_to_device env.dispatch iter non_blocking ∧
    (∀ op ∈ (copy_kernel_dpcpp env copy iter non_blocking).ops, op.is_staging = false) := by
  have hxpu1 : (iter.device 1).type = DeviceType.XPU := hsame ▸ hxpu
  have hreq : ∀ p2p, copy_requires_temporaries iter p2p = .ok false := by
    intro p2p
    simp [copy_requires_temporaries, hsame, hxpu1]
  have hkernel : copy_kernel_dpcpp env copy iter non_blocking =
      copy_device_to_device env.dispatch iter non_blocking := by
    simp [copy_kernel_dpcpp, hreq, hxpu, hxpu1]
  refine ⟨hreq p2p_enabled, hkernel, ?_⟩
  rw [hkernel]
  exact copy_device_to_device_ops_not_staging env.dispatch iter non_blocking

/-- C3, at a concrete input: two dense 4×4 float tensors on XPU 0. -/
theorem C3_same_device_never_stages_witness :
    sample_same_device.device 0 = sample_same_device.device 1 ∧
    (sample_same_device.device 0).type = DeviceType.XPU ∧
    copy_requires_temporaries sample_same_device false = .ok false :=
  ⟨by decide, by decide,
    (C3_same_device_never_stages aten (copy_at_depth aten 1) sample_same_device false false
      (by decide) (by decide)).1⟩

/-- C4, refuted as stated: for two dense float tensors on two different XPUs (equal dtype,
contiguous descriptor) the peer-access flag is false, yet `copy_requires_temporaries` returns
false and `copy_kernel_dpcpp` runs the direct device-to-device copy without staging. -/
theorem C4_counterexample :
    sample_cross_device.device 0 ≠ sample_cross_device.device 1 ∧
    (sample_cross_device.device 0).type = DeviceType.XPU ∧
    (sample_cross_device.device 1).type = DeviceType.XPU ∧
    sample_cross_device.dtype 0 = sample_cross_device.dtype 1 ∧
    sample_cross_device.is_contiguous = true ∧
    maybe_enable_p2p_access (sample_cross_device.device 0) (sample_cross_device.device 1)
      = false ∧
    copy_requires_temporaries sample_cross_device
      (maybe_enable_p2p_access (sample_cross_device.device 0) (sample_cross_device.device 1))
      = .ok false ∧
    copy_kernel_dpcpp aten (copy_at_depth aten 1) sample_cross_device false =
      copy_device_to_device aten.dispatch sample_cross_device false ∧
    (∀ op ∈ (copy_kernel_dpcpp aten (copy_at_depth aten 1) sample_cross_device false).ops,
      op.is_staging = false) := by
  refine ⟨by decide, by decide, by decide, by decide, by decide, by decide, by rfl,
    by decide, by decide⟩

/-- C4, amended. For two XPU operands on different devices with equal dtype and a contiguous
descriptor, `copy_requires_temporaries` returns false whatever the peer-access flag, and
`copy_kernel_dpcpp` is the direct device-to-device copy. The peer-access flag, false for
every pair of devices, decides only the cross-device copies whose dtypes differ or whose
descriptor is not contiguous: there `copy_requires_temporaries` returns the negation of the
flag, so the engine stages them. -/
theorem C4_cross_device_contiguous_is_direct (env : Env)
    (copy : Tensor → Tensor → Bool → Tensor × Run) (iter : TensorIterator)
    (non_blocking : Bool)
    (hdiff : iter.device 0 ≠ iter.device 1)
    (hdst : (iter.device 0).type = DeviceType.XPU)
    (hsrc : (iter.device 1).type = DeviceType.XPU) :
    (∀ d s : Device, maybe_enable_p2p_access d s = false) ∧
    ((iter.dtype 0 = iter.dtype 1 ∧ iter.is_contiguous = true) →
      (∀ p2p_enabled, copy_requires_temporaries iter p2p_enabled = .ok false) ∧
      copy_kernel_dpcpp env copy iter non_blocking =
        copy_device_to_device env.dispatch iter non_blocking) ∧
    (¬ (iter.dtype 0 = iter.dtype 1 ∧ iter.is_contiguous = true) →
      (∀ p2p_enabled, copy_requires_temporaries iter p2p_enabled = .ok (!p2p_enabled)) ∧
      copy_kernel_dpcpp env copy iter non_blocking =
        copy_via_temporaries env copy iter non_blocking) := by
  have hp2p : ∀ d s : Device, maybe_enable_p2p_access d s = false := by
    intro d s
    unfold maybe_enable_p2p_access
    split <;> rfl
  refine ⟨hp2p, ?_, ?_⟩
  · rintro ⟨hdtype, hcontig⟩
    have hreq : ∀ p2p, copy_requires_temporaries iter p2p = .ok false := by
      intro p2p
      simp [copy_requires_temporaries, hdiff, hdtype, hcontig]
    refine ⟨hreq, ?_⟩
    simp [copy_kernel_dpcpp, hreq, hdst, hsrc]
  · intro hnot
    have hreq : ∀ p2p, copy_requires_temporaries iter p2p = .ok (!p2p) := by
      intro p2p
      have hcond : (decide (iter.dtype 0 = iter.dtype 1) && iter.is_contiguous) = false := by
        by_cases hd : iter.dtype 0 = iter.dtype 1
        · by_cases hc : iter.is_contiguous = true
          · exact absurd ⟨hd, hc⟩ hnot
          · simp [hc]
        · simp [hd]
      simp [copy_requires_temporaries, hdiff, hcond, hdst, hsrc]
    refine ⟨hreq, ?_⟩
    simp [copy_kernel_dpcpp, hreq, hp2p]

/-- C4 amended, at a concrete input: two dense 4×4 float tensors on XPU 0 and XPU 1. -/
theorem C4_cross_device_contiguous_is_direct_witness :
    sample_cross_device.device 0 ≠ sample_cross_device.device 1 ∧
    (sample_cross_device.device 0).type = DeviceType.XPU ∧
    (sample_cross_device.device 1).type = DeviceType.XPU ∧
    (∀ d s : Device, maybe_enable_p2p_access d s = false) :=
  ⟨by decide, by decide, by decide,
    (C4_cross_device_contiguous_is_direct aten (copy_at_depth aten 1) sample_cross_device false
      (by decide) (by decide) (by decide)).1⟩

theorem maybe_enable_p2p_access_eq_false (d s : Device) : maybe_enable_p2p_access d s = false := by
  unfold maybe_enable_p2p_access
  split <;> rfl

/-- The value of `copy_requires_temporaries` for operands on different devices. -/
theorem copy_requires_temporaries_of_ne (iter : TensorIterator) (p2p_enabled : Bool)
    (hdiff : iter.device 0 ≠ iter.device 1) :
    copy_requires_temporaries iter p2p_enabled =
      .ok (if iter.dtype 0 = iter.dtype 1 ∧ iter.is_contiguous = true then false
        else if (iter.device 0).type = DeviceType.XPU ∧ (iter.device 1).type = DeviceType.XPU
          then !p2p_enabled
        else true) := by
  unfold copy_requires_temporaries
  simp only [hdiff, if_false, Bool.and_eq_true, decide_eq_true_eq]
  split
  · rfl
  · split <;> rfl

theorem Run.mem_seq_of_mem_left (a b : Run) (op : Op) (h : op ∈ a.ops) : op ∈ (a.seq b).ops := by
  unfold Run.seq
  split
  · exact h
  · exact List.mem_append_left _ h

/-- The staging branch always makes a tensor-library call that materialises a temporary:
each outcome of `staging_temporaries` carries at least one such call. -/
theorem staging_temporaries_has_staging_op (env : Env) (iter : TensorIterator) :
    (∀ ops e, staging_temporaries env iter = .error (ops, e) →
      ∃ op ∈ ops, op.is_staging = true) ∧
    (∀ d t ops, staging_temporaries env iter = .ok (d, t, ops) →
      ∃ op ∈ ops, op.is_staging = true) := by
  constructor
  · intro ops e h
    unfold staging_temporaries at h
    split at h
    · simp only at h
      split at h
      · split at h
        · injection h with h
          injection h with h1 h2
          subst h1
          exact ⟨Op.to_dtype (iter.tensor 1) (iter.dtype 0)
            (env.to_dtype (iter.tensor 1) (iter.dtype 0)), by simp, rfl⟩
        · cases h
      · cases h
    · cases h
  · intro d t ops h
    unfold staging_temporaries at h
    split at h
    · simp only at h
      split at h
      · split at h
        · cases h
        · injection h with h
          injection h with h1 h2
          injection h2 with h2 h3
          subst h3
          exact ⟨Op.to_dtype (iter.tensor 1) (iter.dtype 0)
            (env.to_dtype (iter.tensor 1) (iter.dtype 0)), by simp, rfl⟩
      · injection h with h
        injection h with h1 h2
        injection h2 with h2 h3
        subst h3
        exact ⟨Op.to_dtype (iter.tensor 1) (iter.dtype 0)
          (env.to_dtype (iter.tensor 1) (iter.dtype 0)), by simp, rfl⟩
    · simp only at h
      injection h with h
      injection h with h1 h2
      injection h2 with h2 h3
      subst h3
      exact ⟨Op.contiguous (env.expand_as (iter.tensor 1) (iter.tensor 0))
        (env.contiguous (env.expand_as (iter.tensor 1) (iter.tensor 0))), by simp, rfl⟩

theorem copy_via_temporaries_has_staging_op (env : Env)
    (copy : Tensor → Tensor → Bool → Tensor × Run) (iter : TensorIterator)
    (non_blocking : Bool) :
    ∃ op ∈ (copy_via_temporaries env copy iter non_blocking).ops, op.is_staging = true := by
  unfold copy_via_temporaries
  split
  · rename_i ops e h
    exact (staging_temporaries_has_staging_op env iter).1 ops e h
  · rename_i d t ops h
    obtain ⟨op, hop, hs⟩ := (staging_temporaries_has_staging_op env iter).2 d t ops h
    simp only
    split
    · exact ⟨op, hop, hs⟩
    · split
      · exact ⟨op, hop, hs⟩
      · exact ⟨op, Run.mem_seq_of_mem_left _ _ op (Run.mem_seq_of_mem_left _ _ op hop), hs⟩

theorem copy_host_device_ops_not_staging (iter : TensorIterator) (non_blocking : Bool) :
    ∀ op ∈ (copy_host_device iter non_blocking).ops, op.is_staging = false := by
  intro op hop
  unfold copy_host_device at hop
  simp only at hop
  split at hop
  · simp [Run.fail] at hop
  · split at hop
    · simp only [Run.done, List.mem_cons, List.mem_singleton, List.not_mem_nil, or_false] at hop
      rcases hop with rfl | rfl <;> rfl
    · simp only [Run.done, List.mem_cons, List.mem_singleton, List.not_mem_nil, or_false] at hop
      rcases hop with rfl | rfl <;> rfl

/-- The staging branch is never the host/device byte transfer. -/
theorem copy_via_temporaries_ne_copy_host_device (env : Env)
    (copy : Tensor → Tensor → Bool → Tensor × Run) (iter : TensorIterator)
    (non_blocking : Bool) :
    copy_via_temporaries env copy iter non_blocking ≠ copy_host_device iter non_blocking := by
  intro h
  obtain ⟨op, hop, hs⟩ := copy_via_temporaries_has_staging_op env copy iter non_blocking
  rw [h] at hop
  rw [copy_host_device_ops_not_staging iter non_blocking op hop] at hs
  cases hs

/-- C5, refuted as stated: a 2×3 float destination on an XPU with strides (6, 2) and a dense
float source on the host (one operand on the host, the other on the device, descriptor not
contiguous). `copy_requires_temporaries` returns true and `copy_kernel_dpcpp` runs the
staging branch: its first operations materialise the dense temporaries, and the run differs
from the host/device byte transfer of the descriptor. -/
theorem C5_counterexample :
    (sample_host_to_strided.device 0).type = DeviceType.XPU ∧
    (sample_host_to_strided.device 1).is_cpu = true ∧
    copy_requires_temporaries sample_host_to_strided
      (maybe_enable_p2p_access (sample_host_to_strided.device 0)
        (sample_host_to_strided.device 1)) = .ok true ∧
    copy_kernel_dpcpp aten (copy_at_depth aten 2) sample_host_to_strided false =
      copy_via_temporaries aten (copy_at_depth aten 2) sample_host_to_strided false ∧
    copy_kernel_dpcpp aten (copy_at_depth aten 2) sample_host_to_strided false ≠
      copy_host_device sample_host_to_strided false ∧
    ((copy_kernel_dpcpp aten (copy_at_depth aten 2) sample_host_to_strided false).ops.head?.map
      Op.is_staging) = some true := by
  refine ⟨by decide, by decide, by rfl, by rfl, by decide, by decide⟩

/-- C5, amended. With exactly one operand on the host and the other on an XPU,
`copy_kernel_dpcpp` is the host/device byte transfer when the dtypes are equal and the
descriptor is contiguous, and the staging branch, which is not that transfer, in every other
case. -/
theorem C5_host_device_strategy (env : Env) (copy : Tensor → Tensor → Bool → Tensor × Run)
    (iter : TensorIterator) (non_blocking : Bool)
    (hone : ((iter.device 0).type = DeviceType.XPU ∧ (iter.device 1).type = DeviceType.CPU) ∨
      ((iter.device 0).type = DeviceType.CPU ∧ (iter.device 1).type = DeviceType.XPU)) :
    ((iter.dtype 0 = iter.dtype 1 ∧ iter.is_contiguous = true) →
      copy_kernel_dpcpp env copy iter non_blocking = copy_host_device iter non_blocking) ∧
    (¬ (iter.dtype 0 = iter.dtype 1 ∧ iter.is_contiguous = true) →
      copy_kernel_dpcpp env copy iter non_blocking =
        copy_via_temporaries env copy iter non_blocking ∧
      copy_kernel_dpcpp env copy iter non_blocking ≠ copy_host_device iter non_blocking) := by
  have hdiff : iter.device 0 ≠ iter.device 1 := by
    intro h
    rcases hone with ⟨h0, h1⟩ | ⟨h0, h1⟩ <;> rw [h] at h0 <;> rw [h0] at h1 <;> cases h1
  have hnotxpu : ¬ ((iter.device 0).type = DeviceType.XPU ∧
      (iter.device 1).type = DeviceType.XPU) := by
    rintro ⟨h0, h1⟩
    rcases hone with ⟨_, h⟩ | ⟨h, _⟩
    · rw [h1] at h; cases h
    · rw [h0] at h; cases h
  constructor
  · intro hc
    simp [copy_kernel_dpcpp, copy_requires_temporaries_of_ne iter _ hdiff, hc, hnotxpu]
  · intro hc
    have hstaged : copy_kernel_dpcpp env copy iter non_blocking =
        copy_via_temporaries env copy iter non_blocking := by
      simp [copy_kernel_dpcpp, copy_requires_temporaries_of_ne iter _ hdiff, hc, hnotxpu]
    refine ⟨hstaged, ?_⟩
    rw [hstaged]
    exact copy_via_temporaries_ne_copy_host_device env copy iter non_blocking

/-- C5 amended, at a concrete input: a dense float destination on an XPU and a dense float
source on the host. -/
theorem C5_host_device_strategy_witness :
    (((sample_host_to_device.device 0).type = DeviceType.XPU ∧
        (sample_host_to_device.device 1).type = DeviceType.CPU) ∨
      ((sample_host_to_device.device 0).type = DeviceType.CPU ∧
        (sample_host_to_device.device 1).type = DeviceType.XPU)) ∧
    (sample_host_to_device.dtype 0 = sample_host_to_device.dtype 1 ∧
      sample_host_to_device.is_contiguous = true) ∧
    copy_kernel_dpcpp aten (copy_at_depth aten 1) sample_host_to_device false =
      copy_host_device sample_host_to_device false :=
  ⟨by decide, by decide,
    (C5_host_device_strategy aten (copy_at_depth aten 1) sample_host_to_device false
      (by decide)).1 (by decide)⟩

/-- C6. With the peer-access flag computed by `maybe_enable_p2p_access` and operands that are
on the host or on an XPU but not both on the host, `copy_requires_temporaries` returns true
exactly when the two devices differ and it is not the case that the dtypes are equal and the
descriptor is contiguous. In particular, with one operand on the host `copy_kernel_dpcpp` is
the host/device byte transfer only for equal dtypes and a contiguous descriptor, and a copy
between two different XPUs with differing dtypes or a non-contiguous descriptor is staged. -/
theorem C6_requires_temporaries_iff (env : Env) (copy : Tensor → Tensor → Bool → Tensor × Run)
    (iter : TensorIterator) (non_blocking : Bool)
    (hdst : (iter.device 0).type = DeviceType.CPU ∨ (iter.device 0).type = DeviceType.XPU)
    (hsrc : (iter.device 1).type = DeviceType.CPU ∨ (iter.device 1).type = DeviceType.XPU)
    (hnot : ¬ ((iter.device 0).type = DeviceType.CPU ∧ (iter.device 1).type = DeviceType.CPU)) :
    copy_requires_temporaries iter
        (maybe_enable_p2p_access (iter.device 0) (iter.device 1)) =
      .ok (decide (iter.device 0 ≠ iter.device 1 ∧
        ¬ (iter.dtype 0 = iter.dtype 1 ∧ iter.is_contiguous = true))) ∧
    (((iter.device 0).type = DeviceType.CPU ∨ (iter.device 1).type = DeviceType.CPU) →
      (copy_kernel_dpcpp env copy iter non_blocking = copy_host_device iter non_blocking ↔
        (iter.dtype 0 = iter.dtype 1 ∧ iter.is_contiguous = true))) ∧
    (((iter.device 0).type = DeviceType.XPU ∧ (iter.device 1).type = DeviceType.XPU ∧
        iter.device 0 ≠ iter.device 1 ∧
        ¬ (iter.dtype 0 = iter.dtype 1 ∧ iter.is_contiguous = true)) →
      copy_kernel_dpcpp env copy iter non_blocking =
        copy_via_temporaries env copy iter non_blocking) := by
  have hvalue : copy_requires_temporaries iter
        (maybe_enable_p2p_access (iter.device 0) (iter.device 1)) =
      .ok (decide (iter.device 0 ≠ iter.device 1 ∧
        ¬ (iter.dtype 0 = iter.dtype 1 ∧ iter.is_contiguous = true))) := by
    by_cases hdev : iter.device 0 = iter.device 1
    · have hx0 : (iter.device 0).type = DeviceType.XPU := by
        rcases hdst with h | h
        · exact absurd ⟨h, hdev ▸ h⟩ hnot
        · exact h
      have hx1 : (iter.device 1).type = DeviceType.XPU := hdev ▸ hx0
      simp [copy_requires_temporaries, hdev, hx1]
    · rw [copy_requires_temporaries_of_ne iter _ hdev, maybe_enable_p2p_access_eq_false]
      by_cases hc : iter.dtype 0 = iter.dtype 1 ∧ iter.is_contiguous = true
      · simp [hc]
      · simp [hc, hdev]
  refine ⟨hvalue, ?_, ?_⟩
  · intro hhost
    have hone : ((iter.device 0).type = DeviceType.XPU ∧ (iter.device 1).type = DeviceType.CPU) ∨
        ((iter.device 0).type = DeviceType.CPU ∧ (iter.device 1).type = DeviceType.XPU) := by
      rcases hhost with h | h
      · rcases hsrc with h1 | h1
        · exact absurd ⟨h, h1⟩ hnot
        · exact Or.inr ⟨h, h1⟩
      · rcases hdst with h0 | h0
        · exact absurd ⟨h0, h⟩ hnot
        · exact Or.inl ⟨h0, h⟩
    have hdiff : iter.device 0 ≠ iter.device 1 := by
      intro h
      rcases hone with ⟨h0, h1⟩ | ⟨h0, h1⟩ <;> rw [h] at h0 <;> rw [h0] at h1 <;> cases h1
    have hnotxpu : ¬ ((iter.device 0).type = DeviceType.XPU ∧
        (iter.device 1).type = DeviceType.XPU) := by
      rintro ⟨h0, h1⟩
      rcases hone with ⟨_, h⟩ | ⟨h, _⟩
      · rw [h1] at h; cases h
      · rw [h0] at h; cases h
    constructor
    · intro hpath
      by_contra hc
      have hstaged : copy_kernel_dpcpp env copy iter non_blocking =
          copy_via_temporaries env copy iter non_blocking := by
        simp [copy_kernel_dpcpp, hvalue, hdiff, hc]
      rw [hstaged] at hpath
      exact copy_via_temporaries_ne_copy_host_device env copy iter non_blocking hpath
    · intro hc
      simp [copy_kernel_dpcpp, hvalue, hc, hnotxpu]
  · rintro ⟨h0, h1, hdiff, hc⟩
    simp [copy_kernel_dpcpp, hvalue, hdiff, hc]

/-- C6, at a concrete input: a strided float destination on an XPU and a dense float source
on the host, for which `copy_requires_temporaries` is true. -/
theorem C6_requires_temporaries_iff_witness :
    ((sample_host_to_strided.device 0).type = DeviceType.CPU ∨
      (sample_host_to_strided.device 0).type = DeviceType.XPU) ∧
    ((sample_host_to_strided.device 1).type = DeviceType.CPU ∨
      (sample_host_to_strided.device 1).type = DeviceType.XPU) ∧
    ¬ ((sample_host_to_strided.device 0).type = DeviceType.CPU ∧
      (sample_host_to_strided.device 1).type = DeviceType.CPU) ∧
    copy_requires_temporaries sample_host_to_strided
        (maybe_enable_p2p_access (sample_host_to_strided.device 0)
          (sample_host_to_strided.device 1)) =
      .ok (decide (sample_host_to_strided.device 0 ≠ sample_host_to_strided.device 1 ∧
        ¬ (sample_host_to_strided.dtype 0 = sample_host_to_strided.dtype 1 ∧
          sample_host_to_strided.is_contiguous = true))) :=
  ⟨by decide, by decide, by decide,
    (C6_requires_temporaries_iff aten (copy_at_depth aten 1) sample_host_to_strided false
      (by decide) (by decide) (by decide)).1⟩

theorem memcpy_eligible_iff (iter : TensorIterator) :
    memcpy_eligible iter = true ↔
      (iter.dtype 0 = iter.dtype 1 ∧ (iter.tensor 0).is_conj = (iter.tensor 1).is_conj ∧
        (iter.tensor 0).is_neg = (iter.tensor 1).is_neg ∧ iter.is_contiguous = true) := by
  simp [memcpy_eligible, and_assoc]

/-- With the dispatch tables as specified, the dispatch selected by the kernel branch covers
the destination dtype of every descriptor whose operands carry the conjugate flag only on a
complex dtype, as the tensor library guarantees: the launch is never fatal for such
operands. -/
theorem ipex_dispatch_covers_kernel_choice (iter : TensorIterator)
    (hdst : (iter.tensor 0).is_conj = true → isComplexType (iter.dtype 0) = true)
    (hsrc : (iter.tensor 1).is_conj = true → isComplexType (iter.dtype 1) = true) :
    ipex_dispatch (kernel_choice iter).1 (iter.dtype 0) = true := by
  have hcomplex : (iter.tensor 0).is_conj ≠ (iter.tensor 1).is_conj →
      iter.dtype 0 = iter.dtype 1 → isComplexType (iter.dtype 0) = true := by
    intro hne heq
    cases h0 : (iter.tensor 0).is_conj
    · cases h1 : (iter.tensor 1).is_conj
      · rw [h0, h1] at hne; exact absurd rfl hne
      · rw [heq]; exact hsrc h1
    · exact hdst h0
  have hleaf : ∀ h : (!decide ((iter.tensor 0).is_conj = (iter.tensor 1).is_conj) &&
      decide (iter.dtype 0 = iter.dtype 1)) = true, isComplexType (iter.dtype 0) = true := by
    intro h
    simp only [Bool.and_eq_true, Bool.not_eq_true', decide_eq_false_iff_not,
      decide_eq_true_eq] at h
    exact hcomplex h.1 h.2
  simp only [kernel_choice]
  split
  · rename_i hq
    simpa [ipex_dispatch] using hq
  · rename_i hq
    have hq : isQIntType (iter.dtype 0) = false := by simpa using hq
    split
    · split
      · rename_i h
        simpa [ipex_dispatch] using hleaf h
      · simp [ipex_dispatch, hq]
    · split
      · rename_i h
        simpa [ipex_dispatch] using hleaf h
      · simp [ipex_dispatch, hq]

/-- C7. In `copy_device_to_device` on a non-empty descriptor a byte copy is submitted if and
only if the operands have equal dtype, equal conjugate flag, equal negate flag and the
descriptor is contiguous. When they do, the copy is the asynchronous device-to-device copy of
exactly `numel × element_size(0)` bytes between the two data pointers, it is the only byte
copy, and no kernel is launched. In every other case no byte copy is issued and the
elementwise kernel is launched, the dtype dispatch of the launch covering the destination
dtype. -/
theorem C7_byte_copy_iff_eligible (dispatch : DispatchKey → ScalarType → Bool)
    (iter : TensorIterator) (non_blocking : Bool) (h : iter.numel ≠ 0) :
    ((∃ op ∈ (copy_device_to_device dispatch iter non_blocking).ops, op.is_byte_copy = true) ↔
      (iter.dtype 0 = iter.dtype 1 ∧ (iter.tensor 0).is_conj = (iter.tensor 1).is_conj ∧
        (iter.tensor 0).is_neg = (iter.tensor 1).is_neg ∧ iter.is_contiguous = true)) ∧
    ((iter.dtype 0 = iter.dtype 1 ∧ (iter.tensor 0).is_conj = (iter.tensor 1).is_conj ∧
        (iter.tensor 0).is_neg = (iter.tensor 1).is_neg ∧ iter.is_contiguous = true) →
      Op.dpcppMemcpyAsync (iter.data_ptr 0) (iter.data_ptr 1)
          (iter.numel * iter.element_size 0) dpcppMemcpyKind.DeviceToDevice ∈
        (copy_device_to_device dispatch iter non_blocking).ops ∧
      (∀ op ∈ (copy_device_to_device dispatch iter non_blocking).ops,
        op.is_byte_copy = true →
          op = Op.dpcppMemcpyAsync (iter.data_ptr 0) (iter.data_ptr 1)
            (iter.numel * iter.element_size 0) dpcppMemcpyKind.DeviceToDevice) ∧
      (∀ op ∈ (copy_device_to_device dispatch iter non_blocking).ops, op.is_kernel = false)) ∧
    (¬ (iter.dtype 0 = iter.dtype 1 ∧ (iter.tensor 0).is_conj = (iter.tensor 1).is_conj ∧
        (iter.tensor 0).is_neg = (iter.tensor 1).is_neg ∧ iter.is_contiguous = true) →
      (∀ op ∈ (copy_device_to_device dispatch iter non_blocking).ops,
        op.is_byte_copy = false) ∧
      (dispatch (kernel_choice iter).1 (iter.dtype 0) = true →
        (copy_device_to_device dispatch iter non_blocking).err = none ∧
        ∃ op ∈ (copy_device_to_device dispatch iter non_blocking).ops, op.is_kernel = true)) := by
  rw [← memcpy_eligible_iff]
  rcases copy_device_to_device_cases dispatch iter non_blocking h with
    ⟨he, hrun⟩ | ⟨he, hc, hrun⟩ | ⟨he, hc, hrun⟩
  · -- the byte copy
    have hmem : Op.dpcppMemcpyAsync (iter.data_ptr 0) (iter.data_ptr 1)
          (iter.numel * iter.element_size 0) dpcppMemcpyKind.DeviceToDevice ∈
        (copy_device_to_device dispatch iter non_blocking).ops := by
      rw [hrun]; simp [Run.done]
    refine ⟨⟨fun _ => he, fun _ => ⟨_, hmem, rfl⟩⟩, fun _ => ⟨hmem, ?_, ?_⟩, ?_⟩
    · intro op hop hb
      rw [hrun] at hop
      simp only [Run.done, List.mem_append, List.mem_cons] at hop
      rcases hop with hop | rfl | hop
      · rw [(before_transfer_ops iter op hop).2.1] at hb; cases hb
      · rfl
      · rw [(after_transfer_ops iter op hop).2.1] at hb; cases hb
    · intro op hop
      rw [hrun] at hop
      simp only [Run.done, List.mem_append, List.mem_cons] at hop
      rcases hop with hop | rfl | hop
      · exact (before_transfer_ops iter op hop).2.2.1
      · rfl
      · exact (after_transfer_ops iter op hop).2.2.1
    · intro hne
      exact absurd he hne
  · -- the kernel
    have hno : ∀ op ∈ (copy_device_to_device dispatch iter non_blocking).ops,
        op.is_byte_copy = false := by
      intro op hop
      rw [hrun] at hop
      simp only [Run.done, List.mem_append, List.mem_cons] at hop
      rcases hop with hop | rfl | hop
      · exact (before_transfer_ops iter op hop).2.1
      · rfl
      · exact (after_transfer_ops iter op hop).2.1
    refine ⟨⟨?_, ?_⟩, ?_, ?_⟩
    · rintro ⟨op, hop, hb⟩
      rw [hno op hop] at hb; cases hb
    · intro hm
      rw [he] at hm; cases hm
    · intro hm
      rw [he] at hm; cases hm
    · intro _
      refine ⟨hno, fun _ => ⟨?_, ?_⟩⟩
      · rw [hrun]; rfl
      · refine ⟨Op.dpcpp_kernel_for_tensor_iter (kernel_choice iter).1 (kernel_choice iter).2
          iter, ?_, rfl⟩
        rw [hrun]; simp [Run.done]
  · -- the dispatch does not cover the dtype
    have hno : ∀ op ∈ (copy_device_to_device dispatch iter non_blocking).ops,
        op.is_byte_copy = false := by
      intro op hop
      rw [hrun] at hop
      exact (before_transfer_ops iter op hop).2.1
    refine ⟨⟨?_, ?_⟩, ?_, ?_⟩
    · rintro ⟨op, hop, hb⟩
      rw [hno op hop] at hb; cases hb
    · intro hm
      rw [he] at hm; cases hm
    · intro hm
      rw [he] at hm; cases hm
    · intro _
      refine ⟨hno, fun hcov => ?_⟩
      rw [hc] at hcov; cases hcov

/-- C7, at a concrete input: two dense complex tensors on one XPU whose negate flags differ,
so that the kernel is launched and no byte copy is issued. -/
theorem C7_byte_copy_iff_eligible_witness :
    sample_negated.numel ≠ 0 ∧
    ¬ (sample_negated.dtype 0 = sample_negated.dtype 1 ∧
      (sample_negated.tensor 0).is_conj = (sample_negated.tensor 1).is_conj ∧
      (sample_negated.tensor 0).is_neg = (sample_negated.tensor 1).is_neg ∧
      sample_negated.is_contiguous = true) ∧
    ipex_dispatch (kernel_choice sample_negated).1 (sample_negated.dtype 0) = true ∧
    (∃ op ∈ (copy_device_to_device ipex_dispatch sample_negated false).ops,
      op.is_kernel = true) :=
  ⟨by decide, by decide, by decide,
    (((C7_byte_copy_iff_eligible ipex_dispatch sample_negated false (by decide)).2.2
      (by decide)).2 (by decide)).2⟩

theorem before_transfer_of_ne (iter : TensorIterator) (h : iter.device 1 ≠ iter.device 0) :
    before_transfer iter =
      [Op.device_guard (iter.device 1),
       Op.record .dst_ready (getCurrentDPCPPStream (iter.device 0).index),
       Op.block .dst_ready (getCurrentDPCPPStream (iter.device 1).index)] := by
  simp [before_transfer, h]

theorem after_transfer_of_ne (iter : TensorIterator) (h : iter.device 1 ≠ iter.device 0) :
    after_transfer iter =
      [Op.record .src_ready (getCurrentDPCPPStream (iter.device 1).index),
       Op.block .src_ready (getCurrentDPCPPStream (iter.device 0).index)] := by
  simp [after_transfer, h]

theorem before_transfer_of_eq (iter : TensorIterator) (h : iter.device 1 = iter.device 0) :
    before_transfer iter = [Op.device_guard (iter.device 1)] := by
  simp [before_transfer, h]

theorem after_transfer_of_eq (iter : TensorIterator) (h : iter.device 1 = iter.device 0) :
    after_transfer iter = [] := by
  simp [after_transfer, h]

/-- C9. A non-empty device-to-device copy whose transfer is submitted (the byte copy, or the
kernel when its dtype dispatch covers the destination dtype) issues, when the two devices
differ, exactly this sequence: bind the source device; record `dst_ready` on the current
stream of the destination device; block the current stream of the source device on it;
submit the transfer, which runs on the stream of the bound source device; record `src_ready`
on the source stream; block the destination stream on it. When the two devices are equal the
sequence is the binding of the device and the transfer, and no signal is recorded or awaited.
The run does not depend on `non_blocking`. -/
theorem C9_two_way_barrier (dispatch : DispatchKey → ScalarType → Bool)
    (iter : TensorIterator) (non_blocking : Bool) (h : iter.numel ≠ 0) :
    ((memcpy_eligible iter = false → dispatch (kernel_choice iter).1 (iter.dtype 0) = true) →
      ∃ transfer : Op,
        device_to_device_transfer dispatch iter = .ok transfer ∧
        (transfer.is_byte_copy = true ∨ transfer.is_kernel = true) ∧
        (iter.device 1 ≠ iter.device 0 →
          copy_device_to_device dispatch iter non_blocking =
            Run.done
              [Op.device_guard (iter.device 1),
               Op.record .dst_ready (getCurrentDPCPPStream (iter.device 0).index),
               Op.block .dst_ready (getCurrentDPCPPStream (iter.device 1).index),
               transfer,
               Op.record .src_ready (getCurrentDPCPPStream (iter.device 1).index),
               Op.block .src_ready (getCurrentDPCPPStream (iter.device 0).index)]) ∧
        (iter.device 1 = iter.device 0 →
          copy_device_to_device dispatch iter non_blocking =
            Run.done [Op.device_guard (iter.device 1), transfer])) ∧
    (iter.device 1 = iter.device 0 →
      ∀ op ∈ (copy_device_to_device dispatch iter non_blocking).ops, op.is_signal = false) ∧
    copy_device_to_device dispatch iter true = copy_device_to_device dispatch iter false := by
  refine ⟨?_, ?_, rfl⟩
  · intro hcov
    have hshape : ∀ transfer : Op, device_to_device_transfer dispatch iter = .ok transfer →
        (iter.device 1 ≠ iter.device 0 →
          copy_device_to_device dispatch iter non_blocking =
            Run.done
              [Op.device_guard (iter.device 1),
               Op.record .dst_ready (getCurrentDPCPPStream (iter.device 0).index),
               Op.block .dst_ready (getCurrentDPCPPStream (iter.device 1).index),
               transfer,
               Op.record .src_ready (getCurrentDPCPPStream (iter.device 1).index),
               Op.block .src_ready (getCurrentDPCPPStream (iter.device 0).index)]) ∧
        (iter.device 1 = iter.device 0 →
          copy_device_to_device dispatch iter non_blocking =
            Run.done [Op.device_guard (iter.device 1), transfer]) := by
      intro transfer ht
      constructor
      · intro hne
        rw [copy_device_to_device_of_transfer dispatch iter non_blocking transfer h ht,
          before_transfer_of_ne iter hne, after_transfer_of_ne iter hne]
        rfl
      · intro heq
        rw [copy_device_to_device_of_transfer dispatch iter non_blocking transfer h ht,
          before_transfer_of_eq iter heq, after_transfer_of_eq iter heq]
        rfl
    cases he : memcpy_eligible iter
    · have ht := device_to_device_transfer_kernel dispatch iter he (hcov he)
      exact ⟨_, ht, Or.inr rfl, hshape _ ht⟩
    · have ht := device_to_device_transfer_eligible dispatch iter he
      exact ⟨_, ht, Or.inl rfl, hshape _ ht⟩
  · intro heq op hop
    have hb : ∀ op ∈ before_transfer iter, op.is_signal = false := by
      intro op hop
      rw [before_transfer_of_eq iter heq] at hop
      simp only [List.mem_singleton] at hop
      subst hop
      rfl
    rcases copy_device_to_device_cases dispatch iter non_blocking h with
      ⟨_, hrun⟩ | ⟨_, _, hrun⟩ | ⟨_, _, hrun⟩
    · rw [hrun, after_transfer_of_eq iter heq] at hop
      simp only [Run.done, List.mem_append, List.mem_singleton] at hop
      rcases hop with hop | rfl
      · exact hb op hop
      · rfl
    · rw [hrun, after_transfer_of_eq iter heq] at hop
      simp only [Run.done, List.mem_append, List.mem_singleton] at hop
      rcases hop with hop | rfl
      · exact hb op hop
      · rfl
    · rw [hrun] at hop
      exact hb op hop

/-- C9, at a concrete input: two dense complex tensors on XPU 0 and XPU 1, the source with
both flags set, copied by the kernel between the two barriers. -/
theorem C9_two_way_barrier_witness :
    sample_cross_device_conj_neg.numel ≠ 0 ∧
    (memcpy_eligible sample_cross_device_conj_neg = false →
      ipex_dispatch (kernel_choice sample_cross_device_conj_neg).1
        (sample_cross_device_conj_neg.dtype 0) = true) ∧
    sample_cross_device_conj_neg.device 1 ≠ sample_cross_device_conj_neg.device 0 ∧
    (∃ transfer : Op,
      device_to_device_transfer ipex_dispatch sample_cross_device_conj_neg = .ok transfer ∧
      (transfer.is_byte_copy = true ∨ transfer.is_kernel = true) ∧
      (sample_cross_device_conj_neg.device 1 ≠ sample_cross_device_conj_neg.device 0 →
        copy_device_to_device ipex_dispatch sample_cross_device_conj_neg true =
          Run.done
            [Op.device_guard (sample_cross_device_conj_neg.device 1),
             Op.record .dst_ready
               (getCurrentDPCPPStream (sample_cross_device_conj_neg.device 0).index),
             Op.block .dst_ready
               (getCurrentDPCPPStream (sample_cross_device_conj_neg.device 1).index),
             transfer,
             Op.record .src_ready
               (getCurrentDPCPPStream (sample_cross_device_conj_neg.device 1).index),
             Op.block .src_ready
               (getCurrentDPCPPStream (sample_cross_device_conj_neg.device 0).index)]) ∧
      (sample_cross_device_conj_neg.device 1 = sample_cross_device_conj_neg.device 0 →
        copy_device_to_device ipex_dispatch sample_cross_device_conj_neg true =
          Run.done [Op.device_guard (sample_cross_device_conj_neg.device 1), transfer])) :=
  ⟨by decide, by decide, by decide,
    (C9_two_way_barrier ipex_dispatch sample_cross_device_conj_neg true (by decide)).1
      (by decide)⟩

theorem kernel_choice_eq_policy_table (iter : TensorIterator) :
    (kernel_choice iter).2 =
      policy_table (isQIntType (iter.dtype 0))
        (decide ((iter.tensor 0).is_neg = (iter.tensor 1).is_neg))
        (decide ((iter.tensor 0).is_conj = (iter.tensor 1).is_conj))
        (decide (iter.dtype 0 = iter.dtype 1)) := by
  simp only [kernel_choice, policy_table]
  generalize isQIntType (iter.dtype 0) = quantized
  generalize decide ((iter.tensor 0).is_neg = (iter.tensor 1).is_neg) = same_neg
  generalize decide ((iter.tensor 0).is_conj = (iter.tensor 1).is_conj) = same_conj
  generalize decide (iter.dtype 0 = iter.dtype 1) = same_type
  cases quantized <;> cases same_neg <;> cases same_conj <;> cases same_type <;> rfl

/-- C10. The per-element function of every kernel that `copy_device_to_device` launches is
the one the policy table assigns: identity for a quantized destination dtype; otherwise
identity, conjugate, negate or conjugate-of-negate according to whether the negate flags
agree and whether the conjugate flags differ with equal dtypes. The function selected by the
kernel branch is that of the table for every descriptor. -/
theorem C10_kernel_transform (dispatch : DispatchKey → ScalarType → Bool)
    (iter : TensorIterator) (non_blocking : Bool) :
    (kernel_choice iter).2 =
      policy_table (isQIntType (iter.dtype 0))
        (decide ((iter.tensor 0).is_neg = (iter.tensor 1).is_neg))
        (decide ((iter.tensor 0).is_conj = (iter.tensor 1).is_conj))
        (decide (iter.dtype 0 = iter.dtype 1)) ∧
    (∀ (key : DispatchKey) (f : Transform) (launched : TensorIterator),
      Op.dpcpp_kernel_for_tensor_iter key f launched ∈
          (copy_device_to_device dispatch iter non_blocking).ops →
        f = policy_table (isQIntType (iter.dtype 0))
          (decide ((iter.tensor 0).is_neg = (iter.tensor 1).is_neg))
          (decide ((iter.tensor 0).is_conj = (iter.tensor 1).is_conj))
          (decide (iter.dtype 0 = iter.dtype 1))) := by
  refine ⟨kernel_choice_eq_policy_table iter, ?_⟩
  intro key f launched hop
  have hnot : ∀ ops : List Op, (∀ op ∈ ops, op.is_kernel = false) →
      Op.dpcpp_kernel_for_tensor_iter key f launched ∉ ops := by
    intro ops hall hmem
    have := hall _ hmem
    cases this
  by_cases h : iter.numel = 0
  · rw [copy_device_to_device_of_numel_zero dispatch iter non_blocking h] at hop
    simp [Run.done] at hop
  · have hbefore := hnot (before_transfer iter)
      (fun op hop => (before_transfer_ops iter op hop).2.2.1)
    have hafter := hnot (after_transfer iter)
      (fun op hop => (after_transfer_ops iter op hop).2.2.1)
    rcases copy_device_to_device_cases dispatch iter non_blocking h with
      ⟨_, hrun⟩ | ⟨_, _, hrun⟩ | ⟨_, _, hrun⟩
    · rw [hrun] at hop
      simp only [Run.done, List.mem_append, List.mem_cons] at hop
      rcases hop with hop | hop | hop
      · exact absurd hop hbefore
      · cases hop
      · exact absurd hop hafter
    · rw [hrun] at hop
      simp only [Run.done, List.mem_append, List.mem_cons] at hop
      rcases hop with hop | hop | hop
      · exact absurd hop hbefore
      · injection hop with _ hf _
        rw [hf]
        exact kernel_choice_eq_policy_table iter
      · exact absurd hop hafter
    · rw [hrun] at hop
      exact absurd hop hbefore

/-- C10, at a concrete input: two dense complex tensors on XPU 0 and XPU 1, the source with
both flags set; the kernel launched applies conjugate-of-negate. -/
theorem C10_kernel_transform_witness :
    Op.dpcpp_kernel_for_tensor_iter .COMPLEX_TYPES .conj_neg sample_cross_device_conj_neg ∈
      (copy_device_to_device ipex_dispatch sample_cross_device_conj_neg false).ops ∧
    Transform.conj_neg = policy_table (isQIntType (sample_cross_device_conj_neg.dtype 0))
      (decide ((sample_cross_device_conj_neg.tensor 0).is_neg =
        (sample_cross_device_conj_neg.tensor 1).is_neg))
      (decide ((sample_cross_device_conj_neg.tensor 0).is_conj =
        (sample_cross_device_conj_neg.tensor 1).is_conj))
      (decide (sample_cross_device_conj_neg.dtype 0 = sample_cross_device_conj_neg.dtype 1)) :=
  ⟨by decide,
    (C10_kernel_transform ipex_dispatch sample_cross_device_conj_neg false).2
      .COMPLEX_TYPES .conj_neg sample_cross_device_conj_neg (by decide)⟩

theorem Tensor.strides_length (t : Tensor) : t.strides.length = t.dim := by
  simp [Tensor.strides, Tensor.dim, Tensor.sizes]

/-- The condition of the reorder call, spelled out. -/
theorem reorder_eligible_iff (env : Env) (self src : Tensor) :
    reorder_eligible env self src = true ↔
      (src.device.type = DeviceType.XPU ∧ src.device = self.device ∧
        src.dim ≠ 0 ∧ self.dim ≠ 0 ∧
        onednn_strides_check self = true ∧ onednn_strides_check src = true ∧
        env.is_supported_onednn_dtype self = true ∧ env.is_supported_onednn_dtype src = true ∧
        src.dim ≤ MAX_ONEDNN_SUPPORTED_DIMS) := by
  unfold reorder_eligible
  simp only [Tensor.strides_length, Bool.and_eq_true, decide_eq_true_eq, bne_iff_ne, ne_eq,
    and_self, and_assoc]
  have hd : ∀ t : Tensor, t.sizes.length = t.dim := fun _ => rfl
  simp only [hd]
  constructor
  · rintro ⟨h1, h2, h3, _, h4, _, h5⟩
    exact ⟨h1, h2, h3, h4, h5⟩
  · rintro ⟨h1, h2, h3, h4, h5⟩
    exact ⟨h1, h2, h3, h3, h4, h4, h5⟩

theorem copy_body_of_reorder (env : Env) (copy : Tensor → Tensor → Bool → Tensor × Run)
    (self src : Tensor) (non_blocking : Bool) (hne : self.is_same src = false)
    (hnum : (BUILD_TENSOR_ITER env (rebind_quantized env self src).1 src).numel ≠ 0)
    (h : reorder_eligible env (rebind_quantized env self src).1 src = true) :
    copy_body env copy self src non_blocking =
      ((rebind_quantized env self src).1,
        Run.done ((rebind_quantized env self src).2 ++
          [Op.reorder_copy src (rebind_quantized env self src).1])) := by
  unfold copy_body
  simp only [hne, Bool.false_eq_true, if_false, hnum, h, if_true]

theorem copy_body_of_not_reorder (env : Env) (copy : Tensor → Tensor → Bool → Tensor × Run)
    (self src : Tensor) (non_blocking : Bool) (hne : self.is_same src = false)
    (hnum : (BUILD_TENSOR_ITER env (rebind_quantized env self src).1 src).numel ≠ 0)
    (h : reorder_eligible env (rebind_quantized env self src).1 src = false) :
    copy_body env copy self src non_blocking =
      ((rebind_quantized env self src).1,
        (Run.done (rebind_quantized env self src).2).seq
          (copy_kernel_dpcpp env copy
            (BUILD_TENSOR_ITER env (rebind_quantized env self src).1 src) non_blocking)) := by
  unfold copy_body
  simp only [hne, Bool.false_eq_true, if_false, hnum, h]

/-- C8, refuted as stated: two distinct float scalars (rank 0) on the same XPU form a
non-empty pair; both pass the layout check, both have a dtype the reorder library takes, both
have rank at most 6; yet `copy_` does not call the reorder: it runs `copy_kernel_dpcpp`, which
issues the byte copy. -/
theorem C8_counterexample :
    (sample_scalar 0).is_same (sample_scalar 1) = false ∧
    (BUILD_TENSOR_ITER aten (rebind_quantized aten (sample_scalar 0) (sample_scalar 1)).1
      (sample_scalar 1)).numel = 1 ∧
    (sample_scalar 1).device.type = DeviceType.XPU ∧
    (sample_scalar 1).device = (sample_scalar 0).device ∧
    onednn_strides_check (sample_scalar 0) = true ∧
    onednn_strides_check (sample_scalar 1) = true ∧
    aten.is_supported_onednn_dtype (sample_scalar 0) = true ∧
    aten.is_supported_onednn_dtype (sample_scalar 1) = true ∧
    (sample_scalar 0).dim ≤ MAX_ONEDNN_SUPPORTED_DIMS ∧
    (sample_scalar 1).dim ≤ MAX_ONEDNN_SUPPORTED_DIMS ∧
    reorder_eligible aten (sample_scalar 0) (sample_scalar 1) = false ∧
    copy_ aten 1 (sample_scalar 0) (sample_scalar 1) false =
      (sample_scalar 0,
        copy_kernel_dpcpp aten (copy_at_depth aten 1)
          (BUILD_TENSOR_ITER aten (sample_scalar 0) (sample_scalar 1)) false) ∧
    (copy_ aten 1 (sample_scalar 0) (sample_scalar 1) false).2 =
      Run.done [Op.device_guard (xpu 0),
        Op.dpcppMemcpyAsync (sample_scalar 0).data_ptr (sample_scalar 1).data_ptr 4
          dpcppMemcpyKind.DeviceToDevice] := by
  refine ⟨by decide, by decide, by decide, by decide, by decide, by decide, by decide,
    by decide, by decide, by decide, by decide, by decide, by decide⟩

/-- The reorder is also called for a destination of rank 7 when the source has rank 1: only
the rank of the source is compared with `MAX_ONEDNN_SUPPORTED_DIMS`. -/
theorem reorder_called_for_rank7_destination :
    (sample_rank7 0).dim = 7 ∧ (sample_rank1 1).dim = 1 ∧
    reorder_eligible aten (sample_rank7 0) (sample_rank1 1) = true ∧
    (copy_ aten 1 (sample_rank7 0) (sample_rank1 1) false).2 =
      Run.done [Op.reorder_copy (sample_rank1 1) (sample_rank7 0)] := by
  refine ⟨by decide, by decide, by decide, by decide⟩

/-- C8, amended. For a non-empty pair of distinct operands, with the destination taken as
`copy_` has rebound it when both operands are quantized: if both operands are on the same XPU
device, both have a rank from 1 to 6, both pass the layout check and both have a dtype the
reorder library takes, `copy_` calls the native reorder and issues neither a byte copy nor a
kernel; if the operands are not on the same XPU device, or either has rank 0, or either fails
the layout check, or either dtype is not supported, or the source has rank above 6, `copy_`
runs `copy_kernel_dpcpp` on the descriptor. -/
theorem C8_reorder_dispatch (env : Env) (depth : Nat) (self src : Tensor)
    (non_blocking : Bool) (hne : self.is_same src = false)
    (hnum : (BUILD_TENSOR_ITER env (rebind_quantized env self src).1 src).numel ≠ 0) :
    ((src.device.type = DeviceType.XPU ∧ src.device = (rebind_quantized env self src).1.device ∧
        1 ≤ (rebind_quantized env self src).1.dim ∧
        (rebind_quantized env self src).1.dim ≤ MAX_ONEDNN_SUPPORTED_DIMS ∧
        1 ≤ src.dim ∧ src.dim ≤ MAX_ONEDNN_SUPPORTED_DIMS ∧
        onednn_strides_check (rebind_quantized env self src).1 = true ∧
        onednn_strides_check src = true ∧
        env.is_supported_onednn_dtype (rebind_quantized env self src).1 = true ∧
        env.is_supported_onednn_dtype src = true) →
      copy_ env depth self src non_blocking =
        ((rebind_quantized env self src).1,
          Run.done ((rebind_quantized env self src).2 ++
            [Op.reorder_copy src (rebind_quantized env self src).1])) ∧
      (∀ op ∈ (copy_ env depth self src non_blocking).2.ops,
        op.is_byte_copy = false ∧ op.is_kernel = false)) ∧
    ((¬ (src.device.type = DeviceType.XPU ∧
          src.device = (rebind_quantized env self src).1.device) ∨
        (rebind_quantized env self src).1.dim = 0 ∨ src.dim = 0 ∨
        onednn_strides_check (rebind_quantized env self src).1 = false ∨
        onednn_strides_check src = false ∨
        env.is_supported_onednn_dtype (rebind_quantized env self src).1 = false ∨
        env.is_supported_onednn_dtype src = false ∨
        MAX_ONEDNN_SUPPORTED_DIMS < src.dim) →
      copy_ env depth self src non_blocking =
        ((rebind_quantized env self src).1,
          (Run.done (rebind_quantized env self src).2).seq
            (copy_kernel_dpcpp env (copy_at_depth env depth)
              (BUILD_TENSOR_ITER env (rebind_quantized env self src).1 src) non_blocking))) := by
  constructor
  · rintro ⟨hx, hdev, hd1, _, hs1, hs6, hcd, hcs, hsd, hss⟩
    have hel : reorder_eligible env (rebind_quantized env self src).1 src = true := by
      rw [reorder_eligible_iff]
      exact ⟨hx, hdev, by omega, by omega, hcd, hcs, hsd, hss, hs6⟩
    have hrun := copy_body_of_reorder env (copy_at_depth env depth) self src non_blocking hne
      hnum hel
    refine ⟨hrun, ?_⟩
    intro op hop
    unfold copy_ at hop
    rw [hrun] at hop
    simp only [Run.done, List.mem_append, List.mem_singleton] at hop
    rcases hop with hop | rfl
    · have := (rebind_quantized_ops_not_work env self src op hop).1
      simp only [Op.reads_data_ptr, Bool.or_eq_false_iff] at this
      exact ⟨this.1.1, this.1.2⟩
    · exact ⟨rfl, rfl⟩
  · intro hfail
    have hel : reorder_eligible env (rebind_quantized env self src).1 src = false := by
      cases hr : reorder_eligible env (rebind_quantized env self src).1 src
      · rfl
      · rw [reorder_eligible_iff] at hr
        obtain ⟨hx, hdev, hs0, hd0, hcd, hcs, hsd, hss, hs6⟩ := hr
        rcases hfail with h | h | h | h | h | h | h | h
        · exact absurd ⟨hx, hdev⟩ h
        · exact absurd h hd0
        · exact absurd h hs0
        · rw [hcd] at h; cases h
        · rw [hcs] at h; cases h
        · rw [hsd] at h; cases h
        · rw [hss] at h; cases h
        · omega
    exact copy_body_of_not_reorder env (copy_at_depth env depth) self src non_blocking hne
      hnum hel

/-- C8 amended, at a concrete input: two distinct dense 4×4 float tensors on XPU 0, copied by
the reorder. -/
theorem C8_reorder_dispatch_witness :
    (sample_same_device.dst).is_same sample_same_device.src = false ∧
    (BUILD_TENSOR_ITER aten
      (rebind_quantized aten sample_same_device.dst sample_same_device.src).1
      sample_same_device.src).numel ≠ 0 ∧
    copy_ aten 1 sample_same_device.dst sample_same_device.src false =
      ((rebind_quantized aten sample_same_device.dst sample_same_device.src).1,
        Run.done ((rebind_quantized aten sample_same_device.dst sample_same_device.src).2 ++
          [Op.reorder_copy sample_same_device.src
            (rebind_quantized aten sample_same_device.dst sample_same_device.src).1])) :=
  ⟨by decide, by decide,
    ((C8_reorder_dispatch aten 1 sample_same_device.dst sample_same_device.src false
      (by decide) (by decide)).1 (by decide)).1⟩

/-- C12. On the host/device transfer path of `copy_kernel_dpcpp` (no staging needed): with the
destination on an XPU and the source on the host the device guard is bound to the destination
device and the copy is host-to-device; with the destination on the host and the source on an
XPU the guard is bound to the source device and the copy is device-to-host. In both cases the
copy moves `numel × element_size(0)` bytes between the two data pointers, and it is the
asynchronous copy when `non_blocking` is true and the synchronous copy when it is false. -/
theorem C12_host_device_transfer (env : Env) (copy : Tensor → Tensor → Bool → Tensor × Run)
    (iter : TensorIterator)
    (hdirect : copy_requires_temporaries iter
      (maybe_enable_p2p_access (iter.device 0) (iter.device 1)) = .ok false) :
    (((iter.device 0).type = DeviceType.XPU ∧ (iter.device 1).type = DeviceType.CPU) →
      copy_kernel_dpcpp env copy iter true =
        Run.done [Op.device_guard (iter.device 0),
          Op.dpcppMemcpyAsync (iter.data_ptr 0) (iter.data_ptr 1)
            (iter.numel * iter.element_size 0) dpcppMemcpyKind.HostToDevice] ∧
      copy_kernel_dpcpp env copy iter false =
        Run.done [Op.device_guard (iter.device 0),
          Op.dpcppMemcpy (iter.data_ptr 0) (iter.data_ptr 1)
            (iter.numel * iter.element_size 0) dpcppMemcpyKind.HostToDevice]) ∧
    (((iter.device 0).type = DeviceType.CPU ∧ (iter.device 1).type = DeviceType.XPU) →
      copy_kernel_dpcpp env copy iter true =
        Run.done [Op.device_guard (iter.device 1),
          Op.dpcppMemcpyAsync (iter.data_ptr 0) (iter.data_ptr 1)
            (iter.numel * iter.element_size 0) dpcppMemcpyKind.DeviceToHost] ∧
      copy_kernel_dpcpp env copy iter false =
        Run.done [Op.device_guard (iter.device 1),
          Op.dpcppMemcpy (iter.data_ptr 0) (iter.data_ptr 1)
            (iter.numel * iter.element_size 0) dpcppMemcpyKind.DeviceToHost]) := by
  constructor
  · rintro ⟨h0, h1⟩
    constructor <;>
      simp [copy_kernel_dpcpp, hdirect, copy_host_device, Device.is_cpu, h0, h1]
  · rintro ⟨h0, h1⟩
    constructor <;>
      simp [copy_kernel_dpcpp, hdirect, copy_host_device, Device.is_cpu, h0, h1]

/-- C12, at a concrete input: a dense float destination on the host and a dense float source
on XPU 0, copied by a blocking call. -/
theorem C12_host_device_transfer_witness :
    copy_requires_temporaries sample_device_to_host
      (maybe_enable_p2p_access (sample_device_to_host.device 0)
        (sample_device_to_host.device 1)) = .ok false ∧
    ((sample_device_to_host.device 0).type = DeviceType.CPU ∧
      (sample_device_to_host.device 1).type = DeviceType.XPU) ∧
    copy_kernel_dpcpp aten (copy_at_depth aten 1) sample_device_to_host false =
      Run.done [Op.device_guard (sample_device_to_host.device 1),
        Op.dpcppMemcpy (sample_device_to_host.data_ptr 0) (sample_device_to_host.data_ptr 1)
          (sample_device_to_host.numel * sample_device_to_host.element_size 0)
          dpcppMemcpyKind.DeviceToHost] :=
  ⟨by rfl, by decide,
    ((C12_host_device_transfer aten (copy_at_depth aten 1) sample_device_to_host
      (by rfl)).2 (by decide)).2⟩

/-- No operation of `copy_device_to_device` makes the calling thread wait. -/
theorem copy_device_to_device_never_waits (dispatch : DispatchKey → ScalarType → Bool)
    (iter : TensorIterator) (non_blocking : Bool) :
    ∀ op ∈ (copy_device_to_device dispatch iter non_blocking).ops,
      op.waits_for_completion = false := by
  have hbefore : ∀ op ∈ before_transfer iter, op.waits_for_completion = false := by
    intro op hop
    unfold before_transfer at hop
    simp only [List.mem_cons] at hop
    rcases hop with rfl | hop
    · rfl
    · split at hop
      · simp only [List.mem_cons, List.mem_singleton, List.not_mem_nil, or_false] at hop
        rcases hop with rfl | rfl <;> rfl
      · simp at hop
  have hafter : ∀ op ∈ after_transfer iter, op.waits_for_completion = false := by
    intro op hop
    simp only [after_transfer] at hop
    split at hop
    · simp only [List.mem_cons, List.mem_singleton, List.not_mem_nil, or_false] at hop
      rcases hop with rfl | rfl <;> rfl
    · simp at hop
  intro op hop
  by_cases h : iter.numel = 0
  · rw [copy_device_to_device_of_numel_zero dispatch iter non_blocking h] at hop
    simp [Run.done] at hop
  · rcases copy_device_to_device_cases dispatch iter non_blocking h with
      ⟨_, hrun⟩ | ⟨_, _, hrun⟩ | ⟨_, _, hrun⟩
    · rw [hrun] at hop
      simp only [Run.done, List.mem_append, List.mem_cons] at hop
      rcases hop with hop | rfl | hop
      · exact hbefore op hop
      · rfl
      · exact hafter op hop
    · rw [hrun] at hop
      simp only [Run.done, List.mem_append, List.mem_cons] at hop
      rcases hop with hop | rfl | hop
      · exact hbefore op hop
      · rfl
      · exact hafter op hop
    · rw [hrun] at hop
      exact hbefore op hop

/-- C13, refuted as stated: a blocking copy between two dense float tensors on XPU 0 and
XPU 1 is non-empty and device-to-device, yet none of the operations `copy_device_to_device`
issues is a synchronous transfer or a wait of the calling thread: the transfer is the
asynchronous byte copy between the two event barriers. The same holds for the blocking
`copy_` of the two tensors. -/
theorem C13_counterexample :
    sample_cross_device.numel ≠ 0 ∧
    (sample_cross_device.device 0).type = DeviceType.XPU ∧
    (sample_cross_device.device 1).type = DeviceType.XPU ∧
    copy_device_to_device ipex_dispatch sample_cross_device false =
      Run.done [Op.device_guard (xpu 1),
        Op.record .dst_ready (getCurrentDPCPPStream 0),
        Op.block .dst_ready (getCurrentDPCPPStream 1),
        Op.dpcppMemcpyAsync (sample_cross_device.data_ptr 0) (sample_cross_device.data_ptr 1)
          64 dpcppMemcpyKind.DeviceToDevice,
        Op.record .src_ready (getCurrentDPCPPStream 1),
        Op.block .src_ready (getCurrentDPCPPStream 0)] ∧
    (∀ op ∈ (copy_device_to_device ipex_dispatch sample_cross_device false).ops,
      op.waits_for_completion = false) ∧
    (∀ op ∈ (copy_ aten 1 sample_cross_device.dst sample_cross_device.src false).2.ops,
      op.waits_for_completion = false) := by
  refine ⟨by decide, by decide, by decide, by decide, by decide, by decide⟩

/-- C13, amended. A device-to-device copy issues the same operations whether the call is
blocking or not: `copy_device_to_device` does not read `non_blocking`, and none of the
operations it issues is a synchronous transfer or a wait of the calling thread. The transfer
is the asynchronous byte copy or a kernel launch; its completion is ordered on the device
streams only. -/
theorem C13_device_to_device_never_waits (dispatch : DispatchKey → ScalarType → Bool)
    (iter : TensorIterator) (non_blocking : Bool) :
    copy_device_to_device dispatch iter non_blocking =
      copy_device_to_device dispatch iter (!non_blocking) ∧
    (∀ op ∈ (copy_device_to_device dispatch iter non_blocking).ops,
      op.waits_for_completion = false) ∧
    (∀ op ∈ (copy_device_to_device dispatch iter non_blocking).ops,
      op.is_byte_copy = true →
        op = Op.dpcppMemcpyAsync (iter.data_ptr 0) (iter.data_ptr 1)
          (iter.numel * iter.element_size 0) dpcppMemcpyKind.DeviceToDevice) := by
  refine ⟨rfl, copy_device_to_device_never_waits dispatch iter non_blocking, ?_⟩
  intro op hop hb
  by_cases h : iter.numel = 0
  · rw [copy_device_to_device_of_numel_zero dispatch iter non_blocking h] at hop
    simp [Run.done] at hop
  · rcases copy_device_to_device_cases dispatch iter non_blocking h with
      ⟨_, hrun⟩ | ⟨_, _, hrun⟩ | ⟨_, _, hrun⟩
    · rw [hrun] at hop
      simp only [Run.done, List.mem_append, List.mem_cons] at hop
      rcases hop with hop | rfl | hop
      · rw [(before_transfer_ops iter op hop).2.1] at hb; cases hb
      · rfl
      · rw [(after_transfer_ops iter op hop).2.1] at hb; cases hb
    · rw [hrun] at hop
      simp only [Run.done, List.mem_append, List.mem_cons] at hop
      rcases hop with hop | rfl | hop
      · rw [(before_transfer_ops iter op hop).2.1] at hb; cases hb
      · cases hb
      · rw [(after_transfer_ops iter op hop).2.1] at hb; cases hb
    · rw [hrun] at hop
      rw [(before_transfer_ops iter op hop).2.1] at hb; cases hb

/-- C13 amended, at a concrete input: the byte copy of the blocking cross-device copy is the
asynchronous one and does not make the calling thread wait. -/
theorem C13_device_to_device_never_waits_witness :
    Op.dpcppMemcpyAsync (sample_cross_device.data_ptr 0) (sample_cross_device.data_ptr 1)
        (sample_cross_device.numel * sample_cross_device.element_size 0)
        dpcppMemcpyKind.DeviceToDevice ∈
      (copy_device_to_device ipex_dispatch sample_cross_device false).ops ∧
    (Op.dpcppMemcpyAsync (sample_cross_device.data_ptr 0) (sample_cross_device.data_ptr 1)
        (sample_cross_device.numel * sample_cross_device.element_size 0)
        dpcppMemcpyKind.DeviceToDevice).waits_for_completion = false :=
  ⟨by decide,
    (C13_device_to_device_never_waits ipex_dispatch sample_cross_device false).2.1 _
      (by decide)⟩

/-- The staging branch never ends as a bare failure: its run always carries a tensor-library
call. -/
theorem copy_via_temporaries_ne_bare_failure (env : Env)
    (copy : Tensor → Tensor → Bool → Tensor × Run) (iter : TensorIterator)
    (non_blocking : Bool) (e : Err) :
    copy_via_temporaries env copy iter non_blocking ≠ Run.fail [] e := by
  intro h
  obtain ⟨op, hop, _⟩ := copy_via_temporaries_has_staging_op env copy iter non_blocking
  rw [h] at hop
  simp [Run.fail] at hop

/-- C14. With every operand either on the host or on an XPU: when both operands are on the
host the assertion of `copy_requires_temporaries` fails and `copy_kernel_dpcpp` ends with
that fatal error before issuing any operation; for every other pairing
`copy_requires_temporaries` returns a value, and `copy_kernel_dpcpp` is the staging branch,
the device-to-device copy, or a host/device transfer that passes the final device check, so
that the `unsupported devices` assertion of line 277 is never reached. -/
theorem C14_device_pairing_checks (env : Env) (copy : Tensor → Tensor → Bool → Tensor × Run)
    (iter : TensorIterator) (non_blocking : Bool)
    (hdst : iter.device 0 = cpu ∨ (iter.device 0).type = DeviceType.XPU)
    (hsrc : iter.device 1 = cpu ∨ (iter.device 1).type = DeviceType.XPU) :
    ((iter.device 0 = cpu ∧ iter.device 1 = cpu) →
      copy_requires_temporaries iter
          (maybe_enable_p2p_access (iter.device 0) (iter.device 1)) =
        .error (Err.internal_assert 47) ∧
      copy_kernel_dpcpp env copy iter non_blocking = Run.fail [] (Err.internal_assert 47)) ∧
    (¬ (iter.device 0 = cpu ∧ iter.device 1 = cpu) →
      (∃ staged : Bool, copy_requires_temporaries iter
          (maybe_enable_p2p_access (iter.device 0) (iter.device 1)) = .ok staged) ∧
      (copy_kernel_dpcpp env copy iter non_blocking =
          copy_via_temporaries env copy iter non_blocking ∨
        copy_kernel_dpcpp env copy iter non_blocking =
          copy_device_to_device env.dispatch iter non_blocking ∨
        (copy_kernel_dpcpp env copy iter non_blocking = copy_host_device iter non_blocking ∧
          (copy_host_device iter non_blocking).err = none)) ∧
      (∀ line, copy_kernel_dpcpp env copy iter non_blocking ≠
        Run.fail [] (Err.internal_assert line))) := by
  constructor
  · rintro ⟨h0, h1⟩
    have hreq : copy_requires_temporaries iter
        (maybe_enable_p2p_access (iter.device 0) (iter.device 1)) =
          .error (Err.internal_assert 47) := by
      simp [copy_requires_temporaries, h0, h1, cpu]
    exact ⟨hreq, by simp [copy_kernel_dpcpp, hreq]⟩
  · intro hnot
    have hcases : ((iter.device 0).type = DeviceType.XPU ∧
          (iter.device 1).type = DeviceType.XPU) ∨
        ((iter.device 0).type = DeviceType.XPU ∧ iter.device 1 = cpu) ∨
        (iter.device 0 = cpu ∧ (iter.device 1).type = DeviceType.XPU) := by
      rcases hdst with h0 | h0 <;> rcases hsrc with h1 | h1
      · exact absurd ⟨h0, h1⟩ hnot
      · exact Or.inr (Or.inr ⟨h0, h1⟩)
      · exact Or.inr (Or.inl ⟨h0, h1⟩)
      · exact Or.inl ⟨h0, h1⟩
    have hhost : ∀ nb, (copy_host_device iter nb).err = none ∨
        ((iter.device 0).type = DeviceType.XPU ∧ (iter.device 1).type = DeviceType.XPU) := by
      intro nb
      rcases hcases with h | ⟨h0, h1⟩ | ⟨h0, h1⟩
      · exact Or.inr h
      · left
        cases nb <;> simp [copy_host_device, h0, h1, cpu, Device.is_cpu, Run.done]
      · left
        cases nb <;> simp [copy_host_device, h0, h1, cpu, Device.is_cpu, Run.done]
    have hvalue : ∃ staged : Bool, copy_requires_temporaries iter
        (maybe_enable_p2p_access (iter.device 0) (iter.device 1)) = .ok staged := by
      by_cases hdev : iter.device 0 = iter.device 1
      · have hx : (iter.device 0).type = DeviceType.XPU ∧
            (iter.device 1).type = DeviceType.XPU := by
          rcases hcases with h | ⟨h0, h1⟩ | ⟨h0, h1⟩
          · exact h
          · rw [hdev, h1] at h0; cases h0
          · rw [← hdev, h0] at h1; cases h1
        exact ⟨false, by simp [copy_requires_temporaries, hdev, hx.2]⟩
      · exact ⟨_, copy_requires_temporaries_of_ne iter _ hdev⟩
    obtain ⟨staged, hstaged⟩ := hvalue
    have hpath : copy_kernel_dpcpp env copy iter non_blocking =
          copy_via_temporaries env copy iter non_blocking ∨
        copy_kernel_dpcpp env copy iter non_blocking =
          copy_device_to_device env.dispatch iter non_blocking ∨
        (copy_kernel_dpcpp env copy iter non_blocking = copy_host_device iter non_blocking ∧
          (copy_host_device iter non_blocking).err = none) := by
      cases staged
      · rcases hhost non_blocking with h | h
        · by_cases hx : (iter.device 0).type = DeviceType.XPU ∧
              (iter.device 1).type = DeviceType.XPU
          · exact Or.inr (Or.inl (by simp [copy_kernel_dpcpp, hstaged, hx]))
          · exact Or.inr (Or.inr ⟨by simp [copy_kernel_dpcpp, hstaged, hx], h⟩)
        · exact Or.inr (Or.inl (by simp [copy_kernel_dpcpp, hstaged, h]))
      · exact Or.inl (by simp [copy_kernel_dpcpp, hstaged])
    refine ⟨⟨staged, hstaged⟩, hpath, ?_⟩
    intro line hfail
    rcases hpath with h | h | ⟨h, herr⟩
    · rw [h] at hfail
      exact copy_via_temporaries_ne_bare_failure env copy iter non_blocking _ hfail
    · rw [h] at hfail
      by_cases hn : iter.numel = 0
      · rw [copy_device_to_device_of_numel_zero env.dispatch iter non_blocking hn] at hfail
        cases hfail
      · rcases copy_device_to_device_cases env.dispatch iter non_blocking hn with
          ⟨_, hrun⟩ | ⟨_, _, hrun⟩ | ⟨_, _, hrun⟩
        · rw [hrun] at hfail; cases hfail
        · rw [hrun] at hfail; cases hfail
        · rw [hrun] at hfail
          simp [Run.fail, before_transfer] at hfail
    · rw [h] at hfail
      rw [hfail] at herr
      cases herr

/-- C14, at a concrete input: two dense float tensors on the host. -/
theorem C14_device_pairing_checks_witness :
    (sample_host_to_host.device 0 = cpu ∨
      (sample_host_to_host.device 0).type = DeviceType.XPU) ∧
    (sample_host_to_host.device 1 = cpu ∨
      (sample_host_to_host.device 1).type = DeviceType.XPU) ∧
    (sample_host_to_host.device 0 = cpu ∧ sample_host_to_host.device 1 = cpu) ∧
    copy_kernel_dpcpp aten (copy_at_depth aten 1) sample_host_to_host false =
      Run.fail [] (Err.internal_assert 47) :=
  ⟨by decide, by decide, by decide,
    ((C14_device_pairing_checks aten (copy_at_depth aten 1) sample_host_to_host false
      (by decide) (by decide)).1 (by decide)).2⟩

/-- The assertion of line 277 is reached when the two host operands carry CPU devices of
different index: the restriction of the host to the one device `cpu` matters. -/
theorem unsupported_devices_assert_for_distinct_host_indices :
    (sample_host_indices.device 0).type = DeviceType.CPU ∧
    (sample_host_indices.device 1).type = DeviceType.CPU ∧
    copy_kernel_dpcpp aten (copy_at_depth aten 1) sample_host_indices false =
      Run.fail [] (Err.internal_assert 277) := by
  refine ⟨by decide, by decide, by decide⟩

theorem early_exit_of_mem (geometry : List (Int × Int))
    (h : ∃ d ∈ geometry, d.1 = 0 ∨ d.2 = DNNL_RUNTIME_DIM_VAL) :
    early_exit (geometry.map Prod.fst) (geometry.map Prod.snd) = true := by
  induction geometry with
  | nil => simp at h
  | cons d rest ih =>
    obtain ⟨x, hx, hprop⟩ := h
    simp only [List.map_cons, early_exit]
    by_cases h0 : d.1 = 0
    · simp [h0]
    · by_cases h1 : d.2 = DNNL_RUNTIME_DIM_VAL
      · simp [h0, h1]
      · simp only [h0, h1, if_false]
        apply ih
        rcases List.mem_cons.mp hx with rfl | hx
        · rcases hprop with hp | hp
          · exact absurd hp h0
          · exact absurd hp h1
        · exact ⟨x, hx, hprop⟩

/-- C16. `onednn_strides_check` returns true for every view of rank 0, for every view with a
dimension of size zero, and for every view with a dimension whose stride is the
runtime-unknown value, whatever the other sizes and strides. -/
theorem C16_trivially_compatible (t : Tensor) :
    (t.dim = 0 → onednn_strides_check t = true) ∧
    ((∃ d ∈ t.geometry, d.1 = 0) → onednn_strides_check t = true) ∧
    ((∃ d ∈ t.geometry, d.2 = DNNL_RUNTIME_DIM_VAL) → onednn_strides_check t = true) := by
  have hearly : (∃ d ∈ t.geometry, d.1 = 0 ∨ d.2 = DNNL_RUNTIME_DIM_VAL) →
      onednn_strides_check t = true := by
    intro h
    have := early_exit_of_mem t.geometry h
    unfold onednn_strides_check
    simp only [get_onednn_dims, get_onednn_strides, Tensor.sizes, Tensor.strides]
    simp [this]
  refine ⟨?_, ?_, ?_⟩
  · intro h
    unfold onednn_strides_check
    simp only [get_onednn_dims]
    have : t.sizes.length = 0 := h
    simp [this]
  · rintro ⟨d, hd, h⟩
    exact hearly ⟨d, hd, Or.inl h⟩
  · rintro ⟨d, hd, h⟩
    exact hearly ⟨d, hd, Or.inr h⟩

/-- C16, at a concrete input: a 0×4 tensor. -/
theorem C16_trivially_compatible_witness :
    (∃ d ∈ (sample_empty 0).geometry, d.1 = 0) ∧ onednn_strides_check (sample_empty 0) = true :=
  ⟨⟨(0, 4), by decide, rfl⟩,
    (C16_trivially_compatible (sample_empty 0)).2.1 ⟨(0, 4), by decide, rfl⟩⟩

/-! ### The layout check against its specification -/

/-- The key of dimension `d`: its index with its size and stride. -/
theorem zip_range_eq_map (geometry : List (Int × Int)) :
    (List.range geometry.length).zip geometry =
      (List.range geometry.length).map
        (fun d => (d, ((geometry.map Prod.fst).getD d 0, (geometry.map Prod.snd).getD d 0))) := by
  apply List.ext_getElem
  · simp
  · intro i h1 h2
    have hi : i < geometry.length := by simpa using h1
    simp [List.getD_eq_getElem?_getD, List.getElem?_eq_getElem, hi]

theorem idx_sorter_iff_dim_before (strides padded_dims : List Int) (a b : Nat) :
    idx_sorter strides padded_dims a b = true ↔
      dim_before (a, (padded_dims.getD a 0, strides.getD a 0))
        (b, (padded_dims.getD b 0, strides.getD b 0)) := by
  unfold idx_sorter dim_before
  generalize strides.getD a 0 = sa
  generalize strides.getD b 0 = sb
  generalize padded_dims.getD a 0 = pa
  generalize padded_dims.getD b 0 = pb
  simp only
  by_cases hs : sa = sb
  · by_cases hp : pa = pb
    · subst hs hp
      simp
    · subst hs
      simp [hp]
  · simp only [hs, false_and, if_false, decide_eq_true_eq, or_false]

theorem to_int_to_int64_of_fits (x : Int) (h : -2 ^ 31 ≤ x ∧ x < 2 ^ 31) :
    to_int (to_int64 x) = x := by
  unfold to_int to_int64
  norm_num at h ⊢
  omega

theorem getD_replicate_one (n d : Nat) : (List.replicate n (1 : Int)).getD d 1 = 1 := by
  simp only [List.getD_eq_getElem?_getD, List.getElem?_replicate]
  split <;> rfl

theorem min_stride_check_eq_reference_walk (strides padded_dims : List Int) (n : Nat)
    (perm : List Nat)
    (hfit : ∀ d ∈ perm, -2 ^ 31 ≤ strides.getD d 0 * padded_dims.getD d 0 ∧
      strides.getD d 0 * padded_dims.getD d 0 < 2 ^ 31) :
    ∀ min_stride : Int,
      min_stride_check strides padded_dims (List.replicate n 1) 1 min_stride perm =
        reference_walk min_stride
          (perm.map (fun d => (d, (padded_dims.getD d 0, strides.getD d 0)))) := by
  induction perm with
  | nil => intro m; rfl
  | cons d rest ih =>
    intro m
    have hrest := ih (fun x hx => hfit x (List.mem_cons_of_mem _ hx))
    simp only [min_stride_check, List.map_cons, reference_walk]
    by_cases h0 : strides.getD d 0 = 0
    · simp only [h0, if_true]
      exact hrest m
    · simp only [h0, if_false]
      by_cases hlt : strides.getD d 0 < m
      · simp only [hlt, if_true]
      · simp only [hlt, if_false]
        rw [getD_replicate_one, Int.tdiv_one, one_mul,
          to_int_to_int64_of_fits _ (hfit d (List.mem_cons_self _ _))]
        exact hrest _

/-- For a view of rank at least 1 without empty dimension and without runtime stride, whose
products stride × size all fit the 32-bit `int` of `min_stride`, `onednn_strides_check` is the
check of the specification. -/
theorem onednn_strides_check_eq_reference_of_int_products (t : Tensor)
    (hrank : t.dim ≠ 0)
    (hplain : ∀ d ∈ t.geometry, d.1 ≠ 0 ∧ d.2 ≠ DNNL_RUNTIME_DIM_VAL)
    (hfit : ∀ d ∈ t.geometry, -2 ^ 31 ≤ d.2 * d.1 ∧ d.2 * d.1 < 2 ^ 31) :
    onednn_strides_check t = strides_check_reference t := by
  have hlen : t.geometry.length ≠ 0 := by
    simpa [Tensor.dim, Tensor.sizes] using hrank
  have hearly : early_exit (t.geometry.map Prod.fst) (t.geometry.map Prod.snd) = false := by
    have : ∀ geometry : List (Int × Int),
        (∀ d ∈ geometry, d.1 ≠ 0 ∧ d.2 ≠ DNNL_RUNTIME_DIM_VAL) →
        early_exit (geometry.map Prod.fst) (geometry.map Prod.snd) = false := by
      intro geometry
      induction geometry with
      | nil => intro _; rfl
      | cons d rest ih =>
        intro h
        simp only [List.map_cons, early_exit, (h d (List.mem_cons_self _ _)).1,
          (h d (List.mem_cons_self _ _)).2, if_false]
        exact ih (fun x hx => h x (List.mem_cons_of_mem _ hx))
    exact this t.geometry hplain
  have hfitD : ∀ d : Nat, -2 ^ 31 ≤ (t.geometry.map Prod.snd).getD d 0 *
        (t.geometry.map Prod.fst).getD d 0 ∧
      (t.geometry.map Prod.snd).getD d 0 * (t.geometry.map Prod.fst).getD d 0 < 2 ^ 31 := by
    intro d
    by_cases hd : d < t.geometry.length
    · have hmem : t.geometry[d] ∈ t.geometry := List.getElem_mem hd
      have := hfit _ hmem
      simpa [List.getD_eq_getElem?_getD, List.getElem?_eq_getElem, hd] using this
    · have hd' : t.geometry.length ≤ d := Nat.le_of_not_lt hd
      simp [List.getD_eq_getElem?_getD, List.getElem?_eq_none, hd']
  unfold onednn_strides_check strides_check_reference
  simp only [get_onednn_dims, get_onednn_strides, Tensor.sizes, Tensor.strides,
    List.length_map, List.isEmpty_eq_true, List.map_eq_nil_iff, beq_iff_eq, Bool.or_eq_true]
  have hne : t.geometry ≠ [] := fun h => hlen (by simp [h])
  simp only [hne, hlen, or_self, if_false, hearly, Bool.false_eq_true]
  rw [min_stride_check_eq_reference_walk _ _ _ _ (fun d _ => hfitD d), zip_range_eq_map,
    List.map_insertionSort (r := fun a b => idx_sorter (t.geometry.map Prod.snd)
      (t.geometry.map Prod.fst) a b = true) (s := dim_before)]
  intro a _ b _
  exact idx_sorter_iff_dim_before _ _ a b

/-- C17, at the failing input: for the byte view of sizes 2³¹×2 with strides (1, 5) (rank 2,
no empty dimension, no runtime stride) the check of the specification rejects the view, the
stride 5 of the second dimension being below the running minimum 2³¹ left by the first;
`onednn_strides_check` accepts it, because its `min_stride` is a 32-bit `int` and holds
-2³¹ after the first dimension. -/
theorem C17_check_differs_from_reference :
    sample_wide_rows.dim = 2 ∧
    (∀ d ∈ sample_wide_rows.geometry, d.1 ≠ 0 ∧ d.2 ≠ DNNL_RUNTIME_DIM_VAL) ∧
    strides_check_reference sample_wide_rows = false ∧
    onednn_strides_check sample_wide_rows = true ∧
    to_int (to_int64 (1 * 1 * (2147483648 : Int).tdiv 1)) = -2147483648 := by
  refine ⟨by decide, by decide, by decide, by decide, by decide⟩

/-! ### The temporaries of the staging branch -/

/-- The dtype conversion call of the staging branch for a destination on an XPU. -/
theorem staging_temporaries_conversions_of_xpu (env : Env) (iter : TensorIterator)
    (hdst : iter.device_type 0 = DeviceType.XPU) :
    (∀ ops e, staging_temporaries env iter = .error (ops, e) →
      ops.filterMap Op.conversion_device =
        (if iter.dtype 1 = iter.dtype 0 then [] else [iter.device 1])) ∧
    (∀ d t ops, staging_temporaries env iter = .ok (d, t, ops) →
      ops.filterMap Op.conversion_device =
        (if iter.dtype 1 = iter.dtype 0 then [] else [iter.device 1])) := by
  have hto : [Op.to_dtype (iter.tensor 1) (iter.dtype 0)
        (env.to_dtype (iter.tensor 1) (iter.dtype 0))].filterMap Op.conversion_device =
      (if iter.dtype 1 = iter.dtype 0 then [] else [iter.device 1]) := by
    by_cases h : iter.dtype 1 = iter.dtype 0
    · have h' : (iter.tensor 1).dtype = iter.dtype 0 := h
      simp [List.filterMap_cons, Op.conversion_device, h, h']
    · have h' : ¬ (iter.tensor 1).dtype = iter.dtype 0 := h
      simp [List.filterMap_cons, Op.conversion_device, h, h', TensorIterator.device]
  have hdstops : ∀ ops : List Op,
      ops = (if env.is_contiguous (iter.tensor 0) .Contiguous = true then []
        else [Op.empty_like (iter.tensor 0) (iter.tensor 0).dtype
          (env.empty_like (iter.tensor 0) (iter.tensor 0).dtype)]) →
      ops.filterMap Op.conversion_device = [] := by
    intro ops h
    subst h
    split <;> rfl
  constructor
  · intro ops e h
    unfold staging_temporaries at h
    simp only [hdst, if_true] at h
    split at h
    · split at h
      · injection h with h
        injection h with h1 _
        subst h1
        rw [List.filterMap_append, hdstops _ rfl, hto]
        rfl
      · cases h
    · cases h
  · intro d t ops h
    unfold staging_temporaries at h
    simp only [hdst, if_true] at h
    split at h
    · split at h
      · cases h
      · injection h with h
        injection h with _ h2
        injection h2 with _ h3
        subst h3
        rw [List.filterMap_append, List.filterMap_append, hdstops _ rfl, hto]
        simp [Op.conversion_device]
    · injection h with h
      injection h with _ h2
      injection h2 with _ h3
      subst h3
      rw [List.filterMap_append, List.filterMap_append, hdstops _ rfl, hto]
      simp [Op.conversion_device]

/-- The temporaries of the staging branch for a destination that is not on an XPU. -/
theorem staging_temporaries_of_not_xpu (env : Env) (iter : TensorIterator)
    (hdst : iter.device_type 0 ≠ DeviceType.XPU) :
    staging_temporaries env iter =
      .ok (if (env.is_contiguous (iter.tensor 0) .Contiguous &&
            decide (iter.dtype 0 = iter.dtype 1)) = true then iter.tensor 0
          else env.empty_like (iter.tensor 0) (iter.dtype 1),
        env.contiguous (env.expand_as (iter.tensor 1) (iter.tensor 0)),
        (if (env.is_contiguous (iter.tensor 0) .Contiguous &&
            decide (iter.dtype 0 = iter.dtype 1)) = true then []
          else [Op.empty_like (iter.tensor 0) (iter.dtype 1)
            (env.empty_like (iter.tensor 0) (iter.dtype 1))]) ++
        [Op.expand_as (iter.tensor 1) (iter.tensor 0)
            (env.expand_as (iter.tensor 1) (iter.tensor 0)),
          Op.contiguous (env.expand_as (iter.tensor 1) (iter.tensor 0))
            (env.contiguous (env.expand_as (iter.tensor 1) (iter.tensor 0)))]) := by
  unfold staging_temporaries
  simp only [hdst, if_false]

/-- A copy issued by the staging branch between two operands off the XPU is served by the
tensor library. -/
theorem copy_at_depth_of_not_xpu (env : Env) (depth : Nat) (self src : Tensor)
    (non_blocking : Bool) (hself : self.device.type ≠ DeviceType.XPU)
    (hsrc : src.device.type ≠ DeviceType.XPU) :
    copy_at_depth env (depth + 1) self src non_blocking =
      (self, Run.done [Op.native_copy self src]) := by
  simp [copy_at_depth, hself, hsrc]

/-- C18, refuted as stated. A float destination on XPU 0 with a double source on the host is
staged, and the one conversion of the run is the `to(dtype)` of the source, on the host: the
device of the source, not of the destination. A float destination on the host with a double
source on XPU 0 is staged, and the one conversion of the run is the copy-back into the
destination, on the host: the device of the destination, not of the source. -/
theorem C18_counterexample :
    sample_host_double_to_device.device 0 = xpu 0 ∧
    sample_host_double_to_device.device 1 = cpu ∧
    copy_requires_temporaries sample_host_double_to_device
      (maybe_enable_p2p_access (sample_host_double_to_device.device 0)
        (sample_host_double_to_device.device 1)) = .ok true ∧
    (copy_kernel_dpcpp aten (copy_at_depth aten 1) sample_host_double_to_device false).err
      = none ∧
    (copy_kernel_dpcpp aten (copy_at_depth aten 1) sample_host_double_to_device
      false).ops.filterMap Op.conversion_device = [cpu] ∧
    sample_device_double_to_host.device 0 = cpu ∧
    sample_device_double_to_host.device 1 = xpu 0 ∧
    copy_requires_temporaries sample_device_double_to_host
      (maybe_enable_p2p_access (sample_device_double_to_host.device 0)
        (sample_device_double_to_host.device 1)) = .ok true ∧
    (copy_kernel_dpcpp aten (copy_at_depth aten 1) sample_device_double_to_host false).err
      = none ∧
    (copy_kernel_dpcpp aten (copy_at_depth aten 1) sample_device_double_to_host
      false).ops.filterMap Op.conversion_device = [cpu] ∧
    (copy_kernel_dpcpp aten (copy_at_depth aten 1) sample_device_double_to_host
      false).ops.getLast? =
      some (Op.native_copy sample_device_double_to_host.dst
        (aten.empty_like sample_device_double_to_host.dst .kDouble)) := by
  refine ⟨by decide, by decide, by rfl, by decide, by decide, by decide, by decide, by rfl,
    by decide, by decide, by decide⟩

/-- C18, amended. In the staging branch, when the destination is on an XPU the source is
converted to the dtype of the destination by `to(dtype)` called on the source tensor, hence
on the device of the source, and no other call that materialises the temporaries converts;
when the destination is not on an XPU no call that materialises the temporaries converts: the
source is expanded and made dense in its own dtype, the destination temporary is the
destination itself or a new tensor of the dtype of the source, and the conversion is left to
the copy-back into the destination, which the tensor library performs on the device of the
destination. -/
theorem C18_conversion_site (env : Env) (iter : TensorIterator) (non_blocking : Bool) :
    (iter.device_type 0 = DeviceType.XPU →
      (∀ ops e, staging_temporaries env iter = .error (ops, e) →
        ops.filterMap Op.conversion_device =
          (if iter.dtype 1 = iter.dtype 0 then [] else [iter.device 1])) ∧
      (∀ d t ops, staging_temporaries env iter = .ok (d, t, ops) →
        ops.filterMap Op.conversion_device =
          (if iter.dtype 1 = iter.dtype 0 then [] else [iter.device 1]))) ∧
    (iter.device_type 0 ≠ DeviceType.XPU →
      ∃ ops : List Op,
        staging_temporaries env iter =
          .ok (if (env.is_contiguous (iter.tensor 0) .Contiguous &&
                decide (iter.dtype 0 = iter.dtype 1)) = true then iter.tensor 0
              else env.empty_like (iter.tensor 0) (iter.dtype 1),
            env.contiguous (env.expand_as (iter.tensor 1) (iter.tensor 0)), ops) ∧
        ops.filterMap Op.conversion_device = [] ∧
        (∀ (depth : Nat) (dst_contig : Tensor),
          dst_contig.device = (iter.tensor 0).device →
            copy_at_depth env (depth + 1) (iter.tensor 0) dst_contig non_blocking =
              (iter.tensor 0, Run.done [Op.native_copy (iter.tensor 0) dst_contig]) ∧
            (Op.native_copy (iter.tensor 0) dst_contig).conversion_device =
              (if (iter.tensor 0).dtype = dst_contig.dtype then none
                else some (iter.device 0)))) := by
  constructor
  · exact staging_temporaries_conversions_of_xpu env iter
  · intro hdst
    refine ⟨_, staging_temporaries_of_not_xpu env iter hdst, ?_, ?_⟩
    · rw [List.filterMap_append]
      have : (if (env.is_contiguous (iter.tensor 0) .Contiguous &&
            decide (iter.dtype 0 = iter.dtype 1)) = true then ([] : List Op)
          else [Op.empty_like (iter.tensor 0) (iter.dtype 1)
            (env.empty_like (iter.tensor 0) (iter.dtype 1))]).filterMap
            Op.conversion_device = [] := by
        split <;> rfl
      rw [this]
      rfl
    · intro depth dst_contig hdev
      have h0 : (iter.tensor 0).device.type ≠ DeviceType.XPU := hdst
      refine ⟨copy_at_depth_of_not_xpu env depth _ _ non_blocking h0 (by rw [hdev]; exact h0),
        rfl⟩

/-- C18 amended, at a concrete input: a float destination on XPU 0 and a double source on the
host; the conversion is made on the host. -/
theorem C18_conversion_site_witness :
    sample_host_double_to_device.device_type 0 = DeviceType.XPU ∧
    (∀ d t ops, staging_temporaries aten sample_host_double_to_device = .ok (d, t, ops) →
      ops.filterMap Op.conversion_device =
        (if sample_host_double_to_device.dtype 1 = sample_host_double_to_device.dtype 0
          then [] else [sample_host_double_to_device.device 1])) :=
  ⟨by decide, ((C18_conversion_site aten sample_host_double_to_device false).1 (by decide)).2⟩

/-- The temporaries of the staging branch for a destination on an XPU: the destination
temporary is the destination when it is contiguous, and the tensor of `empty_like`
otherwise. -/
theorem staging_temporaries_dst_of_xpu (env : Env) (iter : TensorIterator)
    (hdst : iter.device_type 0 = DeviceType.XPU) (d t : Tensor) (ops : List Op)
    (h : staging_temporaries env iter = .ok (d, t, ops)) :
    d = (if env.is_contiguous (iter.tensor 0) .Contiguous = true then iter.tensor 0
      else env.empty_like (iter.tensor 0) (iter.tensor 0).dtype) := by
  unfold staging_temporaries at h
  simp only [hdst, if_true] at h
  split at h
  · split at h
    · cases h
    · injection h with h
      injection h with h1 _
      exact h1.symm
  · injection h with h
    injection h with h1 _
    exact h1.symm

/-- C19, refuted as stated: a float destination on the host with a double source on XPU 0
enters the staging branch, and the destination temporary is a new tensor of dtype double, the
dtype of the source, not the dtype float of the destination. A float destination on XPU 0
with a double source on the host enters the staging branch, and the destination temporary is
the destination itself although the dtypes of the operands differ. -/
theorem C19_counterexample :
    copy_requires_temporaries sample_device_double_to_host
      (maybe_enable_p2p_access (sample_device_double_to_host.device 0)
        (sample_device_double_to_host.device 1)) = .ok true ∧
    (sample_device_double_to_host.tensor 0).dtype = ScalarType.kFloat ∧
    (∃ src_contig ops,
      staging_temporaries aten sample_device_double_to_host =
        .ok (aten.empty_like (sample_device_double_to_host.tensor 0) .kDouble,
          src_contig, ops)) ∧
    (aten.empty_like (sample_device_double_to_host.tensor 0) .kDouble).dtype =
      ScalarType.kDouble ∧
    copy_requires_temporaries sample_host_double_to_device
      (maybe_enable_p2p_access (sample_host_double_to_device.device 0)
        (sample_host_double_to_device.device 1)) = .ok true ∧
    sample_host_double_to_device.dtype 0 ≠ sample_host_double_to_device.dtype 1 ∧
    (∃ src_contig ops,
      staging_temporaries aten sample_host_double_to_device =
        .ok (sample_host_double_to_device.tensor 0, src_contig, ops)) := by
  refine ⟨by rfl, by decide, ⟨_, _, by rfl⟩, by decide, by rfl, by decide, ⟨_, _, by rfl⟩⟩

/-- C19, amended. In the staging branch the destination temporary is densely packed. When
the destination is on an XPU it has the dtype of the destination; it is the destination
itself exactly when the destination is already contiguous, whatever the dtype of the source,
and the new tensor of `empty_like` otherwise. When the destination is not on an XPU it has
the dtype of the source; it is the destination itself exactly when the destination is
contiguous and the dtypes of the operands are equal, and otherwise the new tensor of
`empty_like` with the dtype of the source. The tensor of `empty_like` is taken to be dense, of
the dtype asked for, and distinct from the destination. -/
theorem C19_destination_temporary (env : Env) (iter : TensorIterator)
    (dst_contig src_contig : Tensor) (ops : List Op)
    (hstage : staging_temporaries env iter = .ok (dst_contig, src_contig, ops))
    (hdense : ∀ dtype, env.is_contiguous (env.empty_like (iter.tensor 0) dtype) .Contiguous
      = true)
    (hdtype : ∀ dtype, (env.empty_like (iter.tensor 0) dtype).dtype = dtype)
    (hfresh : ∀ dtype, (env.empty_like (iter.tensor 0) dtype).is_same (iter.tensor 0)
      = false) :
    env.is_contiguous dst_contig .Contiguous = true ∧
    (iter.device_type 0 = DeviceType.XPU →
      dst_contig.dtype = iter.dtype 0 ∧
      (dst_contig.is_same (iter.tensor 0) = true ↔
        env.is_contiguous (iter.tensor 0) .Contiguous = true) ∧
      (env.is_contiguous (iter.tensor 0) .Contiguous = true →
        dst_contig = iter.tensor 0 ∧
        ∀ like dtype result, Op.empty_like like dtype result ∉ ops) ∧
      (env.is_contiguous (iter.tensor 0) .Contiguous = false →
        dst_contig = env.empty_like (iter.tensor 0) (iter.dtype 0) ∧
        Op.empty_like (iter.tensor 0) (iter.dtype 0) dst_contig ∈ ops)) ∧
    (iter.device_type 0 ≠ DeviceType.XPU →
      dst_contig.dtype = iter.dtype 1 ∧
      (dst_contig.is_same (iter.tensor 0) = true ↔
        (env.is_contiguous (iter.tensor 0) .Contiguous = true ∧
          iter.dtype 0 = iter.dtype 1)) ∧
      ((env.is_contiguous (iter.tensor 0) .Contiguous = true ∧ iter.dtype 0 = iter.dtype 1) →
        dst_contig = iter.tensor 0 ∧
        ∀ like dtype result, Op.empty_like like dtype result ∉ ops) ∧
      (¬ (env.is_contiguous (iter.tensor 0) .Contiguous = true ∧
          iter.dtype 0 = iter.dtype 1) →
        dst_contig = env.empty_like (iter.tensor 0) (iter.dtype 1) ∧
        Op.empty_like (iter.tensor 0) (iter.dtype 1) dst_contig ∈ ops)) := by
  have hsame : (iter.tensor 0).is_same (iter.tensor 0) = true := by simp [Tensor.is_same]
  by_cases hdst : iter.device_type 0 = DeviceType.XPU
  · -- destination on an XPU
    have hd := staging_temporaries_dst_of_xpu env iter hdst _ _ _ hstage
    have hops : ∃ rest : List Op, (∀ op ∈ rest, ∀ like dtype result,
          op ≠ Op.empty_like like dtype result) ∧
        ops = (if env.is_contiguous (iter.tensor 0) .Contiguous = true then []
          else [Op.empty_like (iter.tensor 0) (iter.tensor 0).dtype
            (env.empty_like (iter.tensor 0) (iter.tensor 0).dtype)]) ++ rest := by
      unfold staging_temporaries at hstage
      simp only [hdst, if_true] at hstage
      split at hstage
      · split at hstage
        · cases hstage
        · injection hstage with hstage
          injection hstage with _ h2
          injection h2 with _ h3
          subst h3
          refine ⟨_, ?_, by rw [List.append_assoc]⟩
          intro op hop like dtype result heq
          subst heq
          simp at hop
      · injection hstage with hstage
        injection hstage with _ h2
        injection h2 with _ h3
        subst h3
        refine ⟨_, ?_, by rw [List.append_assoc]⟩
        intro op hop like dtype result heq
        subst heq
        simp at hop
    obtain ⟨rest, hrest, hopsEq⟩ := hops
    by_cases hc : env.is_contiguous (iter.tensor 0) .Contiguous = true
    · simp only [hc, if_true] at hd hopsEq
      subst hd
      refine ⟨hc, fun _ => ⟨rfl, ?_, ?_, ?_⟩, fun h => absurd hdst h⟩
      · simp [hsame, hc]
      · intro _
        refine ⟨rfl, ?_⟩
        intro like dtype result hmem
        rw [hopsEq] at hmem
        simp only [List.nil_append] at hmem
        exact hrest _ hmem like dtype result rfl
      · intro hne
        rw [hc] at hne
        cases hne
    · simp only [hc, if_false] at hd hopsEq
      have hc' : env.is_contiguous (iter.tensor 0) .Contiguous = false := by
        simpa using hc
      subst hd
      refine ⟨hdense _, fun _ => ⟨hdtype _, ?_, ?_, ?_⟩, fun h => absurd hdst h⟩
      · simp [hfresh, hc']
      · intro h
        rw [hc'] at h
        cases h
      · intro _
        refine ⟨rfl, ?_⟩
        rw [hopsEq]
        exact List.mem_append_left _ (List.mem_singleton.mpr rfl)
  · -- destination off the XPU
    have hst := staging_temporaries_of_not_xpu env iter hdst
    rw [hst] at hstage
    injection hstage with hstage
    injection hstage with h1 h2
    injection h2 with _ h3
    by_cases hc : env.is_contiguous (iter.tensor 0) .Contiguous = true ∧
        iter.dtype 0 = iter.dtype 1
    · have hb : (env.is_contiguous (iter.tensor 0) .Contiguous &&
          decide (iter.dtype 0 = iter.dtype 1)) = true := by simp [hc.1, hc.2]
      simp only [hb, if_true, List.nil_append] at h1 h3
      subst h1
      refine ⟨hc.1, fun h => absurd h hdst, fun _ => ⟨hc.2, ?_, ?_, ?_⟩⟩
      · simp [hsame, hc.1, hc.2]
      · intro _
        refine ⟨rfl, ?_⟩
        intro like dtype result hmem
        rw [← h3] at hmem
        simp at hmem
      · intro hne
        exact absurd hc hne
    · have hb : (env.is_contiguous (iter.tensor 0) .Contiguous &&
          decide (iter.dtype 0 = iter.dtype 1)) = false := by
        cases hv : (env.is_contiguous (iter.tensor 0) .Contiguous &&
          decide (iter.dtype 0 = iter.dtype 1))
        · rfl
        · simp only [Bool.and_eq_true, decide_eq_true_eq] at hv
          exact absurd hv hc
      simp only [hb, Bool.false_eq_true, if_false] at h1 h3
      subst h1
      refine ⟨hdense _, fun h => absurd h hdst, fun _ => ⟨hdtype _, ?_, ?_, ?_⟩⟩
      · rw [hfresh]
        constructor
        · intro h; cases h
        · intro h; exact absurd h hc
      · intro h
        exact absurd h hc
      · intro _
        refine ⟨rfl, ?_⟩
        rw [← h3]
        simp

/-- C19 amended, at a concrete input: a float destination on the host with a double source
on XPU 0; the destination temporary is a new dense tensor of dtype double. -/
theorem C19_destination_temporary_witness :
    staging_temporaries aten sample_device_double_to_host =
      .ok (aten.empty_like (sample_device_double_to_host.tensor 0) .kDouble,
        aten.contiguous (aten.expand_as (sample_device_double_to_host.tensor 1)
          (sample_device_double_to_host.tensor 0)),
        [Op.empty_like (sample_device_double_to_host.tensor 0) .kDouble
            (aten.empty_like (sample_device_double_to_host.tensor 0) .kDouble),
          Op.expand_as (sample_device_double_to_host.tensor 1)
            (sample_device_double_to_host.tensor 0)
            (aten.expand_as (sample_device_double_to_host.tensor 1)
              (sample_device_double_to_host.tensor 0)),
          Op.contiguous
            (aten.expand_as (sample_device_double_to_host.tensor 1)
              (sample_device_double_to_host.tensor 0))
            (aten.contiguous (aten.expand_as (sample_device_double_to_host.tensor 1)
              (sample_device_double_to_host.tensor 0)))]) ∧
    (∀ dtype, aten.is_contiguous
      (aten.empty_like (sample_device_double_to_host.tensor 0) dtype) .Contiguous = true) ∧
    (∀ dtype, (aten.empty_like (sample_device_double_to_host.tensor 0) dtype).dtype = dtype) ∧
    (∀ dtype, (aten.empty_like (sample_device_double_to_host.tensor 0) dtype).is_same
      (sample_device_double_to_host.tensor 0) = false) ∧
    aten.is_contiguous (aten.empty_like (sample_device_double_to_host.tensor 0) .kDouble)
      .Contiguous = true :=
  ⟨by rfl, fun _ => by rfl, fun _ => by rfl, fun _ => by rfl,
    (C19_destination_temporary aten sample_device_double_to_host _ _ _ (by rfl)
      (fun _ => by rfl) (fun _ => by rfl) (fun _ => by rfl)).1⟩

/-! ### Depth of the staging recursion -/

theorem device_ne_of_requires_temporaries (iter : TensorIterator) (p2p_enabled : Bool)
    (h : copy_requires_temporaries iter p2p_enabled = .ok true) :
    iter.device 0 ≠ iter.device 1 := by
  intro heq
  unfold copy_requires_temporaries at h
  simp only [heq, if_true] at h
  split at h <;> cases h

/-- A direct copy does not call back: when the descriptor `copy_` builds needs no temporaries,
the run of `copy_` is the same for every `Tensor::copy_` it is given. -/
theorem copy_body_direct (env : Env) (c1 c2 : Tensor → Tensor → Bool → Tensor × Run)
    (self src : Tensor) (non_blocking : Bool)
    (h : copy_requires_temporaries (BUILD_TENSOR_ITER env (rebind_quantized env self src).1 src)
      (maybe_enable_p2p_access
        ((BUILD_TENSOR_ITER env (rebind_quantized env self src).1 src).device 0)
        ((BUILD_TENSOR_ITER env (rebind_quantized env self src).1 src).device 1)) =
      .ok false) :
    copy_body env c1 self src non_blocking = copy_body env c2 self src non_blocking := by
  have hk : ∀ c, copy_kernel_dpcpp env c
      (BUILD_TENSOR_ITER env (rebind_quantized env self src).1 src) non_blocking =
      (if ((BUILD_TENSOR_ITER env (rebind_quantized env self src).1 src).device 0).type =
            DeviceType.XPU ∧
          ((BUILD_TENSOR_ITER env (rebind_quantized env self src).1 src).device 1).type =
            DeviceType.XPU then
        copy_device_to_device env.dispatch
          (BUILD_TENSOR_ITER env (rebind_quantized env self src).1 src) non_blocking
      else copy_host_device (BUILD_TENSOR_ITER env (rebind_quantized env self src).1 src)
        non_blocking) := by
    intro c
    simp only [copy_kernel_dpcpp, h]
  unfold copy_body
  simp only [hk]

/-- C20, refuted as stated: a strided float destination on the host with a dense float source
on XPU 0 enters the staging branch; the copy-back pairs the destination with a destination
temporary on the host, and `copy_requires_temporaries` does not return false on that pair:
both operands being on the host, its assertion fails. The copy-back the branch issues is
served by the tensor library and does not enter the engine. -/
theorem C20_counterexample :
    copy_requires_temporaries sample_device_to_strided_host
      (maybe_enable_p2p_access (sample_device_to_strided_host.device 0)
        (sample_device_to_strided_host.device 1)) = .ok true ∧
    (∃ src_contig ops,
      staging_temporaries aten sample_device_to_strided_host =
        .ok (aten.empty_like sample_device_to_strided_host.dst .kFloat, src_contig, ops)) ∧
    (aten.empty_like sample_device_to_strided_host.dst .kFloat).device =
      sample_device_to_strided_host.dst.device ∧
    (∀ p2p_enabled,
      copy_requires_temporaries
        (BUILD_TENSOR_ITER aten sample_device_to_strided_host.dst
          (aten.empty_like sample_device_to_strided_host.dst .kFloat)) p2p_enabled =
        .error (Err.internal_assert 47)) ∧
    (copy_via_temporaries aten (copy_at_depth aten 1) sample_device_to_strided_host
      false).ops.getLast? =
      some (Op.native_copy sample_device_to_strided_host.dst
        (aten.empty_like sample_device_to_strided_host.dst .kFloat)) ∧
    (copy_via_temporaries aten (copy_at_depth aten 1) sample_device_to_strided_host
      false).err = none := by
  refine ⟨by rfl, ⟨_, _, by rfl⟩, by decide, fun p => by cases p <;> rfl, by decide,
    by decide⟩

/-- C20, amended. For a descriptor that enters the staging branch, with temporaries that pass
the dtype assertion and live on the devices of their originals, and with an iterator over the
two dense temporaries that is contiguous: the copy between the temporaries needs no
temporaries (`copy_requires_temporaries` returns false) and does not call back; the copy-back
into a destination on an XPU is a same-device copy, for which `copy_requires_temporaries`
returns false, and does not call back; the copy-back into a destination off the XPU is served
by the tensor library without entering the engine. Hence the staging branch is not
re-entered: its run is the same at every depth of at least one call back. -/
theorem C20_staging_recursion_depth (env : Env) (iter : TensorIterator) (non_blocking : Bool)
    (dst_contig src_contig : Tensor) (ops : List Op)
    (henter : copy_requires_temporaries iter
      (maybe_enable_p2p_access (iter.device 0) (iter.device 1)) = .ok true)
    (hstage : staging_temporaries env iter = .ok (dst_contig, src_contig, ops))
    (hdtype : dst_contig.dtype = src_contig.dtype)
    (hdst : dst_contig.device = iter.device 0)
    (hsrc : src_contig.device = iter.device 1)
    (hrebind : ∀ a b : Tensor, (rebind_quantized env a b).1.device = a.device ∧
      (rebind_quantized env a b).1.dtype = a.dtype)
    (hcontig : env.iter_is_contiguous (rebind_quantized env dst_contig src_contig).1
      src_contig = true) :
    (∀ p2p_enabled,
      copy_requires_temporaries
        (BUILD_TENSOR_ITER env (rebind_quantized env dst_contig src_contig).1 src_contig)
        p2p_enabled = .ok false) ∧
    (∀ c1 c2 : Tensor → Tensor → Bool → Tensor × Run,
      copy_body env c1 dst_contig src_contig non_blocking =
        copy_body env c2 dst_contig src_contig non_blocking) ∧
    (∀ filled : Tensor, filled.device = iter.device 0 →
      (iter.device 0).type = DeviceType.XPU →
        (∀ p2p_enabled,
          copy_requires_temporaries
            (BUILD_TENSOR_ITER env (rebind_quantized env (iter.tensor 0) filled).1 filled)
            p2p_enabled = .ok false) ∧
        (∀ c1 c2 : Tensor → Tensor → Bool → Tensor × Run,
          copy_body env c1 (iter.tensor 0) filled non_blocking =
            copy_body env c2 (iter.tensor 0) filled non_blocking)) ∧
    (∀ (filled : Tensor) (depth : Nat), filled.device = iter.device 0 →
      (iter.device 0).type ≠ DeviceType.XPU →
        copy_at_depth env (depth + 1) (iter.tensor 0) filled non_blocking =
          (iter.tensor 0, Run.done [Op.native_copy (iter.tensor 0) filled])) ∧
    (∀ depth : Nat,
      copy_via_temporaries env (copy_at_depth env (depth + 1)) iter non_blocking =
        copy_via_temporaries env (copy_at_depth env 1) iter non_blocking) := by
  have hne : iter.device 0 ≠ iter.device 1 := device_ne_of_requires_temporaries iter _ henter
  -- the copy between the temporaries
  have hnested : ∀ p2p_enabled,
      copy_requires_temporaries
        (BUILD_TENSOR_ITER env (rebind_quantized env dst_contig src_contig).1 src_contig)
        p2p_enabled = .ok false := by
    intro p
    have hd : (BUILD_TENSOR_ITER env (rebind_quantized env dst_contig src_contig).1
        src_contig).device 0 ≠
        (BUILD_TENSOR_ITER env (rebind_quantized env dst_contig src_contig).1
          src_contig).device 1 := by
      show (rebind_quantized env dst_contig src_contig).1.device ≠ src_contig.device
      rw [(hrebind dst_contig src_contig).1, hdst, hsrc]
      exact hne
    rw [copy_requires_temporaries_of_ne _ _ hd]
    have hty : (BUILD_TENSOR_ITER env (rebind_quantized env dst_contig src_contig).1
        src_contig).dtype 0 =
        (BUILD_TENSOR_ITER env (rebind_quantized env dst_contig src_contig).1
          src_contig).dtype 1 := by
      show (rebind_quantized env dst_contig src_contig).1.dtype = src_contig.dtype
      rw [(hrebind dst_contig src_contig).2, hdtype]
    have hct : (BUILD_TENSOR_ITER env (rebind_quantized env dst_contig src_contig).1
        src_contig).is_contiguous = true := hcontig
    simp [hty, hct]
  have hnested_direct : ∀ c1 c2 : Tensor → Tensor → Bool → Tensor × Run,
      copy_body env c1 dst_contig src_contig non_blocking =
        copy_body env c2 dst_contig src_contig non_blocking :=
    fun c1 c2 => copy_body_direct env c1 c2 _ _ _ (hnested _)
  -- the copy-back into a destination on an XPU
  have hback : ∀ filled : Tensor, filled.device = iter.device 0 →
      (iter.device 0).type = DeviceType.XPU →
        ∀ p2p_enabled,
          copy_requires_temporaries
            (BUILD_TENSOR_ITER env (rebind_quantized env (iter.tensor 0) filled).1 filled)
            p2p_enabled = .ok false := by
    intro filled hf hx p
    have hd : (BUILD_TENSOR_ITER env (rebind_quantized env (iter.tensor 0) filled).1
        filled).device 0 =
        (BUILD_TENSOR_ITER env (rebind_quantized env (iter.tensor 0) filled).1
          filled).device 1 := by
      show (rebind_quantized env (iter.tensor 0) filled).1.device = filled.device
      rw [(hrebind (iter.tensor 0) filled).1, hf]
      rfl
    have hx1 : ((BUILD_TENSOR_ITER env (rebind_quantized env (iter.tensor 0) filled).1
        filled).device 1).type = DeviceType.XPU := by
      show filled.device.type = DeviceType.XPU
      rw [hf]
      exact hx
    simp [copy_requires_temporaries, hd, hx1]
  have hback_direct : ∀ filled : Tensor, filled.device = iter.device 0 →
      (iter.device 0).type = DeviceType.XPU →
        ∀ c1 c2 : Tensor → Tensor → Bool → Tensor × Run,
          copy_body env c1 (iter.tensor 0) filled non_blocking =
            copy_body env c2 (iter.tensor 0) filled non_blocking :=
    fun filled hf hx c1 c2 => copy_body_direct env c1 c2 _ _ _ (hback filled hf hx _)
  have hnative : ∀ (filled : Tensor) (depth : Nat), filled.device = iter.device 0 →
      (iter.device 0).type ≠ DeviceType.XPU →
        copy_at_depth env (depth + 1) (iter.tensor 0) filled non_blocking =
          (iter.tensor 0, Run.done [Op.native_copy (iter.tensor 0) filled]) := by
    intro filled depth hf hx
    exact copy_at_depth_of_not_xpu env depth _ _ non_blocking hx (by rw [hf]; exact hx)
  refine ⟨hnested, hnested_direct, fun filled hf hx => ⟨hback filled hf hx,
    hback_direct filled hf hx⟩, hnative, ?_⟩
  -- the run is the same at every depth
  intro depth
  have hfirst : copy_at_depth env (depth + 1) dst_contig src_contig non_blocking =
      copy_at_depth env 1 dst_contig src_contig non_blocking := by
    simp only [copy_at_depth]
    split
    · exact hnested_direct _ _
    · rfl
  have hsecond : ∀ filled : Tensor, filled.device = (iter.tensor 0).device →
      copy_at_depth env (depth + 1) (iter.tensor 0) filled non_blocking =
        copy_at_depth env 1 (iter.tensor 0) filled non_blocking := by
    intro filled hf
    by_cases hx : (iter.device 0).type = DeviceType.XPU
    · have hx' : (iter.tensor 0).device.type = DeviceType.XPU := hx
      simp only [copy_at_depth, hx', true_or, if_true]
      exact hback_direct filled hf hx _ _
    · rw [hnative filled depth hf hx, hnative filled 0 hf hx]
  unfold copy_via_temporaries
  simp only [hstage, hfirst]
  split
  · rfl
  · split
    · rfl
    · congr 1
      split
      · split
        · rename_i hdev
          rw [hsecond _ hdev]
        · rfl
      · rfl

/-- The reference collaborators rebind a quantized destination to a tensor on the same device
and of the same dtype. -/
theorem aten_rebind_quantized_keeps (a b : Tensor) :
    (rebind_quantized aten a b).1.device = a.device ∧
    (rebind_quantized aten a b).1.dtype = a.dtype := by
  unfold rebind_quantized
  split <;> exact ⟨rfl, rfl⟩

/-- C20 amended, at a concrete input: a strided float destination on XPU 0 with a dense float
source on the host; the run of the staging branch is the same at every depth. -/
theorem C20_staging_recursion_depth_witness :
    copy_requires_temporaries sample_host_to_strided
      (maybe_enable_p2p_access (sample_host_to_strided.device 0)
        (sample_host_to_strided.device 1)) = .ok true ∧
    (∀ depth : Nat,
      copy_via_temporaries aten (copy_at_depth aten (depth + 1)) sample_host_to_strided false =
        copy_via_temporaries aten (copy_at_depth aten 1) sample_host_to_strided false) :=
  ⟨by rfl,
    (C20_staging_recursion_depth aten sample_host_to_strided false
      (aten.empty_like sample_host_to_strided.dst .kFloat)
      (aten.contiguous (aten.expand_as (aten.to_dtype sample_host_to_strided.src .kFloat)
        sample_host_to_strided.dst))
      _ (by rfl) (by rfl) (by decide) (by decide) (by decide) aten_rebind_quantized_keeps
      (by decide)).2.2.2.2⟩

/-! ### Values written by an elementwise pass -/

theorem foldl_write_other (ptr : Nat) (off : List Int → Int) (g : List Int → Value) :
    ∀ (indices : List (List Int)) (memory : Memory) (p : Nat) (o : Int),
      (p ≠ ptr ∨ ∀ x ∈ indices, off x ≠ o) →
      (indices.foldl (fun m x => Memory.write m ptr (off x) (g x)) memory) p o = memory p o := by
  intro indices
  induction indices with
  | nil => intro memory p o _; rfl
  | cons y rest ih =>
    intro memory p o h
    rw [List.foldl_cons, ih]
    · unfold Memory.write
      have : ¬ (p = ptr ∧ o = off y) := by
        rintro ⟨hp, ho⟩
        rcases h with h | h
        · exact h hp
        · exact h y (List.mem_cons_self _ _) ho.symm
      simp only [this, if_false]
    · rcases h with h | h
      · exact Or.inl h
      · exact Or.inr (fun x hx => h x (List.mem_cons_of_mem _ hx))

theorem foldl_write_const (ptr : Nat) (off : List Int → Int) (g : List Int → Value) :
    ∀ (indices : List (List Int)) (memory : Memory) (o : Int) (v : Value),
      (∀ z ∈ indices, off z = o → g z = v) → memory ptr o = v →
      (indices.foldl (fun m x => Memory.write m ptr (off x) (g x)) memory) ptr o = v := by
  intro indices
  induction indices with
  | nil => intro memory o v _ h; exact h
  | cons y rest ih =>
    intro memory o v hall h
    rw [List.foldl_cons]
    apply ih
    · exact fun z hz => hall z (List.mem_cons_of_mem _ hz)
    · unfold Memory.write
      by_cases hy : o = off y
      · simp only [hy, and_self, if_true]
        exact hall y (List.mem_cons_self _ _) hy.symm
      · simp only [hy, and_false, if_false]
        exact h

theorem foldl_write_mem (ptr : Nat) (off : List Int → Int) (g : List Int → Value) :
    ∀ (indices : List (List Int)) (memory : Memory) (x : List Int), x ∈ indices →
      (∀ z ∈ indices, off z = off x → g z = g x) →
      (indices.foldl (fun m z => Memory.write m ptr (off z) (g z)) memory) ptr (off x) = g x := by
  intro indices
  induction indices with
  | nil => intro memory x hx; simp at hx
  | cons y rest ih =>
    intro memory x hx hall
    rw [List.foldl_cons]
    rcases List.mem_cons.mp hx with rfl | hx
    · apply foldl_write_const
      · exact fun z hz => hall z (List.mem_cons_of_mem _ hz)
      · simp [Memory.write]
    · exact ih _ x hx (fun z hz => hall z (List.mem_cons_of_mem _ hz))

/-- After an elementwise pass, an element of the destination whose offset no other element of
the destination shares holds `f` of the element of the source at the same index. -/
theorem elementwise_read (f : Transform) (dst src : Tensor) (memory : Memory)
    (index : List Int) (hmem : index ∈ all_indices dst.sizes)
    (hinj : ∀ other ∈ all_indices dst.sizes, dst.offset other = dst.offset index →
      other = index) :
    dst.read (elementwise f dst src memory) index = f.apply (src.read memory index) := by
  unfold Tensor.read elementwise
  exact foldl_write_mem dst.data_ptr dst.offset (fun z => f.apply (src.read memory z))
    (all_indices dst.sizes) memory index hmem
    (fun z hz hoff => by rw [hinj z hz hoff])

/-- An elementwise pass writes only the buffer of its destination. -/
theorem elementwise_other (f : Transform) (dst src : Tensor) (memory : Memory) (p : Nat)
    (o : Int) (h : p ≠ dst.data_ptr) :
    elementwise f dst src memory p o = memory p o := by
  unfold elementwise
  exact foldl_write_other dst.data_ptr dst.offset (fun z => f.apply (src.read memory z))
    (all_indices dst.sizes) memory p o (Or.inl h)

/-- C11, at the failing input: a dense float destination and a dense float source on XPU 0
that differ only in the negate flag form a non-empty pair; `copy_` calls the native reorder
on them, which is handed no per-element function and leaves in the destination the values of
the source unchanged: the first element of the source is 1 and the first element of the
destination becomes 1, not -1. The elementwise kernel of `copy_device_to_device`, which
`copy_kernel_dpcpp` would launch on the same pair, applies the negation and leaves -1. -/
theorem C11_reorder_ignores_negate_flag :
    sample_negated_float.dst.device = sample_negated_float.src.device ∧
    sample_negated_float.dst.dtype = sample_negated_float.src.dtype ∧
    sample_negated_float.dst.is_conj = sample_negated_float.src.is_conj ∧
    sample_negated_float.dst.is_neg ≠ sample_negated_float.src.is_neg ∧
    (BUILD_TENSOR_ITER aten sample_negated_float.dst sample_negated_float.src).numel = 4 ∧
    copy_ aten 1 sample_negated_float.dst sample_negated_float.src false =
      (sample_negated_float.dst,
        Run.done [Op.reorder_copy sample_negated_float.src sample_negated_float.dst]) ∧
    sample_negated_float.src.read sample_memory [0] = (1, 0) ∧
    (exec_ops (copy_ aten 1 sample_negated_float.dst sample_negated_float.src false).2.ops
      sample_memory).map (fun memory => sample_negated_float.dst.read memory [0]) =
      some (1, 0) ∧
    Transform.neg.apply (1, 0) = (-1, 0) ∧
    copy_kernel_dpcpp aten (copy_at_depth aten 1) sample_negated_float false =
      Run.done [Op.device_guard (xpu 0),
        Op.dpcpp_kernel_for_tensor_iter .ALL_TYPES_AND_COMPLEX_AND3 .neg
          sample_negated_float] ∧
    (exec_ops (copy_kernel_dpcpp aten (copy_at_depth aten 1) sample_negated_float false).ops
      sample_memory).map (fun memory => sample_negated_float.dst.read memory [0]) =
      some (-1, 0) := by
  refine ⟨by decide, by decide, by decide, by decide, by decide, by decide, by decide,
    by decide, by decide, by decide, by decide⟩

/-! ### The broadcast scenario: a strided 2×3 destination and a 1×3 source -/

theorem view_2x3_not_row_major (i : Nat) (a s0 s1 : Int) (hnc : ¬ (s1 = 1 ∧ s0 = 3)) :
    (view_2x3 i a s0 s1).is_row_major = false := by
  simp only [Tensor.is_row_major, view_2x3, strided_tensor, Tensor.sizes, List.map_cons,
    List.map_nil, shape_numel, List.foldl_cons, List.foldl_nil, List.reverse_cons,
    List.reverse_nil, List.nil_append, List.cons_append, row_major_from]
  by_cases h1 : s1 = 1
  · have h0 : ¬ s0 = 3 := fun h => hnc ⟨h1, h⟩
    simp [h1, h0]
  · simp [h1]

theorem copy_same_device_2x3 (depth i j : Nat) (a s0 s1 t0 t1 : Int) (nb : Bool) (hij : i ≠ j)
    (hnc : ¬ (s1 = 1 ∧ s0 = 3)) :
    copy_ aten depth (view_2x3 i a s0 s1) (view_1x3 j a t0 t1) nb =
      (view_2x3 i a s0 s1,
        Run.done (if (onednn_strides_check (view_2x3 i a s0 s1) &&
            onednn_strides_check (view_1x3 j a t0 t1)) = true then
          [Op.reorder_copy (view_1x3 j a t0 t1) (view_2x3 i a s0 s1)]
        else
          [Op.device_guard (xpu a),
            Op.dpcpp_kernel_for_tensor_iter .ALL_TYPES_AND_COMPLEX_AND3 .identity
              ⟨view_2x3 i a s0 s1, view_1x3 j a t0 t1, 6, false⟩])) := by
  have hrow := view_2x3_not_row_major i a s0 s1 hnc
  have hsame : (view_2x3 i a s0 s1).is_same (view_1x3 j a t0 t1) = false := by
    simp [Tensor.is_same, view_2x3, view_1x3, strided_tensor, hij]
  have hrebind : rebind_quantized aten (view_2x3 i a s0 s1) (view_1x3 j a t0 t1) =
      (view_2x3 i a s0 s1, []) := by
    simp [rebind_quantized, view_2x3, strided_tensor]
  have hiter : BUILD_TENSOR_ITER aten (view_2x3 i a s0 s1) (view_1x3 j a t0 t1) =
      ⟨view_2x3 i a s0 s1, view_1x3 j a t0 t1, 6, false⟩ := by
    simp only [BUILD_TENSOR_ITER, aten, hrow, Bool.false_and]
    congr 1
  have hel : reorder_eligible aten (view_2x3 i a s0 s1) (view_1x3 j a t0 t1) =
      (onednn_strides_check (view_2x3 i a s0 s1) &&
        onednn_strides_check (view_1x3 j a t0 t1)) := by
    simp [reorder_eligible, aten, view_2x3, view_1x3, strided_tensor, xpu, Tensor.sizes,
      Tensor.strides, Tensor.dim, onednn_dtype_supported, MAX_ONEDNN_SUPPORTED_DIMS]
  have hkernel : ∀ c, copy_kernel_dpcpp aten c
      ⟨view_2x3 i a s0 s1, view_1x3 j a t0 t1, 6, false⟩ nb =
      Run.done [Op.device_guard (xpu a),
        Op.dpcpp_kernel_for_tensor_iter .ALL_TYPES_AND_COMPLEX_AND3 .identity
          ⟨view_2x3 i a s0 s1, view_1x3 j a t0 t1, 6, false⟩] := by
    intro c
    have hreq : ∀ p, copy_requires_temporaries
        ⟨view_2x3 i a s0 s1, view_1x3 j a t0 t1, 6, false⟩ p = .ok false := by
      intro p
      simp [copy_requires_temporaries, TensorIterator.device, TensorIterator.tensor, view_2x3,
        view_1x3, strided_tensor, xpu]
    simp only [copy_kernel_dpcpp, hreq]
    simp [TensorIterator.device, TensorIterator.tensor, view_2x3, view_1x3, strided_tensor,
      xpu, copy_device_to_device, device_to_device_transfer, memcpy_eligible,
      before_transfer, after_transfer, dispatch_kernel, kernel_choice, TensorIterator.dtype,
      isQIntType, aten, ipex_dispatch, Run.done]
  unfold copy_ copy_body
  have h6 : ¬ ((6 : Nat) = 0) := by decide
  simp only [hsame, Bool.false_eq_true, if_false, hrebind, hiter, hel, h6, hkernel]
  split
  · simp [Run.done]
  · simp [Run.seq, Run.done]

theorem expand_1x3_geometry (j : Nat) (b t0 t1 : Int) (dst : Tensor) (h : dst.sizes = [2, 3]) :
    (aten.expand_as (view_1x3 j b t0 t1) dst).geometry = [(2, 0), (3, t1)] := by
  simp [aten, h, view_1x3, strided_tensor, expand_geometry, List.zipWithAll]

theorem new_dense_2x3_geometry (tag : Nat) (t : Tensor) (dtype : ScalarType)
    (h : t.sizes = [2, 3]) : (new_dense tag t dtype).geometry = [(2, 3), (3, 1)] := by
  simp only [new_dense, h]
  rfl

theorem is_row_major_of_geometry (t : Tensor) (h : t.geometry = [(2, 3), (3, 1)]) :
    t.is_row_major = true := by
  simp only [Tensor.is_row_major, Tensor.sizes, h]
  rfl

theorem expanded_not_row_major (t : Tensor) (t1 : Int) (h : t.geometry = [(2, 0), (3, t1)]) :
    t.is_row_major = false := by
  simp only [Tensor.is_row_major, Tensor.sizes, h, List.map_cons, List.map_nil, shape_numel,
    List.foldl_cons, List.foldl_nil, List.reverse_cons, List.reverse_nil, List.nil_append,
    List.cons_append, row_major_from]
  by_cases h1 : t1 = 1 <;> simp [h1]

theorem staging_temporaries_cross_device_2x3 (i j : Nat) (a b s0 s1 t0 t1 : Int)
    (hnc : ¬ (s1 = 1 ∧ s0 = 3)) (numel : Nat) (contig : Bool) :
    staging_temporaries aten ⟨view_2x3 i a s0 s1, view_1x3 j b t0 t1, numel, contig⟩ =
      .ok (aten.empty_like (view_2x3 i a s0 s1) .kFloat,
        new_dense 4 (aten.expand_as (view_1x3 j b t0 t1) (view_2x3 i a s0 s1)) .kFloat,
        [Op.empty_like (view_2x3 i a s0 s1) .kFloat
            (aten.empty_like (view_2x3 i a s0 s1) .kFloat),
          Op.to_dtype (view_1x3 j b t0 t1) .kFloat (view_1x3 j b t0 t1),
          Op.expand_as (view_1x3 j b t0 t1) (view_2x3 i a s0 s1)
            (aten.expand_as (view_1x3 j b t0 t1) (view_2x3 i a s0 s1)),
          Op.contiguous (aten.expand_as (view_1x3 j b t0 t1) (view_2x3 i a s0 s1))
            (new_dense 4 (aten.expand_as (view_1x3 j b t0 t1) (view_2x3 i a s0 s1))
              .kFloat)]) := by
  have hrow := view_2x3_not_row_major i a s0 s1 hnc
  have hE := expanded_not_row_major _ t1
    (expand_1x3_geometry j b t0 t1 (view_2x3 i a s0 s1) rfl)
  have hto : aten.to_dtype (view_1x3 j b t0 t1) .kFloat = view_1x3 j b t0 t1 := by
    simp [aten, view_1x3, strided_tensor]
  have hcontig : aten.contiguous (aten.expand_as (view_1x3 j b t0 t1) (view_2x3 i a s0 s1)) =
      new_dense 4 (aten.expand_as (view_1x3 j b t0 t1) (view_2x3 i a s0 s1)) .kFloat := by
    have : (aten.expand_as (view_1x3 j b t0 t1) (view_2x3 i a s0 s1)).dtype = .kFloat := rfl
    show (if (aten.expand_as (view_1x3 j b t0 t1) (view_2x3 i a s0 s1)).is_row_major = true
      then _ else _) = _
    rw [hE, this]
    rfl
  have hdev : (⟨view_2x3 i a s0 s1, view_1x3 j b t0 t1, numel, contig⟩ :
      TensorIterator).device_type 0 = DeviceType.XPU := rfl
  have hisc : aten.is_contiguous (view_2x3 i a s0 s1) .Contiguous = false := hrow
  have hdt : (view_2x3 i a s0 s1).dtype = .kFloat := rfl
  have hq : (view_2x3 i a s0 s1).is_quantized = false := rfl
  unfold staging_temporaries
  simp only [hdev, if_true, TensorIterator.tensor, TensorIterator.dtype, hisc, hdt, hq, hto,
    hcontig, Bool.false_eq_true, if_false, List.singleton_append, List.cons_append,
    List.nil_append]

theorem shape_numel_of_geometry (t : Tensor) (h : t.geometry = [(2, 3), (3, 1)]) :
    shape_numel t.sizes = 6 := by
  simp only [Tensor.sizes, h]
  rfl

theorem onednn_strides_check_of_dense_2x3 (t : Tensor) (h : t.geometry = [(2, 3), (3, 1)]) :
    onednn_strides_check t = true := by
  simp only [onednn_strides_check, get_onednn_dims, get_onednn_strides, Tensor.sizes,
    Tensor.strides, h]
  rfl

theorem copy_dense_cross_device (c : Tensor → Tensor → Bool → Tensor × Run) (x y : Tensor)
    (a b : Int) (nb : Bool) (hab : a ≠ b)
    (hx : x.geometry = [(2, 3), (3, 1)]) (hy : y.geometry = [(2, 3), (3, 1)])
    (himpl : x.impl ≠ y.impl)
    (hxdev : x.device = xpu a) (hydev : y.device = xpu b)
    (hxdt : x.dtype = .kFloat) (hydt : y.dtype = .kFloat)
    (hxq : x.is_quantized = false)
    (hconj : x.is_conj = y.is_conj) (hneg : x.is_neg = y.is_neg) :
    copy_body aten c x y nb =
      (x, Run.done [Op.device_guard (xpu b),
        Op.record .dst_ready (getCurrentDPCPPStream a),
        Op.block .dst_ready (getCurrentDPCPPStream b),
        Op.dpcppMemcpyAsync x.data_ptr y.data_ptr 24 dpcppMemcpyKind.DeviceToDevice,
        Op.record .src_ready (getCurrentDPCPPStream b),
        Op.block .src_ready (getCurrentDPCPPStream a)]) := by
  have hsame : x.is_same y = false := by simp [Tensor.is_same, himpl]
  have hrebind : rebind_quantized aten x y = (x, []) := by
    simp [rebind_quantized, hxq]
  have hsx : x.sizes = [2, 3] := by simp [Tensor.sizes, hx]
  have hsy : y.sizes = [2, 3] := by simp [Tensor.sizes, hy]
  have hiter : BUILD_TENSOR_ITER aten x y = ⟨x, y, 6, true⟩ := by
    simp only [BUILD_TENSOR_ITER, aten, shape_numel_of_geometry x hx,
      is_row_major_of_geometry x hx, is_row_major_of_geometry y hy, hsx, hsy]
    rfl
  have hdevne : xpu b ≠ xpu a := by
    intro h
    simp only [xpu, Device.mk.injEq, true_and] at h
    exact hab h.symm
  have hel : reorder_eligible aten x y = false := by
    simp [reorder_eligible, hxdev, hydev, hdevne]
  have hreq : ∀ p, copy_requires_temporaries ⟨x, y, 6, true⟩ p = .ok false := by
    intro p
    simp [copy_requires_temporaries, TensorIterator.device, TensorIterator.tensor,
      TensorIterator.dtype, hxdev, hydev, hdevne.symm, hxdt, hydt]
  have hkernel : copy_kernel_dpcpp aten c ⟨x, y, 6, true⟩ nb =
      Run.done [Op.device_guard (xpu b),
        Op.record .dst_ready (getCurrentDPCPPStream a),
        Op.block .dst_ready (getCurrentDPCPPStream b),
        Op.dpcppMemcpyAsync x.data_ptr y.data_ptr 24 dpcppMemcpyKind.DeviceToDevice,
        Op.record .src_ready (getCurrentDPCPPStream b),
        Op.block .src_ready (getCurrentDPCPPStream a)] := by
    simp only [copy_kernel_dpcpp, hreq]
    simp [TensorIterator.device, TensorIterator.tensor, hxdev, hydev, xpu,
      copy_device_to_device, device_to_device_transfer, memcpy_eligible, before_transfer,
      after_transfer, TensorIterator.dtype, hxdt, hydt, hconj, hneg,
      TensorIterator.element_size, elementSize, TensorIterator.data_ptr, Run.done,
      hab, Ne.symm hab]
  have h6 : ¬ ((6 : Nat) = 0) := by decide
  unfold copy_body
  simp only [hsame, Bool.false_eq_true, if_false, hrebind, hiter, hel, h6, hkernel]
  simp [Run.seq, Run.done]

theorem copy_back_same_device (c : Tensor → Tensor → Bool → Tensor × Run) (i : Nat)
    (a s0 s1 : Int) (y : Tensor) (nb : Bool) (hnc : ¬ (s1 = 1 ∧ s0 = 3))
    (hy : y.geometry = [(2, 3), (3, 1)]) (himpl : i ≠ y.impl)
    (hydev : y.device = xpu a) (hydt : y.dtype = .kFloat)
    (hconj : y.is_conj = false) (hneg : y.is_neg = false) :
    copy_body aten c (view_2x3 i a s0 s1) y nb =
      (view_2x3 i a s0 s1,
        Run.done (if onednn_strides_check (view_2x3 i a s0 s1) = true then
          [Op.reorder_copy y (view_2x3 i a s0 s1)]
        else
          [Op.device_guard (xpu a),
            Op.dpcpp_kernel_for_tensor_iter .ALL_TYPES_AND_COMPLEX_AND3 .identity
              ⟨view_2x3 i a s0 s1, y, 6, false⟩])) := by
  have hrow := view_2x3_not_row_major i a s0 s1 hnc
  have hsame : (view_2x3 i a s0 s1).is_same y = false := by
    simp [Tensor.is_same, view_2x3, strided_tensor, himpl]
  have hrebind : rebind_quantized aten (view_2x3 i a s0 s1) y = (view_2x3 i a s0 s1, []) := by
    simp [rebind_quantized, view_2x3, strided_tensor]
  have hiter : BUILD_TENSOR_ITER aten (view_2x3 i a s0 s1) y =
      ⟨view_2x3 i a s0 s1, y, 6, false⟩ := by
    simp only [BUILD_TENSOR_ITER, aten, hrow, Bool.false_and]
    congr 1
  have hsy : y.sizes = [2, 3] := by simp [Tensor.sizes, hy]
  have hstry : y.strides = [3, 1] := by simp [Tensor.strides, hy]
  have hel : reorder_eligible aten (view_2x3 i a s0 s1) y =
      onednn_strides_check (view_2x3 i a s0 s1) := by
    simp [reorder_eligible, aten, hydev, hydt, hsy, hstry, hy, Tensor.dim,
      onednn_strides_check_of_dense_2x3 y hy, view_2x3, strided_tensor, xpu, Tensor.sizes,
      Tensor.strides, onednn_dtype_supported, MAX_ONEDNN_SUPPORTED_DIMS]
  have hkernel : copy_kernel_dpcpp aten c ⟨view_2x3 i a s0 s1, y, 6, false⟩ nb =
      Run.done [Op.device_guard (xpu a),
        Op.dpcpp_kernel_for_tensor_iter .ALL_TYPES_AND_COMPLEX_AND3 .identity
          ⟨view_2x3 i a s0 s1, y, 6, false⟩] := by
    have hreq : ∀ p, copy_requires_temporaries ⟨view_2x3 i a s0 s1, y, 6, false⟩ p =
        .ok false := by
      intro p
      simp [copy_requires_temporaries, TensorIterator.device, TensorIterator.tensor, view_2x3,
        strided_tensor, hydev, xpu]
    simp only [copy_kernel_dpcpp, hreq]
    simp [TensorIterator.device, TensorIterator.tensor, view_2x3, strided_tensor, hydev, hydt,
      hconj, hneg, xpu, copy_device_to_device, device_to_device_transfer, memcpy_eligible,
      before_transfer, after_transfer, dispatch_kernel, kernel_choice, TensorIterator.dtype,
      isQIntType, aten, ipex_dispatch, Run.done]
  have h6 : ¬ ((6 : Nat) = 0) := by decide
  unfold copy_body
  simp only [hsame, Bool.false_eq_true, if_false, hrebind, hiter, hel, h6, hkernel]
  split
  · simp [Run.done]
  · simp [Run.seq, Run.done]

theorem requires_temporaries_cross_device (i j : Nat) (a b s0 s1 t0 t1 : Int) (hab : a ≠ b)
    (p : Bool) :
    copy_requires_temporaries ⟨view_2x3 i a s0 s1, view_1x3 j b t0 t1, 6, false⟩ p =
      .ok (!p) := by
  have hdev : xpu a ≠ xpu b := by
    intro h
    simp only [xpu, Device.mk.injEq, true_and] at h
    exact hab h
  simp [copy_requires_temporaries, TensorIterator.device, TensorIterator.tensor, view_2x3,
    view_1x3, strided_tensor, hdev, xpu, hab]

theorem copy_cross_device_2x3 (depth i j : Nat) (a b s0 s1 t0 t1 : Int) (nb : Bool) (hij : i ≠ j)
    (hab : a ≠ b) (hnc : ¬ (s1 = 1 ∧ s0 = 3)) :
    copy_ aten (depth + 1) (view_2x3 i a s0 s1) (view_1x3 j b t0 t1) nb =
      (view_2x3 i a s0 s1,
        Run.done ([Op.empty_like (view_2x3 i a s0 s1) .kFloat
            (aten.empty_like (view_2x3 i a s0 s1) .kFloat),
          Op.to_dtype (view_1x3 j b t0 t1) .kFloat (view_1x3 j b t0 t1),
          Op.expand_as (view_1x3 j b t0 t1) (view_2x3 i a s0 s1)
            (aten.expand_as (view_1x3 j b t0 t1) (view_2x3 i a s0 s1)),
          Op.contiguous (aten.expand_as (view_1x3 j b t0 t1) (view_2x3 i a s0 s1))
            (new_dense 4 (aten.expand_as (view_1x3 j b t0 t1) (view_2x3 i a s0 s1)) .kFloat),
          Op.device_guard (xpu b),
          Op.record .dst_ready (getCurrentDPCPPStream a),
          Op.block .dst_ready (getCurrentDPCPPStream b),
          Op.dpcppMemcpyAsync (aten.empty_like (view_2x3 i a s0 s1) .kFloat).data_ptr
            (new_dense 4 (aten.expand_as (view_1x3 j b t0 t1) (view_2x3 i a s0 s1))
              .kFloat).data_ptr 24 dpcppMemcpyKind.DeviceToDevice,
          Op.record .src_ready (getCurrentDPCPPStream b),
          Op.block .src_ready (getCurrentDPCPPStream a)] ++
          (if onednn_strides_check (view_2x3 i a s0 s1) = true then
            [Op.reorder_copy (aten.empty_like (view_2x3 i a s0 s1) .kFloat)
              (view_2x3 i a s0 s1)]
          else
            [Op.device_guard (xpu a),
              Op.dpcpp_kernel_for_tensor_iter .ALL_TYPES_AND_COMPLEX_AND3 .identity
                ⟨view_2x3 i a s0 s1, aten.empty_like (view_2x3 i a s0 s1) .kFloat, 6,
                  false⟩]))) := by
  have hrow := view_2x3_not_row_major i a s0 s1 hnc
  have hsame : (view_2x3 i a s0 s1).is_same (view_1x3 j b t0 t1) = false := by
    simp [Tensor.is_same, view_2x3, view_1x3, strided_tensor, hij]
  have hrebind : rebind_quantized aten (view_2x3 i a s0 s1) (view_1x3 j b t0 t1) =
      (view_2x3 i a s0 s1, []) := by
    simp [rebind_quantized, view_2x3, strided_tensor]
  have hiter : BUILD_TENSOR_ITER aten (view_2x3 i a s0 s1) (view_1x3 j b t0 t1) =
      ⟨view_2x3 i a s0 s1, view_1x3 j b t0 t1, 6, false⟩ := by
    simp only [BUILD_TENSOR_ITER, aten, hrow, Bool.false_and]
    congr 1
  have hel : reorder_eligible aten (view_2x3 i a s0 s1) (view_1x3 j b t0 t1) = false := by
    simp [reorder_eligible, view_2x3, view_1x3, strided_tensor, xpu, Ne.symm hab]
  have hDgeom : (aten.empty_like (view_2x3 i a s0 s1) .kFloat).geometry = [(2, 3), (3, 1)] :=
    new_dense_2x3_geometry 1 _ _ rfl
  have hEgeom := expand_1x3_geometry j b t0 t1 (view_2x3 i a s0 s1) rfl
  have hSgeom : (new_dense 4 (aten.expand_as (view_1x3 j b t0 t1) (view_2x3 i a s0 s1))
      .kFloat).geometry = [(2, 3), (3, 1)] :=
    new_dense_2x3_geometry 4 _ _ (by simp [Tensor.sizes, hEgeom])
  have hfirst : copy_at_depth aten (depth + 1) (aten.empty_like (view_2x3 i a s0 s1) .kFloat)
      (new_dense 4 (aten.expand_as (view_1x3 j b t0 t1) (view_2x3 i a s0 s1)) .kFloat) nb =
      (aten.empty_like (view_2x3 i a s0 s1) .kFloat,
        Run.done [Op.device_guard (xpu b),
          Op.record .dst_ready (getCurrentDPCPPStream a),
          Op.block .dst_ready (getCurrentDPCPPStream b),
          Op.dpcppMemcpyAsync (aten.empty_like (view_2x3 i a s0 s1) .kFloat).data_ptr
            (new_dense 4 (aten.expand_as (view_1x3 j b t0 t1) (view_2x3 i a s0 s1))
              .kFloat).data_ptr 24 dpcppMemcpyKind.DeviceToDevice,
          Op.record .src_ready (getCurrentDPCPPStream b),
          Op.block .src_ready (getCurrentDPCPPStream a)]) := by
    have hx : (aten.empty_like (view_2x3 i a s0 s1) .kFloat).device.type = DeviceType.XPU := rfl
    simp only [copy_at_depth, hx, true_or, if_true]
    refine copy_dense_cross_device _ _ _ a b nb hab hDgeom hSgeom ?_ rfl rfl rfl rfl rfl rfl rfl
    show 8 * i + 1 + 8 ≠ 8 * (8 * j + 11) + 4 + 8
    omega
  have hback : (copy_at_depth aten (depth + 1) (view_2x3 i a s0 s1)
      (aten.empty_like (view_2x3 i a s0 s1) .kFloat) nb).2 =
      Run.done (if onednn_strides_check (view_2x3 i a s0 s1) = true then
        [Op.reorder_copy (aten.empty_like (view_2x3 i a s0 s1) .kFloat) (view_2x3 i a s0 s1)]
      else
        [Op.device_guard (xpu a),
          Op.dpcpp_kernel_for_tensor_iter .ALL_TYPES_AND_COMPLEX_AND3 .identity
            ⟨view_2x3 i a s0 s1, aten.empty_like (view_2x3 i a s0 s1) .kFloat, 6, false⟩]) := by
    have hx : (view_2x3 i a s0 s1).device.type = DeviceType.XPU := rfl
    simp only [copy_at_depth, hx, true_or, if_true]
    rw [copy_back_same_device _ i a s0 s1 _ nb hnc hDgeom ?_ rfl rfl rfl rfl]
    show i ≠ 8 * i + 1 + 8
    omega
  have hDsame : (aten.empty_like (view_2x3 i a s0 s1) .kFloat).is_same (view_2x3 i a s0 s1) =
      false := by
    have : 8 * i + 1 + 8 ≠ i := by omega
    simp [Tensor.is_same, aten, new_dense, view_2x3, strided_tensor, this]
  have hsizes : (aten.empty_like (view_2x3 i a s0 s1) .kFloat).sizes =
      (new_dense 4 (aten.expand_as (view_1x3 j b t0 t1) (view_2x3 i a s0 s1)) .kFloat).sizes := by
    simp only [Tensor.sizes, hDgeom, hSgeom]
  have hdtypes : (aten.empty_like (view_2x3 i a s0 s1) .kFloat).dtype =
      (new_dense 4 (aten.expand_as (view_1x3 j b t0 t1) (view_2x3 i a s0 s1)) .kFloat).dtype :=
    rfl
  have hdevs : (aten.empty_like (view_2x3 i a s0 s1) .kFloat).device =
      (view_2x3 i a s0 s1).device := rfl
  have h6 : ¬ ((6 : Nat) = 0) := by decide
  have hp2p : maybe_enable_p2p_access (xpu a) (xpu b) = false := by
    simp [maybe_enable_p2p_access]
  have hd0 : (view_2x3 i a s0 s1).device = xpu a := rfl
  have hd1 : (view_1x3 j b t0 t1).device = xpu b := rfl
  unfold copy_ copy_body
  simp only [hsame, Bool.false_eq_true, if_false, hrebind, hiter, hel, h6, copy_kernel_dpcpp,
    TensorIterator.device, TensorIterator.tensor, hd0, hd1, hp2p,
    requires_temporaries_cross_device i j a b s0 s1 t0 t1 hab, Bool.not_false]
  unfold copy_via_temporaries
  simp only [staging_temporaries_cross_device_2x3 i j a b s0 s1 t0 t1 hnc, hsizes, hdtypes,
    ne_eq, not_true_eq_false,
    if_false, hfirst, hDsame, Bool.not_false, if_true, hdevs, TensorIterator.tensor, hback]
  simp only [Run.seq, Run.done]
  rfl

theorem exec_ops_append (xs ys : List Op) (memory : Memory) :
    exec_ops (xs ++ ys) memory = (exec_ops xs memory).bind (exec_ops ys) := by
  induction xs generalizing memory with
  | nil => rfl
  | cons x rest ih =>
    simp only [List.cons_append, exec_ops]
    cases x.exec memory with
    | none => rfl
    | some next => exact ih next

theorem all_indices_2x3 :
    all_indices [2, 3] = [[0, 0], [0, 1], [0, 2], [1, 0], [1, 1], [1, 2]] := by
  decide

theorem offset_of_geometry (t : Tensor) (n0 n1 s0 s1 r c : Int)
    (h : t.geometry = [(n0, s0), (n1, s1)]) :
    t.offset [r, c] = (elementSize t.dtype : Int) * (r * s0 + c * s1) := by
  simp [Tensor.offset, Tensor.strides, h]

theorem mem_all_indices_2x3 (r c : Int) (hr0 : 0 ≤ r) (hr : r < 2) (hc0 : 0 ≤ c)
    (hc : c < 3) : [r, c] ∈ all_indices [2, 3] := by
  rw [all_indices_2x3]
  interval_cases r <;> interval_cases c <;> simp

theorem dense_2x3_offsets_injective (t : Tensor) (hg : t.geometry = [(2, 3), (3, 1)])
    (hdt : t.dtype = .kFloat) :
    ∀ x ∈ all_indices [2, 3], ∀ y ∈ all_indices [2, 3],
      t.offset x = t.offset y → x = y := by
  rw [all_indices_2x3]
  intro x hx y hy
  simp only [List.mem_cons, List.mem_singleton, List.not_mem_nil, or_false] at hx hy
  rcases hx with rfl | rfl | rfl | rfl | rfl | rfl <;>
    rcases hy with rfl | rfl | rfl | rfl | rfl | rfl <;>
    simp [offset_of_geometry t 2 3 3 1 _ _ hg, hdt, elementSize]

theorem dense_2x3_offset_range (t : Tensor) (hg : t.geometry = [(2, 3), (3, 1)])
    (hdt : t.dtype = .kFloat) (r c : Int) (hr0 : 0 ≤ r) (hr : r < 2) (hc0 : 0 ≤ c)
    (hc : c < 3) : 0 ≤ t.offset [r, c] ∧ t.offset [r, c] < 24 := by
  rw [offset_of_geometry t 2 3 3 1 r c hg, hdt]
  simp only [elementSize]
  constructor <;> push_cast <;> omega

theorem expand_dense_2x3 (t : Tensor) (hg : t.geometry = [(2, 3), (3, 1)]) :
    t.expand [2, 3] = t := by
  cases t
  simp only at hg
  subst hg
  rfl

/-- The values the staging leaves: the dense source temporary `s` is filled from the expanded
source `e`, its 24 bytes are copied to the dense destination temporary `d`, and `d` is copied
elementwise into the destination. -/
theorem staged_values (dst d s e : Tensor) (memory : Memory)
    (hdst : dst.sizes = [2, 3])
    (hd : d.geometry = [(2, 3), (3, 1)]) (hddt : d.dtype = .kFloat)
    (hs : s.geometry = [(2, 3), (3, 1)]) (hsdt : s.dtype = .kFloat)
    (hcells : ∀ x ∈ all_indices [2, 3], ∀ y ∈ all_indices [2, 3],
      dst.offset x = dst.offset y → x = y)
    (r c : Int) (hr0 : 0 ≤ r) (hr : r < 2) (hc0 : 0 ≤ c) (hc : c < 3) :
    dst.read (elementwise .identity dst d
      (fun p o => if p = d.data_ptr ∧ 0 ≤ o ∧ o < ((24 : Nat) : Int) then
        elementwise .identity s e memory s.data_ptr o
      else elementwise .identity s e memory p o)) [r, c] = e.read memory [r, c] := by
  have hmem := mem_all_indices_2x3 r c hr0 hr hc0 hc
  have hssz : s.sizes = [2, 3] := by simp [Tensor.sizes, hs]
  rw [elementwise_read _ dst d _ [r, c] (by rw [hdst]; exact hmem)
    (by rw [hdst]; exact fun other ho h => hcells other ho [r, c] hmem h)]
  have hrange := dense_2x3_offset_range d hd hddt r c hr0 hr hc0 hc
  have hoff : d.offset [r, c] = s.offset [r, c] := by
    rw [offset_of_geometry d 2 3 3 1 r c hd, offset_of_geometry s 2 3 3 1 r c hs, hddt, hsdt]
  show (if d.data_ptr = d.data_ptr ∧ 0 ≤ d.offset [r, c] ∧
    d.offset [r, c] < ((24 : Nat) : Int) then _ else _) = _
  rw [if_pos ⟨rfl, hrange⟩, hoff]
  exact elementwise_read .identity s e memory [r, c] (by rw [hssz]; exact hmem)
    (by rw [hssz]; exact fun other ho h =>
      dense_2x3_offsets_injective s hs hsdt other ho [r, c] hmem h)

theorem expanded_read (j : Nat) (b t0 t1 : Int) (dst : Tensor) (hdst : dst.sizes = [2, 3])
    (memory : Memory) (r c : Int) :
    (aten.expand_as (view_1x3 j b t0 t1) dst).read memory [r, c] =
      (view_1x3 j b t0 t1).read memory [0, c] := by
  have hE := expand_1x3_geometry j b t0 t1 dst hdst
  have hsrc : (view_1x3 j b t0 t1).geometry = [(1, t0), (3, t1)] := rfl
  unfold Tensor.read
  rw [offset_of_geometry _ 2 3 0 t1 r c hE, offset_of_geometry _ 1 3 t0 t1 0 c hsrc]
  simp [aten]

/-- The memory the operations of a staged copy leave before the copy back. -/
theorem exec_staging_prefix (dst src e s d : Tensor) (dtype : ScalarType) (g : Device)
    (q0 q1 : DPCPPStream) (kind : dpcppMemcpyKind) (nbytes : Nat) (memory : Memory)
    (hse : s.is_same e = false) :
    exec_ops [Op.empty_like dst dtype d, Op.to_dtype src dtype src, Op.expand_as src dst e,
      Op.contiguous e s, Op.device_guard g, Op.record .dst_ready q0, Op.block .dst_ready q1,
      Op.dpcppMemcpyAsync d.data_ptr s.data_ptr nbytes kind, Op.record .src_ready q1,
      Op.block .src_ready q0] memory =
      some (fun p o => if p = d.data_ptr ∧ 0 ≤ o ∧ o < (nbytes : Int) then
        elementwise .identity s e memory s.data_ptr o
      else elementwise .identity s e memory p o) := by
  have hne : ¬ s.impl = e.impl := by simpa [Tensor.is_same] using hse
  simp [exec_ops, Op.exec, Tensor.is_same, hne]

theorem exec_reorder (src dst : Tensor) (memory : Memory) (h : src.sizes = dst.sizes) :
    exec_ops [Op.reorder_copy src dst] memory = some (elementwise .identity dst src memory) := by
  simp [exec_ops, Op.exec, h]

theorem exec_kernel (g : Device) (key : DispatchKey) (f : Transform) (iter : TensorIterator)
    (memory : Memory) :
    exec_ops [Op.device_guard g, Op.dpcpp_kernel_for_tensor_iter key f iter] memory =
      some (elementwise f iter.dst (iter.src.expand iter.dst.sizes) memory) := by
  simp [exec_ops, Op.exec]

theorem values_cross_device_2x3 (depth i j : Nat) (a b s0 s1 t0 t1 : Int) (nb : Bool)
    (hij : i ≠ j) (hab : a ≠ b) (hnc : ¬ (s1 = 1 ∧ s0 = 3))
    (hcells : ∀ x ∈ all_indices [2, 3], ∀ y ∈ all_indices [2, 3],
      (view_2x3 i a s0 s1).offset x = (view_2x3 i a s0 s1).offset y → x = y)
    (memory : Memory) :
    ∃ final, exec_ops (copy_ aten (depth + 1) (view_2x3 i a s0 s1) (view_1x3 j b t0 t1) nb).2.ops
        memory = some final ∧
      ∀ r c : Int, 0 ≤ r → r < 2 → 0 ≤ c → c < 3 →
        (view_2x3 i a s0 s1).read final [r, c] = (view_1x3 j b t0 t1).read memory [0, c] := by
  rw [copy_cross_device_2x3 depth i j a b s0 s1 t0 t1 nb hij hab hnc]
  have hDgeom : (aten.empty_like (view_2x3 i a s0 s1) .kFloat).geometry = [(2, 3), (3, 1)] :=
    new_dense_2x3_geometry 1 _ _ rfl
  have hEgeom := expand_1x3_geometry j b t0 t1 (view_2x3 i a s0 s1) rfl
  have hSgeom : (new_dense 4 (aten.expand_as (view_1x3 j b t0 t1) (view_2x3 i a s0 s1))
      .kFloat).geometry = [(2, 3), (3, 1)] :=
    new_dense_2x3_geometry 4 _ _ (by simp [Tensor.sizes, hEgeom])
  have hSE : (new_dense 4 (aten.expand_as (view_1x3 j b t0 t1) (view_2x3 i a s0 s1))
      .kFloat).is_same (aten.expand_as (view_1x3 j b t0 t1) (view_2x3 i a s0 s1)) = false := by
    have : 8 * (8 * j + 11) + 4 + 8 ≠ 8 * j + 11 := by omega
    simp [Tensor.is_same, aten, new_dense, view_1x3, strided_tensor, this]
  have hDS : (aten.empty_like (view_2x3 i a s0 s1) .kFloat).sizes =
      (view_2x3 i a s0 s1).sizes := by
    simp only [Tensor.sizes, hDgeom]
    rfl
  have hfinal := fun r c hr0 hr hc0 hc =>
    (staged_values (view_2x3 i a s0 s1) (aten.empty_like (view_2x3 i a s0 s1) .kFloat)
      (new_dense 4 (aten.expand_as (view_1x3 j b t0 t1) (view_2x3 i a s0 s1)) .kFloat)
      (aten.expand_as (view_1x3 j b t0 t1) (view_2x3 i a s0 s1)) memory rfl hDgeom rfl hSgeom rfl
      hcells r c hr0 hr hc0 hc).trans
      (expanded_read j b t0 t1 (view_2x3 i a s0 s1) rfl memory r c)
  simp only [Run.done]
  rw [exec_ops_append, exec_staging_prefix _ _ _ _ _ _ _ _ _ _ _ _ hSE, Option.bind]
  by_cases hcheck : onednn_strides_check (view_2x3 i a s0 s1) = true
  · rw [if_pos hcheck, exec_reorder _ _ _ hDS]
    exact ⟨_, rfl, hfinal⟩
  · rw [if_neg hcheck, exec_kernel]
    have hexp : (aten.empty_like (view_2x3 i a s0 s1) .kFloat).expand
        (view_2x3 i a s0 s1).sizes = aten.empty_like (view_2x3 i a s0 s1) .kFloat :=
      expand_dense_2x3 _ hDgeom
    simp only [hexp]
    exact ⟨_, rfl, hfinal⟩

theorem broadcast_read (j : Nat) (b t0 t1 : Int) (memory : Memory) (r c : Int) :
    ((view_1x3 j b t0 t1).expand [2, 3]).read memory [r, c] =
      (view_1x3 j b t0 t1).read memory [0, c] := by
  have hE : ((view_1x3 j b t0 t1).expand [2, 3]).geometry = [(2, 0), (3, t1)] := by
    simp [Tensor.expand, view_1x3, strided_tensor, expand_geometry, List.zipWithAll]
  have hsrc : (view_1x3 j b t0 t1).geometry = [(1, t0), (3, t1)] := rfl
  unfold Tensor.read
  rw [offset_of_geometry _ 2 3 0 t1 r c hE, offset_of_geometry _ 1 3 t0 t1 0 c hsrc]
  simp [Tensor.expand]

theorem values_same_device_2x3 (depth i j : Nat) (a s0 s1 t0 t1 : Int) (nb : Bool) (hij : i ≠ j)
    (hnc : ¬ (s1 = 1 ∧ s0 = 3))
    (hcells : ∀ x ∈ all_indices [2, 3], ∀ y ∈ all_indices [2, 3],
      (view_2x3 i a s0 s1).offset x = (view_2x3 i a s0 s1).offset y → x = y)
    (hcheck : (onednn_strides_check (view_2x3 i a s0 s1) &&
      onednn_strides_check (view_1x3 j a t0 t1)) = false)
    (memory : Memory) :
    ∃ final, exec_ops (copy_ aten depth (view_2x3 i a s0 s1) (view_1x3 j a t0 t1) nb).2.ops
        memory = some final ∧
      ∀ r c : Int, 0 ≤ r → r < 2 → 0 ≤ c → c < 3 →
        (view_2x3 i a s0 s1).read final [r, c] = (view_1x3 j a t0 t1).read memory [0, c] := by
  rw [copy_same_device_2x3 depth i j a s0 s1 t0 t1 nb hij hnc]
  simp only [Run.done, hcheck, Bool.false_eq_true, if_false]
  rw [exec_kernel]
  refine ⟨_, rfl, ?_⟩
  intro r c hr0 hr hc0 hc
  have hmem := mem_all_indices_2x3 r c hr0 hr hc0 hc
  exact (elementwise_read .identity (view_2x3 i a s0 s1) _ memory [r, c] hmem
    (fun other ho h => hcells other ho [r, c] hmem h)).trans
    (broadcast_read j a t0 t1 memory r c)

theorem requires_temporaries_same_device (i j : Nat) (a s0 s1 t0 t1 : Int) (p : Bool) :
    copy_requires_temporaries
      (BUILD_TENSOR_ITER aten (view_2x3 i a s0 s1) (view_1x3 j a t0 t1)) p = .ok false := by
  simp [copy_requires_temporaries, BUILD_TENSOR_ITER, TensorIterator.device,
    TensorIterator.tensor, view_2x3, view_1x3, strided_tensor, xpu]

theorem requires_temporaries_cross_device_built (i j : Nat) (a b s0 s1 t0 t1 : Int) (hab : a ≠ b)
    (hnc : ¬ (s1 = 1 ∧ s0 = 3)) :
    copy_requires_temporaries
      (BUILD_TENSOR_ITER aten (view_2x3 i a s0 s1) (view_1x3 j b t0 t1))
      (maybe_enable_p2p_access (view_2x3 i a s0 s1).device (view_1x3 j b t0 t1).device) =
      .ok true := by
  have hrow := view_2x3_not_row_major i a s0 s1 hnc
  have hiter : BUILD_TENSOR_ITER aten (view_2x3 i a s0 s1) (view_1x3 j b t0 t1) =
      ⟨view_2x3 i a s0 s1, view_1x3 j b t0 t1, 6, false⟩ := by
    simp only [BUILD_TENSOR_ITER, aten, hrow, Bool.false_and]
    congr 1
  have hp2p : maybe_enable_p2p_access (view_2x3 i a s0 s1).device (view_1x3 j b t0 t1).device =
      false := by
    simp [maybe_enable_p2p_access]
  rw [hiter, hp2p, requires_temporaries_cross_device i j a b s0 s1 t0 t1 hab]
  rfl

/-- C15 as stated fails on one device: a 2×3 float destination with strides (3, 2) and a 1×3
float source, both on XPU 0. The destination is not contiguous and its inner stride is not 1,
yet `copy_requires_temporaries` is false, `copy_` launches the elementwise kernel on the two
operands themselves and issues no tensor-library call of the staging branch. With strides
(6, 2) it calls the reorder on the two operands, again without a staging call. -/
theorem C15_counterexample :
    (view_2x3 0 0 3 2).is_row_major = false ∧
    copy_requires_temporaries (BUILD_TENSOR_ITER aten (view_2x3 0 0 3 2) (view_1x3 1 0 3 1))
      (maybe_enable_p2p_access (view_2x3 0 0 3 2).device (view_1x3 1 0 3 1).device) =
      .ok false ∧
    copy_ aten 2 (view_2x3 0 0 3 2) (view_1x3 1 0 3 1) false =
      (view_2x3 0 0 3 2,
        Run.done [Op.device_guard (xpu 0),
          Op.dpcpp_kernel_for_tensor_iter .ALL_TYPES_AND_COMPLEX_AND3 .identity
            ⟨view_2x3 0 0 3 2, view_1x3 1 0 3 1, 6, false⟩]) ∧
    (∀ op ∈ (copy_ aten 2 (view_2x3 0 0 3 2) (view_1x3 1 0 3 1) false).2.ops,
      op.is_staging = false) ∧
    copy_ aten 2 (view_2x3 0 0 6 2) (view_1x3 1 0 3 1) false =
      (view_2x3 0 0 6 2, Run.done [Op.reorder_copy (view_1x3 1 0 3 1) (view_2x3 0 0 6 2)]) := by
  refine ⟨by decide, by rfl, by decide, by decide, by decide⟩

/-- C15 (amended): for a 2×3 float destination on an XPU whose strides are not the dense
(3, 1) and a 1×3 float source on an XPU, under the reference collaborators: on one device
`copy_requires_temporaries` is false and `copy_` creates no temporary, calling the reorder on
the two operands when both pass the layout check and launching the elementwise kernel on them
otherwise; on two different devices `copy_requires_temporaries` is true and `copy_` goes
through the staging fallback: it creates a dense destination temporary, expands the source and
makes it dense, copies the 24 bytes between the temporaries asynchronously under the event
handshake, and copies the destination temporary back by the reorder or the kernel. When the
cells of the destination are distinct and, on one device, the kernel is the strategy, every
destination cell (r, c) ends up equal to source element (0, c). -/
theorem C15_staging_only_across_devices (i j : Nat) (a b s0 s1 t0 t1 : Int) (depth : Nat)
    (nb : Bool) (hij : i ≠ j) (hnc : ¬ (s1 = 1 ∧ s0 = 3)) :
    (a = b →
      (∀ p2p_enabled, copy_requires_temporaries
        (BUILD_TENSOR_ITER aten (view_2x3 i a s0 s1) (view_1x3 j b t0 t1)) p2p_enabled =
          .ok false) ∧
      copy_ aten depth (view_2x3 i a s0 s1) (view_1x3 j b t0 t1) nb =
        (view_2x3 i a s0 s1,
          Run.done (if (onednn_strides_check (view_2x3 i a s0 s1) &&
              onednn_strides_check (view_1x3 j b t0 t1)) = true then
            [Op.reorder_copy (view_1x3 j b t0 t1) (view_2x3 i a s0 s1)]
          else
            [Op.device_guard (xpu a),
              Op.dpcpp_kernel_for_tensor_iter .ALL_TYPES_AND_COMPLEX_AND3 .identity
                ⟨view_2x3 i a s0 s1, view_1x3 j b t0 t1, 6, false⟩]))) ∧
    (a ≠ b →
      copy_requires_temporaries
        (BUILD_TENSOR_ITER aten (view_2x3 i a s0 s1) (view_1x3 j b t0 t1))
        (maybe_enable_p2p_access (view_2x3 i a s0 s1).device (view_1x3 j b t0 t1).device) =
        .ok true ∧
      copy_ aten (depth + 1) (view_2x3 i a s0 s1) (view_1x3 j b t0 t1) nb =
        (view_2x3 i a s0 s1,
          Run.done ([Op.empty_like (view_2x3 i a s0 s1) .kFloat
              (aten.empty_like (view_2x3 i a s0 s1) .kFloat),
            Op.to_dtype (view_1x3 j b t0 t1) .kFloat (view_1x3 j b t0 t1),
            Op.expand_as (view_1x3 j b t0 t1) (view_2x3 i a s0 s1)
              (aten.expand_as (view_1x3 j b t0 t1) (view_2x3 i a s0 s1)),
            Op.contiguous (aten.expand_as (view_1x3 j b t0 t1) (view_2x3 i a s0 s1))
              (new_dense 4 (aten.expand_as (view_1x3 j b t0 t1) (view_2x3 i a s0 s1)) .kFloat),
            Op.device_guard (xpu b),
            Op.record .dst_ready (getCurrentDPCPPStream a),
            Op.block .dst_ready (getCurrentDPCPPStream b),
            Op.dpcppMemcpyAsync (aten.empty_like (view_2x3 i a s0 s1) .kFloat).data_ptr
              (new_dense 4 (aten.expand_as (view_1x3 j b t0 t1) (view_2x3 i a s0 s1))
                .kFloat).data_ptr 24 dpcppMemcpyKind.DeviceToDevice,
            Op.record .src_ready (getCurrentDPCPPStream b),
            Op.block .src_ready (getCurrentDPCPPStream a)] ++
            (if onednn_strides_check (view_2x3 i a s0 s1) = true then
              [Op.reorder_copy (aten.empty_like (view_2x3 i a s0 s1) .kFloat)
                (view_2x3 i a s0 s1)]
            else
              [Op.device_guard (xpu a),
                Op.dpcpp_kernel_for_tensor_iter .ALL_TYPES_AND_COMPLEX_AND3 .identity
                  ⟨view_2x3 i a s0 s1, aten.empty_like (view_2x3 i a s0 s1) .kFloat, 6,
                    false⟩])))) ∧
    ((∀ x ∈ all_indices [2, 3], ∀ y ∈ all_indices [2, 3],
        (view_2x3 i a s0 s1).offset x = (view_2x3 i a s0 s1).offset y → x = y) →
      (a = b → (onednn_strides_check (view_2x3 i a s0 s1) &&
        onednn_strides_check (view_1x3 j b t0 t1)) = false) →
      ∀ memory : Memory, ∃ final,
        exec_ops (copy_ aten (depth + 1) (view_2x3 i a s0 s1) (view_1x3 j b t0 t1) nb).2.ops
          memory = some final ∧
        ∀ r c : Int, 0 ≤ r → r < 2 → 0 ≤ c → c < 3 →
          (view_2x3 i a s0 s1).read final [r, c] =
            (view_1x3 j b t0 t1).read memory [0, c]) := by
  refine ⟨?_, ?_, ?_⟩
  · rintro rfl
    exact ⟨requires_temporaries_same_device i j a s0 s1 t0 t1,
      copy_same_device_2x3 depth i j a s0 s1 t0 t1 nb hij hnc⟩
  · intro hab
    exact ⟨requires_temporaries_cross_device_built i j a b s0 s1 t0 t1 hab hnc,
      copy_cross_device_2x3 depth i j a b s0 s1 t0 t1 nb hij hab hnc⟩
  · intro hcells hcheck memory
    by_cases hab : a = b
    · subst hab
      exact values_same_device_2x3 (depth + 1) i j a s0 s1 t0 t1 nb hij hnc hcells
        (hcheck rfl) memory
    · exact values_cross_device_2x3 depth i j a b s0 s1 t0 t1 nb hij hab hnc hcells memory

theorem C15_staging_only_across_devices_witness :
    (0 : Nat) ≠ 1 ∧ ¬ ((2 : Int) = 1 ∧ (3 : Int) = 3) ∧
    copy_requires_temporaries
      (BUILD_TENSOR_ITER aten (view_2x3 0 0 3 2) (view_1x3 1 1 3 1))
      (maybe_enable_p2p_access (view_2x3 0 0 3 2).device (view_1x3 1 1 3 1).device) =
      .ok true ∧
    (∃ final,
      exec_ops (copy_ aten 1 (view_2x3 0 0 3 2) (view_1x3 1 1 3 1) false).2.ops
        sample_memory = some final ∧
      ∀ r c : Int, 0 ≤ r → r < 2 → 0 ≤ c → c < 3 →
        (view_2x3 0 0 3 2).read final [r, c] = (view_1x3 1 1 3 1).read sample_memory [0, c]) ∧
    (∃ final,
      exec_ops (copy_ aten 1 (view_2x3 0 0 3 2) (view_1x3 1 0 3 1) false).2.ops
        sample_memory = some final ∧
      ∀ r c : Int, 0 ≤ r → r < 2 → 0 ≤ c → c < 3 →
        (view_2x3 0 0 3 2).read final [r, c] = (view_1x3 1 0 3 1).read sample_memory [0, c]) ∧
    (view_1x3 1 1 3 1).read sample_memory [0, 2] = (9, 0) :=
  ⟨by decide, by decide,
    ((C15_staging_only_across_devices 0 1 0 1 3 2 3 1 0 false (by decide) (by decide)).2.1
      (by decide)).1,
    (C15_staging_only_across_devices 0 1 0 1 3 2 3 1 0 false (by decide) (by decide)).2.2
      (by decide) (fun h => absurd h (by decide)) sample_memory,
    (C15_staging_only_across_devices 0 1 0 0 3 2 3 1 0 false (by decide) (by decide)).2.2
      (by decide) (fun _ => by decide) sample_memory,
    by decide⟩

/-! ### The running minimum of the layout check -/

theorem min_stride_check_eq_unbounded (strides padded_dims : List Int) (n : Nat)
    (perm : List Nat)
    (hfit : ∀ d ∈ perm, -2 ^ 31 ≤ strides.getD d 0 * padded_dims.getD d 0 ∧
      strides.getD d 0 * padded_dims.getD d 0 < 2 ^ 31) :
    ∀ min_stride : Int,
      min_stride_check strides padded_dims (List.replicate n 1) 1 min_stride perm =
        min_stride_check_unbounded strides padded_dims (List.replicate n 1) 1 min_stride
          perm := by
  induction perm with
  | nil => intro m; rfl
  | cons d rest ih =>
    intro m
    have hrest := ih (fun x hx => hfit x (List.mem_cons_of_mem _ hx))
    simp only [min_stride_check, min_stride_check_unbounded]
    by_cases h0 : strides.getD d 0 = 0
    · simp only [h0, if_true]
      exact hrest m
    · simp only [h0, if_false]
      by_cases hlt : strides.getD d 0 < m
      · simp only [hlt, if_true]
      · simp only [hlt, if_false]
        rw [getD_replicate_one, Int.tdiv_one, one_mul,
          to_int_to_int64_of_fits _ (hfit d (List.mem_cons_self _ _))]
        exact hrest _

/-- When every product stride × size of a view fits the 32-bit `int` of `min_stride`, the
result of `onednn_strides_check` is the result of the check with unbounded integers. -/
theorem onednn_strides_check_eq_unbounded_of_int_products (t : Tensor)
    (hfit : ∀ d ∈ t.geometry, -2 ^ 31 ≤ d.2 * d.1 ∧ d.2 * d.1 < 2 ^ 31) :
    onednn_strides_check t = onednn_strides_check_unbounded t := by
  have hfitD : ∀ d : Nat, -2 ^ 31 ≤ (t.geometry.map Prod.snd).getD d 0 *
        (t.geometry.map Prod.fst).getD d 0 ∧
      (t.geometry.map Prod.snd).getD d 0 * (t.geometry.map Prod.fst).getD d 0 < 2 ^ 31 := by
    intro d
    by_cases hd : d < t.geometry.length
    · have hmem : t.geometry[d] ∈ t.geometry := List.getElem_mem hd
      have := hfit _ hmem
      simpa [List.getD_eq_getElem?_getD, List.getElem?_eq_getElem, hd] using this
    · have hd' : t.geometry.length ≤ d := Nat.le_of_not_lt hd
      simp [List.getD_eq_getElem?_getD, List.getElem?_eq_none, hd']
  unfold onednn_strides_check onednn_strides_check_unbounded
  simp only [get_onednn_dims, get_onednn_strides, Tensor.sizes, Tensor.strides]
  rw [min_stride_check_eq_unbounded _ _ _ _ (fun d _ => hfitD d)]

/-- C23, at the failing input: for the byte view of sizes 2³²×2 with strides (1, 3) every
size, stride and product stride × size fits a signed 64-bit integer; the check carried out
with unbounded integers rejects the view, the stride 3 of the second dimension being below the
running minimum 2³² left by the first; `onednn_strides_check` accepts it, because the product
2³² is stored in the 32-bit `int` `min_stride`, where it wraps to 0. -/
theorem C23_min_stride_wraps :
    (∀ d ∈ sample_long_rows.geometry,
      fits_int64 d.1 ∧ fits_int64 d.2 ∧ fits_int64 (d.2 * d.1)) ∧
    (∃ d ∈ sample_long_rows.geometry, 2 ^ 31 ≤ d.2 * d.1) ∧
    onednn_strides_check_unbounded sample_long_rows = false ∧
    onednn_strides_check sample_long_rows = true ∧
    to_int (to_int64 (1 * 1 * (4294967296 : Int).tdiv 1)) = 0 := by
  refine ⟨by decide, by decide, by decide, by decide, by decide⟩

/-! ### Dense row-major views pass the layout check -/

theorem to_int_to_int64_le (x : Int) (h : 0 ≤ x) : to_int (to_int64 x) ≤ x := by
  unfold to_int to_int64
  norm_num
  omega

/-- Insertion into a list sorted by a strict order keeps it sorted, when the element is
comparable with every element of the list. -/
theorem pairwise_orderedInsert_of_strict {α : Type} (r : α → α → Prop) [DecidableRel r]
    (htrans : ∀ a b c, r a b → r b c → r a c) (a : α) :
    ∀ l : List α, (∀ b ∈ l, r a b ∨ r b a) → l.Pairwise r →
      (l.orderedInsert r a).Pairwise r := by
  intro l
  induction l with
  | nil => intro _ _; simp
  | cons b rest ih =>
    intro hcmp hsorted
    rw [List.orderedInsert]
    have hb := List.pairwise_cons.mp hsorted
    by_cases hab : r a b
    · rw [if_pos hab]
      refine List.pairwise_cons.mpr ⟨?_, hsorted⟩
      intro x hx
      rcases List.mem_cons.mp hx with rfl | hx
      · exact hab
      · exact htrans _ _ _ hab (hb.1 x hx)
    · rw [if_neg hab]
      have hba : r b a := (hcmp b (List.mem_cons_self _ _)).resolve_left hab
      refine List.pairwise_cons.mpr
        ⟨?_, ih (fun x hx => hcmp x (List.mem_cons_of_mem _ hx)) hb.2⟩
      intro x hx
      rcases (List.mem_orderedInsert r).mp hx with rfl | hx
      · exact hba
      · exact hb.1 x hx

theorem pairwise_insertionSort_of_strict {α : Type} (r : α → α → Prop) [DecidableRel r]
    (htrans : ∀ a b c, r a b → r b c → r a c) (htri : ∀ a b, a ≠ b → r a b ∨ r b a) :
    ∀ l : List α, l.Nodup → (l.insertionSort r).Pairwise r := by
  intro l
  induction l with
  | nil => intro _; simp
  | cons a rest ih =>
    intro hnodup
    have hn := List.nodup_cons.mp hnodup
    rw [List.insertionSort]
    apply pairwise_orderedInsert_of_strict r htrans a _ _ (ih hn.2)
    intro b hb
    have hb' : b ∈ rest := (List.perm_insertionSort r rest).mem_iff.mp hb
    exact htri a b (fun h => hn.1 (h ▸ hb'))

theorem early_exit_eq_false (geometry : List (Int × Int))
    (h : ∀ d ∈ geometry, d.1 ≠ 0 ∧ d.2 ≠ DNNL_RUNTIME_DIM_VAL) :
    early_exit (geometry.map Prod.fst) (geometry.map Prod.snd) = false := by
  induction geometry with
  | nil => rfl
  | cons d rest ih =>
    simp only [List.map_cons, early_exit, (h d (List.mem_cons_self _ _)).1,
      (h d (List.mem_cons_self _ _)).2, if_false]
    exact ih (fun x hx => h x (List.mem_cons_of_mem _ hx))

theorem idx_sorter_trans (strides padded_dims : List Int) (a b c : Nat)
    (hab : idx_sorter strides padded_dims a b = true)
    (hbc : idx_sorter strides padded_dims b c = true) :
    idx_sorter strides padded_dims a c = true := by
  rw [idx_sorter_iff_dim_before] at hab hbc ⊢
  unfold dim_before at hab hbc ⊢
  simp only at hab hbc ⊢
  omega

theorem idx_sorter_total (strides padded_dims : List Int) (a b : Nat) (hne : a ≠ b) :
    idx_sorter strides padded_dims a b = true ∨ idx_sorter strides padded_dims b a = true := by
  rw [idx_sorter_iff_dim_before, idx_sorter_iff_dim_before]
  unfold dim_before
  simp only
  omega

/-- The second loop accepts a list of dimensions with positive strides and sizes in which
every dimension fills, with its stride × size, at most the stride of each later one: the
`int` stored in `min_stride` is never above the product. -/
theorem min_stride_check_of_nested (strides padded_dims : List Int) (n : Nat) :
    ∀ perm : List Nat,
      perm.Pairwise (fun a b => strides.getD a 0 * padded_dims.getD a 0 ≤ strides.getD b 0) →
      (∀ d ∈ perm, 1 ≤ strides.getD d 0 ∧ 1 ≤ padded_dims.getD d 0) →
      ∀ min_stride : Int, (∀ d ∈ perm, min_stride ≤ strides.getD d 0) →
        min_stride_check strides padded_dims (List.replicate n 1) 1 min_stride perm = true := by
  intro perm
  induction perm with
  | nil => intro _ _ _ _; rfl
  | cons d rest ih =>
    intro hpair hpos m hmin
    have hd := hpos d (List.mem_cons_self _ _)
    have hm := hmin d (List.mem_cons_self _ _)
    have hp := List.pairwise_cons.mp hpair
    have h0 : ¬ strides.getD d 0 = 0 := by omega
    have hlt : ¬ strides.getD d 0 < m := by omega
    simp only [min_stride_check, h0, hlt, if_false]
    rw [getD_replicate_one, Int.tdiv_one, one_mul]
    apply ih hp.2 (fun x hx => hpos x (List.mem_cons_of_mem _ hx))
    intro x hx
    have hprod : 0 ≤ strides.getD d 0 * padded_dims.getD d 0 :=
      Int.mul_nonneg (by omega) (by omega)
    exact le_trans (to_int_to_int64_le _ hprod) (hp.1 x hx)

/-- Row-major strides are positive. -/
theorem row_major_stride_pos (stride size : Nat → Int) (n : Nat)
    (hsize : ∀ i, i < n → 1 ≤ size i) (hlast : stride (n - 1) = 1)
    (hstep : ∀ i, i + 1 < n → stride i = stride (i + 1) * size (i + 1)) :
    ∀ k i, i + k + 1 = n → 1 ≤ stride i := by
  intro k
  induction k with
  | zero =>
    intro i hi
    have : i = n - 1 := by omega
    rw [this, hlast]
  | succ k ih =>
    intro i hi
    have h1 := ih (i + 1) (by omega)
    have h2 := hsize (i + 1) (by omega)
    rw [hstep i (by omega)]
    nlinarith

/-- In a row-major layout a dimension fills, with its stride × size, at most the stride of
every dimension outside it. -/
theorem row_major_stride_nested (stride size : Nat → Int) (n : Nat)
    (hsize : ∀ i, i < n → 1 ≤ size i) (hlast : stride (n - 1) = 1)
    (hstep : ∀ i, i + 1 < n → stride i = stride (i + 1) * size (i + 1)) (j : Nat) (hj : j < n) :
    ∀ k i, i + k + 1 = j → stride j * size j ≤ stride i := by
  intro k
  induction k with
  | zero =>
    intro i hi
    have : i + 1 = j := by omega
    rw [hstep i (by omega), this]
  | succ k ih =>
    intro i hi
    have h1 := ih (i + 1) (by omega)
    have h2 := hsize (i + 1) (by omega)
    have h3 := row_major_stride_pos stride size n hsize hlast hstep (n - (i + 1) - 1) (i + 1)
      (by omega)
    rw [hstep i (by omega)]
    nlinarith

/-- In a row-major layout, a dimension that `idx_sorter` orders before another fills at most
the stride of the other. -/
theorem row_major_sorted_nested (stride size : Nat → Int) (n : Nat)
    (hsize : ∀ i, i < n → 1 ≤ size i) (hlast : stride (n - 1) = 1)
    (hstep : ∀ i, i + 1 < n → stride i = stride (i + 1) * size (i + 1)) (a b : Nat)
    (ha : a < n) (hb : b < n) (hab : dim_before (a, (size a, stride a)) (b, (size b, stride b))) :
    stride a * size a ≤ stride b := by
  unfold dim_before at hab
  simp only at hab
  rcases Nat.lt_trichotomy a b with hlt | heq | hgt
  · have h1 := row_major_stride_nested stride size n hsize hlast hstep b hb (b - a - 1) a
      (by omega)
    have h2 := row_major_stride_pos stride size n hsize hlast hstep (n - b - 1) b (by omega)
    have h3 := hsize b hb
    have h4 := hsize a ha
    have h5 : stride b ≤ stride b * size b := by nlinarith
    have h6 : stride a = stride b := by omega
    have h7 : size b ≤ 1 := by
      by_contra hc
      have : 2 ≤ size b := by omega
      nlinarith
    have h8 : size a = 1 := by omega
    rw [h8, h6]
    omega
  · subst heq
    omega
  · exact row_major_stride_nested stride size n hsize hlast hstep a ha (a - b - 1) b (by omega)

/-- C22. Every densely packed row-major view passes the layout check: for a view of rank at
least 1 whose sizes are all at least 1 (dimensions of size 1 included), whose innermost
stride is 1 and whose every other stride is the stride × size of the next dimension,
`onednn_strides_check` returns true. -/
theorem C22_row_major_passes_check (t : Tensor) (hrank : 1 ≤ t.dim)
    (hsize : ∀ i, i < t.dim → 1 ≤ t.sizes.getD i 0)
    (hlast : t.strides.getD (t.dim - 1) 0 = 1)
    (hstep : ∀ i, i < t.dim - 1 →
      t.strides.getD i 0 = t.strides.getD (i + 1) 0 * t.sizes.getD (i + 1) 0) :
    onednn_strides_check t = true := by
  have hdim : t.dim = t.geometry.length := by simp [Tensor.dim, Tensor.sizes]
  have hstep' : ∀ i, i + 1 < t.dim →
      t.strides.getD i 0 = t.strides.getD (i + 1) 0 * t.sizes.getD (i + 1) 0 :=
    fun i hi => hstep i (by omega)
  have hpos : ∀ i, i < t.dim → 1 ≤ t.strides.getD i 0 := fun i hi =>
    row_major_stride_pos (fun i => t.strides.getD i 0) (fun i => t.sizes.getD i 0) t.dim hsize
      hlast hstep' (t.dim - i - 1) i (by omega)
  have hplain : ∀ d ∈ t.geometry, d.1 ≠ 0 ∧ d.2 ≠ DNNL_RUNTIME_DIM_VAL := by
    intro d hd
    obtain ⟨i, hi, rfl⟩ := List.mem_iff_getElem.mp hd
    have h1 := hsize i (by omega)
    have h2 := hpos i (by omega)
    simp only [Tensor.sizes, Tensor.strides, List.getD_eq_getElem?_getD, List.getElem?_map,
      List.getElem?_eq_getElem hi, Option.map_some', Option.getD_some] at h1 h2
    constructor
    · omega
    · unfold DNNL_RUNTIME_DIM_VAL
      norm_num
      omega
  have hlen : t.geometry.length ≠ 0 := by omega
  have hne : t.geometry ≠ [] := fun h => hlen (by simp [h])
  unfold onednn_strides_check
  simp only [get_onednn_dims, get_onednn_strides, Tensor.sizes, Tensor.strides,
    List.length_map, List.isEmpty_eq_true, List.map_eq_nil_iff, beq_iff_eq, Bool.or_eq_true,
    hne, hlen, or_self, if_false, early_exit_eq_false t.geometry hplain, Bool.false_eq_true]
  have hmem : ∀ d ∈ List.insertionSort
      (fun a b => idx_sorter (t.geometry.map Prod.snd) (t.geometry.map Prod.fst) a b = true)
      (List.range t.geometry.length), d < t.dim := by
    intro d hd
    have := (List.perm_insertionSort _ _).mem_iff.mp hd
    rw [hdim]
    exact List.mem_range.mp this
  apply min_stride_check_of_nested
  · apply List.Pairwise.imp_of_mem _
      (pairwise_insertionSort_of_strict _ (idx_sorter_trans _ _) (idx_sorter_total _ _) _
        (List.nodup_range _))
    intro a b ha hb hab
    exact row_major_sorted_nested (fun i => t.strides.getD i 0) (fun i => t.sizes.getD i 0)
      t.dim hsize hlast hstep' a b (hmem a ha) (hmem b hb)
      ((idx_sorter_iff_dim_before _ _ a b).mp hab)
  · exact fun d hd => ⟨hpos d (hmem d hd), hsize d (hmem d hd)⟩
  · exact fun d hd => hpos d (hmem d hd)

/-- C22, at concrete inputs: the dense 2×1×3 float tensor, with strides (3, 3, 1), and the
dense 2×2³¹ byte tensor, whose inner product stride × size does not fit a 32-bit `int`. -/
theorem C22_row_major_passes_check_witness :
    1 ≤ sample_dense_rows.dim ∧
    sample_dense_rows.sizes = [2, 1, 3] ∧
    sample_dense_rows.strides = [3, 3, 1] ∧
    onednn_strides_check sample_dense_rows = true ∧
    sample_dense_wide.strides = [2147483648, 1] ∧
    onednn_strides_check sample_dense_wide = true :=
  ⟨by decide, by decide, by decide,
    C22_row_major_passes_check sample_dense_rows (by decide) (by decide) (by decide)
      (by decide),
    by decide,
    C22_row_major_passes_check sample_dense_wide (by decide) (by decide) (by decide)
      (by decide)⟩

/-! ### The assertions of the staging branch -/

theorem dense_strides_length : ∀ sizes : List Int, (dense_strides sizes).length = sizes.length
  | [] => rfl
  | [_] => rfl
  | x :: size :: sizes => by
    have ih := dense_strides_length (size :: sizes)
    have e : dense_strides (x :: size :: sizes) =
        (match (size :: sizes : List Int), dense_strides (size :: sizes) with
          | s :: _, stride :: strides => (stride * max s 1) :: stride :: strides
          | _, _ => [1]) := rfl
    rw [e]
    cases h : dense_strides (size :: sizes) with
    | nil => rw [h] at ih; simp at ih
    | cons stride strides =>
      rw [h] at ih
      simp only [List.length_cons] at ih ⊢
      omega

theorem dense_geometry_sizes (sizes : List Int) :
    (dense_geometry sizes).map Prod.fst = sizes := by
  unfold dense_geometry
  rw [List.map_fst_zip]
  rw [dense_strides_length]

theorem new_dense_sizes (tag : Nat) (t : Tensor) (dtype : ScalarType) :
    (new_dense tag t dtype).sizes = t.sizes := by
  show (dense_geometry t.sizes).map Prod.fst = t.sizes
  exact dense_geometry_sizes _

theorem expand_geometry_sizes (geometry : List (Int × Int)) (target : List Int) :
    (expand_geometry geometry target).map Prod.fst = target := by
  have key : ∀ (a : List Int) (b : List (Int × Int)),
      ((List.zipWithAll
        (fun (size : Option Int) (own : Option (Int × Int)) =>
          match size, own with
          | some size, some (own_size, own_stride) =>
            if own_size = size then some (size, own_stride) else some (size, 0)
          | some size, none => some (size, 0)
          | none, _ => none) a b).filterMap id).map Prod.fst = a := by
    intro a
    induction a with
    | nil =>
      intro b
      induction b with
      | nil => rfl
      | cons y rest ihb => simp [List.zipWithAll]
    | cons x rest ih =>
      intro b
      cases b with
      | nil =>
        have hmap : ∀ l : List Int,
            (List.filterMap (fun a => some ((a, 0) : Int × Int)) l).map Prod.fst = l := by
          intro l
          induction l with
          | nil => rfl
          | cons z zs ihz => simp [List.filterMap_cons, ihz]
        simp only [List.zipWithAll]
        simp [List.filterMap_cons, List.filterMap_map, Function.comp_def, hmap]
      | cons y restb =>
        have := ih restb
        obtain ⟨ys, yt⟩ := y
        simp only [List.zipWithAll, List.filterMap_cons]
        by_cases h : ys = x
        · simp [h, this]
        · simp [h, this]
  unfold expand_geometry
  rw [List.map_reverse, key, List.reverse_reverse]

theorem rebind_quantized_device (env : Env)
    (hquantized : ∀ t mfmt, (env.empty_affine_quantized t mfmt).device = t.device)
    (a b : Tensor) : (rebind_quantized env a b).1.device = a.device := by
  unfold rebind_quantized
  split
  · exact hquantized _ _
  · rfl

theorem copy_body_device (env : Env) (copy : Tensor → Tensor → Bool → Tensor × Run)
    (hquantized : ∀ t mfmt, (env.empty_affine_quantized t mfmt).device = t.device)
    (self src : Tensor) (non_blocking : Bool) :
    (copy_body env copy self src non_blocking).1.device = self.device := by
  unfold copy_body
  split
  · rfl
  · simp only
    split
    · exact rebind_quantized_device env hquantized _ _
    · split <;> exact rebind_quantized_device env hquantized _ _

/-- The handle a `copy_` leaves is on the device of the handle it was called on. -/
theorem copy_at_depth_device (env : Env)
    (hquantized : ∀ t mfmt, (env.empty_affine_quantized t mfmt).device = t.device)
    (depth : Nat) (self src : Tensor) (non_blocking : Bool) :
    (copy_at_depth env depth self src non_blocking).1.device = self.device := by
  cases depth with
  | zero => rfl
  | succ depth =>
    simp only [copy_at_depth]
    split
    · exact copy_body_device env _ hquantized _ _ _
    · rfl

/-- The temporaries of the staging branch have the sizes of the destination; both have the
dtype of the destination when it is on an XPU and the dtype of the source otherwise; the
destination temporary is on the device of the destination. -/
theorem staging_temporaries_agree (env : Env) (iter : TensorIterator)
    (hempty_like : ∀ t dtype, (env.empty_like t dtype).sizes = t.sizes ∧
      (env.empty_like t dtype).dtype = dtype ∧ (env.empty_like t dtype).device = t.device)
    (hto : ∀ t dtype, (env.to_dtype t dtype).dtype = dtype)
    (hexpand : ∀ t other, (env.expand_as t other).sizes = other.sizes ∧
      (env.expand_as t other).dtype = t.dtype)
    (hcontiguous : ∀ t, (env.contiguous t).sizes = t.sizes ∧
      (env.contiguous t).dtype = t.dtype)
    (hinfer : ∀ sizes strides target,
      (env.inferExpandGeometry sizes strides target).1 = target ∧
      (env.inferExpandGeometry sizes strides target).2.length = target.length)
    (dst_contig src_contig : Tensor) (ops : List Op)
    (h : staging_temporaries env iter = .ok (dst_contig, src_contig, ops)) :
    dst_contig.sizes = (iter.tensor 0).sizes ∧ src_contig.sizes = (iter.tensor 0).sizes ∧
    dst_contig.dtype = src_contig.dtype ∧ dst_contig.device = (iter.tensor 0).device := by
  unfold staging_temporaries at h
  simp only at h
  split at h
  · -- destination on an XPU
    have hd : (if env.is_contiguous (iter.tensor 0) .Contiguous = true then iter.tensor 0
        else env.empty_like (iter.tensor 0) (iter.tensor 0).dtype).sizes = (iter.tensor 0).sizes ∧
        (if env.is_contiguous (iter.tensor 0) .Contiguous = true then iter.tensor 0
        else env.empty_like (iter.tensor 0) (iter.tensor 0).dtype).dtype = (iter.tensor 0).dtype ∧
        (if env.is_contiguous (iter.tensor 0) .Contiguous = true then iter.tensor 0
        else env.empty_like (iter.tensor 0) (iter.tensor 0).dtype).device =
          (iter.tensor 0).device := by
      split
      · exact ⟨rfl, rfl, rfl⟩
      · exact hempty_like _ _
    split at h
    · -- quantized destination
      split at h
      · cases h
      · rename_i expanded hexp
        simp only [Except.ok.injEq, Prod.mk.injEq] at h
        obtain ⟨h1, h2, -⟩ := h
        subst h1 h2
        unfold expand_as_quantized_dpcpp at hexp
        simp only at hexp
        split at hexp
        · simp only [Except.ok.injEq] at hexp
          subst hexp
          have hi := hinfer (env.to_dtype (iter.tensor 1) (iter.dtype 0)).sizes
            (env.to_dtype (iter.tensor 1) (iter.dtype 0)).strides (iter.tensor 0).sizes
          refine ⟨hd.1, ?_, ?_, hd.2.2⟩
          · rw [(hcontiguous _).1]
            show List.map Prod.fst (List.zip _ _) = _
            rw [List.map_fst_zip, hi.1]
            rw [hi.1, hi.2]
          · rw [(hcontiguous _).2, hd.2.1]
            simp only [as_strided_quantized_dpcpp]
            exact (hto _ _).symm
        · cases hexp
    · simp only [Except.ok.injEq, Prod.mk.injEq] at h
      obtain ⟨h1, h2, -⟩ := h
      subst h1 h2
      refine ⟨hd.1, ?_, ?_, hd.2.2⟩
      · rw [(hcontiguous _).1, (hexpand _ _).1]
      · rw [(hcontiguous _).2, (hexpand _ _).2, hto, hd.2.1]
        rfl
  · -- destination off the XPU
    simp only [Except.ok.injEq, Prod.mk.injEq] at h
    obtain ⟨h1, h2, -⟩ := h
    subst h1 h2
    refine ⟨?_, ?_, ?_, ?_⟩
    · split
      · rfl
      · exact (hempty_like _ _).1
    · rw [(hcontiguous _).1, (hexpand _ _).1]
    · rw [(hcontiguous _).2, (hexpand _ _).2]
      split
      · rename_i hc
        simp only [Bool.and_eq_true, decide_eq_true_eq] at hc
        exact hc.2
      · exact (hempty_like _ _).2.1
    · split
      · rfl
      · exact (hempty_like _ _).2.2

theorem aten_empty_like_contract (t : Tensor) (dtype : ScalarType) :
    (aten.empty_like t dtype).sizes = t.sizes ∧ (aten.empty_like t dtype).dtype = dtype ∧
      (aten.empty_like t dtype).device = t.device :=
  ⟨new_dense_sizes 1 t dtype, rfl, rfl⟩

theorem aten_to_dtype_contract (t : Tensor) (dtype : ScalarType) :
    (aten.to_dtype t dtype).dtype = dtype := by
  show (if t.dtype = dtype then t else new_dense 2 t dtype).dtype = dtype
  split
  · assumption
  · rfl

theorem aten_expand_as_contract (t other : Tensor) :
    (aten.expand_as t other).sizes = other.sizes ∧ (aten.expand_as t other).dtype = t.dtype :=
  ⟨expand_geometry_sizes t.geometry other.sizes, rfl⟩

theorem aten_contiguous_contract (t : Tensor) :
    (aten.contiguous t).sizes = t.sizes ∧ (aten.contiguous t).dtype = t.dtype := by
  show (if t.is_row_major = true then t else new_dense 4 t t.dtype).sizes = t.sizes ∧
    (if t.is_row_major = true then t else new_dense 4 t t.dtype).dtype = t.dtype
  split
  · exact ⟨rfl, rfl⟩
  · exact ⟨new_dense_sizes 4 t t.dtype, rfl⟩

theorem aten_inferExpandGeometry_contract (sizes strides target : List Int) :
    (aten.inferExpandGeometry sizes strides target).1 = target ∧
      (aten.inferExpandGeometry sizes strides target).2.length = target.length := by
  have h := expand_geometry_sizes (sizes.zip strides) target
  refine ⟨h, ?_⟩
  show ((expand_geometry (sizes.zip strides) target).map Prod.snd).length = target.length
  rw [List.length_map, ← List.length_map (expand_geometry (sizes.zip strides) target) Prod.fst, h]

theorem aten_empty_affine_quantized_contract (t : Tensor) (mfmt : MemoryFormat) :
    (aten.empty_affine_quantized t mfmt).device = t.device := rfl

/-- C21. With a tensor library that keeps its contracts (`empty_like` returns a tensor of the
sizes and device of its argument and of the dtype asked for, `to(dtype)` a tensor of that
dtype, `expand_as` a tensor of the sizes of its target and the dtype of its operand,
`contiguous` a tensor of the same sizes and dtype, `inferExpandGeometry` the target sizes with
as many strides, `_empty_affine_quantized` a tensor on the device of the options it is
given), for every descriptor: the temporaries of the staging branch are created unless the
quantized expansion refuses the ranks; the destination temporary and the source temporary
have equal sizes and equal dtype; the destination temporary, as the copy between the
temporaries leaves its handle, is on the device of the destination; hence none of the three
assertions fails, and the run of the branch is the calls that create the temporaries, the
copy between them, and the copy back when the destination temporary is not the destination
itself. -/
theorem C21_staging_assertions_hold (env : Env) (iter : TensorIterator) (depth : Nat)
    (non_blocking : Bool)
    (hempty_like : ∀ t dtype, (env.empty_like t dtype).sizes = t.sizes ∧
      (env.empty_like t dtype).dtype = dtype ∧ (env.empty_like t dtype).device = t.device)
    (hto : ∀ t dtype, (env.to_dtype t dtype).dtype = dtype)
    (hexpand : ∀ t other, (env.expand_as t other).sizes = other.sizes ∧
      (env.expand_as t other).dtype = t.dtype)
    (hcontiguous : ∀ t, (env.contiguous t).sizes = t.sizes ∧
      (env.contiguous t).dtype = t.dtype)
    (hinfer : ∀ sizes strides target,
      (env.inferExpandGeometry sizes strides target).1 = target ∧
      (env.inferExpandGeometry sizes strides target).2.length = target.length)
    (hquantized : ∀ t mfmt, (env.empty_affine_quantized t mfmt).device = t.device) :
    (∀ ops e, staging_temporaries env iter = .error (ops, e) → e = Err.expand_check) ∧
    (∀ dst_contig src_contig ops,
      staging_temporaries env iter = .ok (dst_contig, src_contig, ops) →
        dst_contig.sizes = src_contig.sizes ∧
        dst_contig.dtype = src_contig.dtype ∧
        (copy_at_depth env depth dst_contig src_contig non_blocking).1.device =
          (iter.tensor 0).device ∧
        copy_via_temporaries env (copy_at_depth env depth) iter non_blocking =
          ((Run.done ops).seq (copy_at_depth env depth dst_contig src_contig non_blocking).2).seq
            (if (copy_at_depth env depth dst_contig src_contig non_blocking).1.is_same
                (iter.tensor 0) = true then
              Run.done []
            else
              (copy_at_depth env depth (iter.tensor 0)
                (copy_at_depth env depth dst_contig src_contig non_blocking).1
                non_blocking).2)) := by
  constructor
  · intro ops e h
    unfold staging_temporaries at h
    simp only at h
    split at h
    · split at h
      · split at h
        · rename_i e' hexp
          simp only [Except.error.injEq, Prod.mk.injEq] at h
          unfold expand_as_quantized_dpcpp at hexp
          simp only at hexp
          split at hexp
          · cases hexp
          · simp only [Except.error.injEq] at hexp
            rw [← h.2, ← hexp]
        · cases h
      · cases h
    · cases h
  · intro dst_contig src_contig ops h
    have hagree := staging_temporaries_agree env iter hempty_like hto hexpand hcontiguous hinfer
      dst_contig src_contig ops h
    have hdevice : (copy_at_depth env depth dst_contig src_contig non_blocking).1.device =
        (iter.tensor 0).device := by
      rw [copy_at_depth_device env hquantized, hagree.2.2.2]
    have hsizes : dst_contig.sizes = src_contig.sizes := by rw [hagree.1, hagree.2.1]
    refine ⟨hsizes, hagree.2.2.1, hdevice, ?_⟩
    unfold copy_via_temporaries
    simp only [h, hsizes, hagree.2.2.1, ne_eq, not_true_eq_false, if_false, hdevice, if_true]
    cases hs : (copy_at_depth env depth dst_contig src_contig non_blocking).1.is_same
      (iter.tensor 0) <;> simp

/-- C21, at a concrete input: a strided float destination on XPU 0 with a dense float source
on the host enters the staging branch under the reference collaborators, which keep the
contracts; the temporaries are created and pass the three assertions. -/
theorem C21_staging_assertions_hold_witness :
    copy_requires_temporaries sample_host_to_strided
      (maybe_enable_p2p_access (sample_host_to_strided.device 0)
        (sample_host_to_strided.device 1)) = .ok true ∧
    (∃ dst_contig src_contig ops,
      staging_temporaries aten sample_host_to_strided = .ok (dst_contig, src_contig, ops)) ∧
    (∀ dst_contig src_contig ops,
      staging_temporaries aten sample_host_to_strided = .ok (dst_contig, src_contig, ops) →
        dst_contig.sizes = src_contig.sizes ∧
        dst_contig.dtype = src_contig.dtype ∧
        (copy_at_depth aten 1 dst_contig src_contig false).1.device =
          (sample_host_to_strided.tensor 0).device) :=
  ⟨by rfl, ⟨_, _, _, rfl⟩,
    fun d s ops h =>
      ⟨((C21_staging_assertions_hold aten sample_host_to_strided 1 false
          aten_empty_like_contract aten_to_dtype_contract aten_expand_as_contract
          aten_contiguous_contract aten_inferExpandGeometry_contract
          aten_empty_affine_quantized_contract).2 d s ops h).1,
        ((C21_staging_assertions_hold aten sample_host_to_strided 1 false
          aten_empty_like_contract aten_to_dtype_contract aten_expand_as_contract
          aten_contiguous_contract aten_inferExpandGeometry_contract
          aten_empty_affine_quantized_contract).2 d s ops h).2.1,
        ((C21_staging_assertions_hold aten sample_host_to_strided 1 false
          aten_empty_like_contract aten_to_dtype_contract aten_expand_as_contract
          aten_contiguous_contract aten_inferExpandGeometry_contract
          aten_empty_affine_quantized_contract).2 d s ops h).2.2.1⟩⟩

end IpexCopy
